import Mathlib

/-!
MIPT-MIPS performance simulator: pipeline controller

A shallow embedding of `src/simulator/core/perf_sim.cpp` (class `PerfMIPS`):
the five stage routines, `read_instr`, `check` and the driver `run`.

The collaborators the pipeline talks to (functional instruction model,
register file, branch predictor, memory, reference checker) are kept abstract
in a record `Env`, so every theorem holds for every behaviour of them.
Fatal diagnostics (`serr << ... << critical`) end the process; they are the
error side of `Except Fatal`.
-/

namespace PerfSim

/-- Modelled from the spec: the `Cycle` class of `infra/ports/timing.h`, which
is not among the sources. A cycle count starting at 0 and only incremented. -/
abbrev Cycle := Nat

/-- Modelled from the spec: the `Latency` class of `infra/ports/timing.h`, a
non-negative number of cycles that is added to a `Cycle`. -/
abbrev Latency := Nat

/-- An instruction or data address. The pipeline only copies addresses. -/
abbrev Addr := Nat

/-- Source: `static constexpr const Latency PORT_LATENCY = 1_Lt;` -/
def PORT_LATENCY : Latency := 1

/-- Source: `static constexpr const uint32 PORT_FANOUT = 1;` -/
def PORT_FANOUT : Nat := 1

/-- Source: `static constexpr const uint32 PORT_BW = 1;` -/
def PORT_BW : Nat := 1

/-- Source: `static constexpr const uint32 FLUSHED_STAGES_NUM = 4;` -/
def FLUSHED_STAGES_NUM : Nat := 4

/-- The ways in which the simulator terminates with a fatal diagnostic. -/
inductive Fatal where
  | assert_failed
  | bad_trace
  | port_not_ready
  | port_overloaded
  | port_data_lost
  | deadlock
  | trap
  | mismatch
  deriving DecidableEq, Repr

/-- Contents of the fetch→decode latch. -/
structure IfIdData where
  raw : Nat
  PC : Addr
  predicted_taken : Bool
  predicted_target : Addr
  deriving DecidableEq, Repr

/-! ## Port fabric -/

/-- Modelled from the spec: `ReadPort<T>` of `infra/ports/ports.h`, which is not
among the sources. A read port has the latency it was created with and a FIFO
of values, each stamped with the cycle at which it becomes observable. -/
structure ReadPort (α : Type) where
  latency : Latency
  dataQueue : List (Cycle × α)

/-- Modelled from the spec: `WritePort<T>` of `infra/ports/ports.h`, which is
not among the sources. A write port has a bandwidth (writes allowed per cycle)
and a fanout, and remembers the cycle of its last write and how many writes it
took in that cycle. -/
structure WritePort where
  bandwidth : Nat
  fanout : Nat
  lastCycle : Cycle
  writeCounter : Nat
  deriving DecidableEq, Repr

/-- Modelled from the spec: `make_read_port<T>(name, latency)`; the port starts
with an empty queue. -/
def make_read_port (α : Type) (latency : Latency) : ReadPort α :=
  { latency := latency, dataQueue := [] }

/-- Modelled from the spec: `make_write_port<T>(name, bandwidth, fanout)`. -/
def make_write_port (bandwidth fanout : Nat) : WritePort :=
  { bandwidth := bandwidth, fanout := fanout, lastCycle := 0, writeCounter := 0 }

/-- Modelled from the spec: `ReadPort::is_ready(cycle)`, true iff the head of
the FIFO is timestamped ≤ cycle. -/
def ReadPort.is_ready {α : Type} (p : ReadPort α) (cycle : Cycle) : Bool :=
  match p.dataQueue with
  | [] => false
  | e :: _ => decide (e.1 ≤ cycle)

/-- Modelled from the spec: `ReadPort::read(cycle)`, precondition
`is_ready(cycle)`; dequeues and returns the head value. Reading a port that is
not ready is a port protocol violation. -/
def ReadPort.read {α : Type} (p : ReadPort α) (cycle : Cycle) :
    Except Fatal (α × ReadPort α) :=
  match p.dataQueue with
  | [] => .error .port_not_ready
  | e :: rest =>
    if e.1 ≤ cycle then .ok (e.2, { p with dataQueue := rest })
    else .error .port_not_ready

/-- Modelled from the spec: `ReadPort::ignore(cycle)`: if ready, drop;
otherwise no-op. -/
def ReadPort.ignore {α : Type} (p : ReadPort α) (cycle : Cycle) : ReadPort α :=
  match p.dataQueue with
  | [] => p
  | e :: rest => if e.1 ≤ cycle then { p with dataQueue := rest } else p

/-- Modelled from the spec: what `WritePort::write(value, cycle)` does on each
bound read port: enqueue `(cycle + latency, value)`. -/
def ReadPort.pushData {α : Type} (p : ReadPort α) (what : α) (cycle : Cycle) :
    ReadPort α :=
  { p with dataQueue := p.dataQueue ++ [(cycle + p.latency, what)] }

/-- Modelled from the spec: the per-port part of `check_ports(cycle)`: true iff
no value timestamped `< cycle` is still present. -/
def ReadPort.check {α : Type} (p : ReadPort α) (cycle : Cycle) : Bool :=
  p.dataQueue.all (fun e => decide (cycle ≤ e.1))

/-- Modelled from the spec: the writer side of `WritePort::write(value, cycle)`:
writing on the same port in the same cycle beyond its bandwidth is fatal. -/
def WritePort.write (w : WritePort) (cycle : Cycle) : Except Fatal WritePort :=
  let cnt := if w.lastCycle = cycle then w.writeCounter else 0
  if cnt < w.bandwidth then
    .ok { w with lastCycle := cycle, writeCounter := cnt + 1 }
  else .error .port_overloaded

/-- Source: the expression `rp->is_ready( cycle) && rp->read( cycle)` by which a
stage receives a boolean signal: the port is read only when it is ready. -/
def ReadPort.ready_and_read (p : ReadPort Bool) (cycle : Cycle) :
    Except Fatal (Bool × ReadPort Bool) :=
  if p.is_ready cycle then p.read cycle else pure (false, p)

/-! ## External collaborators -/

/-- The collaborators of the pipeline controller, none of which is among the
sources: the functional instruction model `FuncInstr`, the register file `RF`,
the branch predictor, `MIPSMemory`, the reference simulator used as checker,
and the constant `MAX_VAL32`. Nothing is assumed about them. -/
structure Env where
  Instr : Type
  RF : Type
  BP : Type
  Mem : Type
  Chk : Type
  /-- the bound of `assert( instrs_to_run < MAX_VAL32)` -/
  MAX_VAL32 : Nat
  /-- Source: `FuncInstr( raw, PC, predicted_taken, predicted_target)` -/
  FuncInstr : Nat → Addr → Bool → Addr → Instr
  /-- Source: `instr.execute()` -/
  execute : Instr → Instr
  /-- Source: `instr.check_trap()`; `none` when a trap is reported (fatal) -/
  check_trap : Instr → Option Instr
  is_jump : Instr → Bool
  is_jump_taken : Instr → Bool
  is_misprediction : Instr → Bool
  get_PC : Instr → Addr
  get_new_PC : Instr → Addr
  Dump : Instr → String
  /-- Source: `rf->check_sources( instr)` -/
  check_sources : RF → Instr → Bool
  /-- Source: `rf->read_sources( &instr)` -/
  read_sources : RF → Instr → RF × Instr
  /-- Source: `rf->write_dst( instr)` -/
  write_dst : RF → Instr → RF
  /-- Source: `rf->cancel( instr)` -/
  cancel : RF → Instr → RF
  /-- Source: `bp->is_taken( PC)` -/
  is_taken : BP → Addr → Bool
  /-- Source: `bp->get_target( PC)` -/
  get_target : BP → Addr → Addr
  /-- Source: `bp->update( actually_taken, PC, real_target)` -/
  update : BP → Bool → Addr → Addr → BP
  /-- Source: `new MIPSMemory( tr)`; `none` when the trace cannot be loaded (fatal) -/
  MIPSMemory : String → Option Mem
  /-- Source: `memory->startPC()` -/
  startPC : Mem → Addr
  /-- Source: `memory->fetch( PC)` -/
  fetch : Mem → Addr → Nat
  /-- Source: `memory->load_store( &instr)` -/
  load_store : Mem → Instr → Mem × Instr
  /-- Source: `checker.init( tr)`; `none` when the trace cannot be loaded (fatal) -/
  checker_init : Chk → String → Option Chk
  /-- Source: `checker.step()`: the advanced checker and the reference instruction -/
  step : Chk → Chk × Instr

/-! ## Observable traces -/

/-- The five stages, as named at the start of their log lines. -/
inductive Stage where
  | fetch
  | decode
  | execute
  | memory
  | wb
  deriving DecidableEq, Repr

/-- The payload of a stage's log line. -/
inductive Payload (E : Env) where
  /-- Source: `"bubble\n"` -/
  | bubble
  /-- Source: `"flush\n"` -/
  | flush
  /-- fetch: `"0x" << PC << ": 0x" << data.raw` -/
  | fetched (PC : Addr) (raw : Nat)
  /-- Source: `sout << instr << std::endl` -/
  | instr (i : E.Instr)
  /-- decode: `sout << instr << " (data hazard)\n"` -/
  | hazard (i : E.Instr)
  /-- memory: `"misprediction on "` followed by the instruction -/
  | misprediction (i : E.Instr)

/-- A line written to `sout`. -/
inductive LogLine (E : Env) where
  /-- Source: `"<stage> cycle <cycle>: <payload>"` -/
  | stage (st : Stage) (cycle : Cycle) (p : Payload E)
  /-- Source: `"Executed instructions: " << executed_instrs` -/
  | executed (n : Nat)

/-- A call made by the pipeline to one of its collaborators. -/
inductive Call (E : Env) where
  | mem_fetch (PC : Addr)
  | bp_is_taken (PC : Addr)
  | bp_get_target (PC : Addr)
  | bp_update (actually_taken : Bool) (PC : Addr) (real_target : Addr)
  | rf_check_sources (i : E.Instr)
  | rf_read_sources (i : E.Instr)
  | rf_write_dst (i : E.Instr)
  | rf_cancel (i : E.Instr)
  | instr_execute (i : E.Instr)
  | instr_check_trap (i : E.Instr)
  | mem_load_store (i : E.Instr)
  | checker_step

/-! ## The simulator object -/

/-- The members of `PerfMIPS`. `sout` is the text written to the log and
`calls` records, in order, the calls made to the collaborators. -/
structure PerfMIPS (E : Env) where
  executed_instrs : Nat
  last_writeback_cycle : Cycle
  PC : Addr
  new_PC : Addr
  rf : E.RF
  bp : E.BP
  memory : E.Mem
  checker : E.Chk
  wp_fetch_2_decode : WritePort
  rp_fetch_2_decode : ReadPort IfIdData
  wp_decode_2_fetch_stall : WritePort
  rp_decode_2_fetch_stall : ReadPort Bool
  wp_decode_2_decode : WritePort
  rp_decode_2_decode : ReadPort E.Instr
  wp_decode_2_execute : WritePort
  rp_decode_2_execute : ReadPort E.Instr
  wp_execute_2_memory : WritePort
  rp_execute_2_memory : ReadPort E.Instr
  wp_memory_2_writeback : WritePort
  rp_memory_2_writeback : ReadPort E.Instr
  wp_memory_2_all_flush : WritePort
  rp_fetch_flush : ReadPort Bool
  rp_decode_flush : ReadPort Bool
  rp_execute_flush : ReadPort Bool
  rp_memory_flush : ReadPort Bool
  wp_memory_2_fetch_target : WritePort
  rp_memory_2_fetch_target : ReadPort Addr
  sout : List (LogLine E)
  calls : List (Call E)

variable {E : Env}

/-- The constructor `PerfMIPS::PerfMIPS`. Its arguments are the members the
constructor body does not assign: the register file `new RF`, the predictor
built by the factory, the checker, and the members left to their declaration
(`PC`, `new_PC`, `last_writeback_cycle`, `memory`). -/
def PerfMIPS.new (E : Env) (rf : E.RF) (bp : E.BP) (checker : E.Chk) (memory : E.Mem)
    (PC new_PC : Addr) (last_writeback_cycle : Cycle) : PerfMIPS E :=
  { executed_instrs := 0
    last_writeback_cycle := last_writeback_cycle
    PC := PC
    new_PC := new_PC
    rf := rf
    bp := bp
    memory := memory
    checker := checker
    wp_fetch_2_decode := make_write_port PORT_BW PORT_FANOUT
    rp_fetch_2_decode := make_read_port IfIdData PORT_LATENCY
    wp_decode_2_fetch_stall := make_write_port PORT_BW PORT_FANOUT
    rp_decode_2_fetch_stall := make_read_port Bool PORT_LATENCY
    wp_decode_2_decode := make_write_port PORT_BW PORT_FANOUT
    rp_decode_2_decode := make_read_port E.Instr PORT_LATENCY
    wp_decode_2_execute := make_write_port PORT_BW PORT_FANOUT
    rp_decode_2_execute := make_read_port E.Instr PORT_LATENCY
    wp_execute_2_memory := make_write_port PORT_BW PORT_FANOUT
    rp_execute_2_memory := make_read_port E.Instr PORT_LATENCY
    wp_memory_2_writeback := make_write_port PORT_BW PORT_FANOUT
    rp_memory_2_writeback := make_read_port E.Instr PORT_LATENCY
    wp_memory_2_all_flush := make_write_port PORT_BW FLUSHED_STAGES_NUM
    rp_fetch_flush := make_read_port Bool PORT_LATENCY
    rp_decode_flush := make_read_port Bool PORT_LATENCY
    rp_execute_flush := make_read_port Bool PORT_LATENCY
    rp_memory_flush := make_read_port Bool PORT_LATENCY
    wp_memory_2_fetch_target := make_write_port PORT_BW PORT_FANOUT
    rp_memory_2_fetch_target := make_read_port Addr PORT_LATENCY
    sout := []
    calls := [] }

/-- Append one stage line to `sout`. -/
def PerfMIPS.log (s : PerfMIPS E) (st : Stage) (cycle : Cycle) (p : Payload E) :
    PerfMIPS E :=
  { s with sout := s.sout ++ [LogLine.stage st cycle p] }

/-- Record one call to a collaborator. -/
def PerfMIPS.call (s : PerfMIPS E) (c : Call E) : PerfMIPS E :=
  { s with calls := s.calls ++ [c] }

/-! ### Writes, with the binding of each write port to its read ports -/

/-- Source: `wp_fetch_2_decode->write( data, cycle)` -/
def PerfMIPS.write_fetch_2_decode (s : PerfMIPS E) (data : IfIdData) (cycle : Cycle) :
    Except Fatal (PerfMIPS E) := do
  let w ← s.wp_fetch_2_decode.write cycle
  pure { s with wp_fetch_2_decode := w
                rp_fetch_2_decode := s.rp_fetch_2_decode.pushData data cycle }

/-- Source: `wp_decode_2_fetch_stall->write( v, cycle)` -/
def PerfMIPS.write_decode_2_fetch_stall (s : PerfMIPS E) (v : Bool) (cycle : Cycle) :
    Except Fatal (PerfMIPS E) := do
  let w ← s.wp_decode_2_fetch_stall.write cycle
  pure { s with wp_decode_2_fetch_stall := w
                rp_decode_2_fetch_stall := s.rp_decode_2_fetch_stall.pushData v cycle }

/-- Source: `wp_decode_2_decode->write( instr, cycle)` -/
def PerfMIPS.write_decode_2_decode (s : PerfMIPS E) (instr : E.Instr) (cycle : Cycle) :
    Except Fatal (PerfMIPS E) := do
  let w ← s.wp_decode_2_decode.write cycle
  pure { s with wp_decode_2_decode := w
                rp_decode_2_decode := s.rp_decode_2_decode.pushData instr cycle }

/-- Source: `wp_decode_2_execute->write( instr, cycle)` -/
def PerfMIPS.write_decode_2_execute (s : PerfMIPS E) (instr : E.Instr) (cycle : Cycle) :
    Except Fatal (PerfMIPS E) := do
  let w ← s.wp_decode_2_execute.write cycle
  pure { s with wp_decode_2_execute := w
                rp_decode_2_execute := s.rp_decode_2_execute.pushData instr cycle }

/-- Source: `wp_execute_2_memory->write( instr, cycle)` -/
def PerfMIPS.write_execute_2_memory (s : PerfMIPS E) (instr : E.Instr) (cycle : Cycle) :
    Except Fatal (PerfMIPS E) := do
  let w ← s.wp_execute_2_memory.write cycle
  pure { s with wp_execute_2_memory := w
                rp_execute_2_memory := s.rp_execute_2_memory.pushData instr cycle }

/-- Source: `wp_memory_2_writeback->write( instr, cycle)` -/
def PerfMIPS.write_memory_2_writeback (s : PerfMIPS E) (instr : E.Instr) (cycle : Cycle) :
    Except Fatal (PerfMIPS E) := do
  let w ← s.wp_memory_2_writeback.write cycle
  pure { s with wp_memory_2_writeback := w
                rp_memory_2_writeback := s.rp_memory_2_writeback.pushData instr cycle }

/-- Source: `wp_memory_2_all_flush->write( v, cycle)`: one writer, delivered to the
flush read ports of fetch, decode, execute and memory. -/
def PerfMIPS.write_memory_2_all_flush (s : PerfMIPS E) (v : Bool) (cycle : Cycle) :
    Except Fatal (PerfMIPS E) := do
  let w ← s.wp_memory_2_all_flush.write cycle
  pure { s with wp_memory_2_all_flush := w
                rp_fetch_flush := s.rp_fetch_flush.pushData v cycle
                rp_decode_flush := s.rp_decode_flush.pushData v cycle
                rp_execute_flush := s.rp_execute_flush.pushData v cycle
                rp_memory_flush := s.rp_memory_flush.pushData v cycle }

/-- Source: `wp_memory_2_fetch_target->write( target, cycle)` -/
def PerfMIPS.write_memory_2_fetch_target (s : PerfMIPS E) (target : Addr) (cycle : Cycle) :
    Except Fatal (PerfMIPS E) := do
  let w ← s.wp_memory_2_fetch_target.write cycle
  pure { s with wp_memory_2_fetch_target := w
                rp_memory_2_fetch_target := s.rp_memory_2_fetch_target.pushData target cycle }

/-! ### The stage routines -/

/-- Source: `PerfMIPS::read_instr`. -/
def PerfMIPS.read_instr (s : PerfMIPS E) (cycle : Cycle) :
    Except Fatal (E.Instr × PerfMIPS E) :=
  if s.rp_decode_2_decode.is_ready cycle then do
    let s := { s with rp_fetch_2_decode := s.rp_fetch_2_decode.ignore cycle }
    let (instr, q) ← s.rp_decode_2_decode.read cycle
    pure (instr, { s with rp_decode_2_decode := q })
  else do
    let (_data, q) ← s.rp_fetch_2_decode.read cycle
    let s := { s with rp_fetch_2_decode := q }
    let instr := E.FuncInstr _data.raw _data.PC _data.predicted_taken _data.predicted_target
    pure (instr, s)

/-- Source: `PerfMIPS::clock_fetch`. -/
def PerfMIPS.clock_fetch (s : PerfMIPS E) (cycle : Cycle) : Except Fatal (PerfMIPS E) := do
  /- receive flush and stall signals -/
  let (is_flush, q) ← s.rp_fetch_flush.ready_and_read cycle
  let s := { s with rp_fetch_flush := q }
  let (is_stall, q) ← s.rp_decode_2_fetch_stall.ready_and_read cycle
  let s := { s with rp_decode_2_fetch_stall := q }
  /- updating PC -/
  let s ←
    (if is_flush then do
      let (target, q) ← s.rp_memory_2_fetch_target.read cycle
      pure { s with PC := target, rp_memory_2_fetch_target := q }
    else if !is_stall then pure { s with PC := s.new_PC }
    else pure s)
  /- fetching instruction, saving predictions -/
  let data : IfIdData :=
    { raw := E.fetch s.memory s.PC
      PC := s.PC
      predicted_taken := E.is_taken s.bp s.PC
      predicted_target := E.get_target s.bp s.PC }
  let s := ((s.call (.mem_fetch s.PC)).call (.bp_is_taken s.PC)).call (.bp_get_target s.PC)
  /- updating PC according to prediction -/
  let s := { s with new_PC := data.predicted_target }
  /- sending to decode -/
  let s ← s.write_fetch_2_decode data cycle
  pure (s.log .fetch cycle (.fetched s.PC data.raw))

/-- Source: `PerfMIPS::clock_decode`. -/
def PerfMIPS.clock_decode (s : PerfMIPS E) (cycle : Cycle) : Except Fatal (PerfMIPS E) := do
  /- receive flush signal -/
  let (is_flush, q) ← s.rp_decode_flush.ready_and_read cycle
  let s := { s with rp_decode_flush := q }
  /- branch misprediction -/
  if is_flush then
    let s := { s with rp_fetch_2_decode := s.rp_fetch_2_decode.ignore cycle }
    let s := { s with rp_decode_2_decode := s.rp_decode_2_decode.ignore cycle }
    pure (s.log .decode cycle .flush)
  /- check if there is something to process -/
  else if !s.rp_fetch_2_decode.is_ready cycle && !s.rp_decode_2_decode.is_ready cycle then
    pure (s.log .decode cycle .bubble)
  else do
    let (instr, s) ← s.read_instr cycle
    if E.check_sources s.rf instr then do
      let s := s.call (.rf_check_sources instr)
      let r := E.read_sources s.rf instr
      let s := { s with rf := r.1 }.call (.rf_read_sources instr)
      let instr := r.2
      let s ← s.write_decode_2_execute instr cycle
      pure (s.log .decode cycle (.instr instr))
    else do
      let s := s.call (.rf_check_sources instr)
      let s ← s.write_decode_2_fetch_stall true cycle
      let s ← s.write_decode_2_decode instr cycle
      pure (s.log .decode cycle (.hazard instr))

/-- Source: `PerfMIPS::clock_execute`. -/
def PerfMIPS.clock_execute (s : PerfMIPS E) (cycle : Cycle) : Except Fatal (PerfMIPS E) := do
  /- receive flush signal -/
  let (is_flush, q) ← s.rp_execute_flush.ready_and_read cycle
  let s := { s with rp_execute_flush := q }
  /- branch misprediction -/
  if is_flush then
    if s.rp_decode_2_execute.is_ready cycle then do
      let (instr, q) ← s.rp_decode_2_execute.read cycle
      let s := { s with rp_decode_2_execute := q }
      let s := { s with rf := E.cancel s.rf instr }.call (.rf_cancel instr)
      pure (s.log .execute cycle .flush)
    else
      pure (s.log .execute cycle .flush)
  /- check if there is something to process -/
  else if !s.rp_decode_2_execute.is_ready cycle then
    pure (s.log .execute cycle .bubble)
  else do
    let (instr, q) ← s.rp_decode_2_execute.read cycle
    let s := { s with rp_decode_2_execute := q }
    /- perform execution -/
    let s := s.call (.instr_execute instr)
    let instr := E.execute instr
    let s ← s.write_execute_2_memory instr cycle
    pure (s.log .execute cycle (.instr instr))

/-- Source: `PerfMIPS::clock_memory`. -/
def PerfMIPS.clock_memory (s : PerfMIPS E) (cycle : Cycle) : Except Fatal (PerfMIPS E) := do
  /- receive flush signal -/
  let (is_flush, q) ← s.rp_memory_flush.ready_and_read cycle
  let s := { s with rp_memory_flush := q }
  /- branch misprediction -/
  if is_flush then
    if s.rp_execute_2_memory.is_ready cycle then do
      let (instr, q) ← s.rp_execute_2_memory.read cycle
      let s := { s with rp_execute_2_memory := q }
      let s := { s with rf := E.cancel s.rf instr }.call (.rf_cancel instr)
      pure (s.log .memory cycle .flush)
    else
      pure (s.log .memory cycle .flush)
  /- check if there is something to process -/
  else if !s.rp_execute_2_memory.is_ready cycle then
    pure (s.log .memory cycle .bubble)
  else do
    let (instr, q) ← s.rp_execute_2_memory.read cycle
    let s := { s with rp_execute_2_memory := q }
    let (mispredicted, s) ←
      (if E.is_jump instr then do
        /- acquiring real information for BPU -/
        let actually_taken := E.is_jump_taken instr
        let real_target := E.get_new_PC instr
        let s := { s with bp := E.update s.bp actually_taken (E.get_PC instr) real_target }.call
          (.bp_update actually_taken (E.get_PC instr) real_target)
        /- handle misprediction -/
        if E.is_misprediction instr then do
          let s ← s.write_memory_2_all_flush true cycle
          let s ← s.write_memory_2_fetch_target real_target cycle
          pure (true, s)
        else pure (false, s)
      else pure (false, s))
    /- perform required loads and stores -/
    let r := E.load_store s.memory instr
    let s := { s with memory := r.1 }.call (.mem_load_store instr)
    let instr := r.2
    let s ← s.write_memory_2_writeback instr cycle
    pure (s.log .memory cycle (if mispredicted then .misprediction instr else .instr instr))

/-- Source: `PerfMIPS::check`. -/
def PerfMIPS.check (s : PerfMIPS E) (instr : E.Instr) : Except Fatal (PerfMIPS E) :=
  let r := E.step s.checker
  let s := { s with checker := r.1 }.call .checker_step
  let func_dump := r.2
  if E.Dump func_dump ≠ E.Dump instr then .error .mismatch
  else .ok s

/-- Source: `PerfMIPS::clock_writeback`. `executed_instrs` is a 64-bit counter. -/
def PerfMIPS.clock_writeback (s : PerfMIPS E) (cycle : Cycle) : Except Fatal (PerfMIPS E) :=
  /- check if there is something to process -/
  if !s.rp_memory_2_writeback.is_ready cycle then
    let s := s.log .wb cycle .bubble
    if cycle ≥ s.last_writeback_cycle + 10 then .error .deadlock
    else .ok s
  else do
    let (instr, q) ← s.rp_memory_2_writeback.read cycle
    let s := { s with rp_memory_2_writeback := q }
    /- perform writeback -/
    let s := { s with rf := E.write_dst s.rf instr }.call (.rf_write_dst instr)
    /- check for traps -/
    let s := s.call (.instr_check_trap instr)
    match E.check_trap instr with
    | none => .error .trap
    | some instr =>
      let s := s.log .wb cycle (.instr instr)
      /- perform checks -/
      let s ← s.check instr
      /- update simulator cycles info -/
      pure { s with executed_instrs := (s.executed_instrs + 1) % 2 ^ 64
                    last_writeback_cycle := cycle }

/-! ### The driver -/

/-- Modelled from the spec: `check_ports(cycle)` of `infra/ports/ports.h`, which
is not among the sources: scans all read ports; true iff none of them still
holds a value timestamped `< cycle`. -/
def PerfMIPS.check_ports (s : PerfMIPS E) (cycle : Cycle) : Bool :=
  s.rp_fetch_2_decode.check cycle && s.rp_decode_2_fetch_stall.check cycle &&
  s.rp_decode_2_decode.check cycle && s.rp_decode_2_execute.check cycle &&
  s.rp_execute_2_memory.check cycle && s.rp_memory_2_writeback.check cycle &&
  s.rp_fetch_flush.check cycle && s.rp_decode_flush.check cycle &&
  s.rp_execute_flush.check cycle && s.rp_memory_flush.check cycle &&
  s.rp_memory_2_fetch_target.check cycle

/-- The five stage calls of one iteration of the loop of `run`, in the order of
the source: writeback, fetch, decode, execute, memory. -/
def PerfMIPS.clock_stages (s : PerfMIPS E) (cycle : Cycle) : Except Fatal (PerfMIPS E) := do
  let s ← s.clock_writeback cycle
  let s ← s.clock_fetch cycle
  let s ← s.clock_decode cycle
  let s ← s.clock_execute cycle
  s.clock_memory cycle

/-- One iteration of the loop of `run` started at `cycle`: the five stages,
`cycle.inc()`, the "Executed instructions" line and `check_ports`. -/
def PerfMIPS.iteration (s : PerfMIPS E) (cycle : Cycle) :
    Except Fatal (PerfMIPS E × Cycle) := do
  let s ← s.clock_stages cycle
  let cycle := cycle + 1
  let s := { s with sout := s.sout ++ [LogLine.executed s.executed_instrs] }
  if s.check_ports cycle then pure (s, cycle) else .error .port_data_lost

/-- The loop `while (executed_instrs < instrs_to_run)` of `run`, given `fuel`
iterations: `none` when the fuel does not suffice, otherwise the fatal error
that ended the process or the state and cycle on loop exit. -/
def PerfMIPS.run_loop (instrs_to_run : Nat) :
    Nat → PerfMIPS E → Cycle → Option (Except Fatal (PerfMIPS E × Cycle))
  | fuel, s, cycle =>
    if s.executed_instrs < instrs_to_run then
      match fuel with
      | 0 => none
      | fuel + 1 =>
        match s.iteration cycle with
        | .error e => some (.error e)
        | .ok (s, cycle) => PerfMIPS.run_loop instrs_to_run fuel s cycle
    else some (.ok (s, cycle))

/-- Source: `PerfMIPS::run`, up to the end of its loop (the summary printed afterwards
reports wall-clock figures and changes no member). -/
def PerfMIPS.run (s : PerfMIPS E) (tr : String) (instrs_to_run : Nat) (fuel : Nat) :
    Option (Except Fatal (PerfMIPS E × Cycle)) :=
  if instrs_to_run < E.MAX_VAL32 then
    match E.MIPSMemory tr with
    | none => some (.error .bad_trace)
    | some m =>
      match E.checker_init s.checker tr with
      | none => some (.error .bad_trace)
      | some chk =>
        let s := { s with memory := m, checker := chk }
        let s := { s with new_PC := E.startPC s.memory }
        PerfMIPS.run_loop instrs_to_run fuel s 0
  else some (.error .assert_failed)

/-! ## Auxiliary definitions for the proofs -/

/-- The value of a boolean signal port as a stage receives it, that is the
value of `rp->is_ready( cycle) && rp->read( cycle)`. -/
def ReadPort.signal (p : ReadPort Bool) (c : Cycle) : Bool :=
  match p.dataQueue with
  | [] => false
  | e :: _ => decide (e.1 ≤ c) && e.2

/-- The value at the head of the queue, if any. -/
def ReadPort.front? {α : Type} (p : ReadPort α) : Option α :=
  match p.dataQueue with
  | [] => none
  | e :: _ => some e.2

/-- Shape of a read-port queue inside cycle `c`: latency 1, at most one value
still pending for this cycle (stamp `c`, only while `pending`) followed by at
most one value written in this cycle (stamp `c + 1`, only once `fresh`). -/
def ReadPort.shape {α : Type} (p : ReadPort α) (c : Cycle) (pending fresh : Bool) : Bool :=
  p.latency == 1 &&
  match p.dataQueue with
  | [] => true
  | [e] => (pending && e.1 == c) || (fresh && e.1 == c + 1)
  | [e1, e2] => pending && fresh && e1.1 == c && e2.1 == c + 1
  | _ => false

/-- Shape of a write port inside cycle `c`: bandwidth 1 and, unless its writer
has already run in this cycle (`fresh`), not yet written in cycle `c`. -/
def WritePort.shape (w : WritePort) (c : Cycle) (fresh : Bool) : Bool :=
  w.bandwidth == 1 &&
  (w.writeCounter == 0 || decide (w.lastCycle < c) || (fresh && w.lastCycle == c))

/-- The write port after its single write of cycle `c`. -/
def WritePort.written (w : WritePort) (c : Cycle) : WritePort :=
  { w with lastCycle := c, writeCounter := 1 }

/-- The port invariant of the driver loop at cycle `c` after `k` of the five
stage calls of the iteration (0: none yet, 1: writeback, 2: fetch, 3: decode,
4: execute, 5: memory). Every read port has latency 1 and holds at most the
value its reader has still to consume in this cycle and the value its writer
produced in this cycle; every write port has bandwidth 1 and was not written in
this cycle before its writer ran; flush values are `true`; the fetch-target
port holds a value exactly when the flush port of fetch does; between two
iterations the four flush ports hold the same; the last value on fetch→decode
was fetched at `PC`, and once fetch has run it is the value of this cycle. -/
@[mk_iff]
structure Inv (s : PerfMIPS E) (c : Cycle) (k : Nat) : Prop where
  f2d : s.rp_fetch_2_decode.shape c (decide (k ≤ 2)) (decide (1 < k)) = true
  stall : s.rp_decode_2_fetch_stall.shape c (decide (k ≤ 1)) (decide (2 < k)) = true
  d2d : s.rp_decode_2_decode.shape c (decide (k ≤ 2)) (decide (2 < k)) = true
  d2e : s.rp_decode_2_execute.shape c (decide (k ≤ 3)) (decide (2 < k)) = true
  e2m : s.rp_execute_2_memory.shape c (decide (k ≤ 4)) (decide (3 < k)) = true
  m2w : s.rp_memory_2_writeback.shape c (decide (k ≤ 0)) (decide (4 < k)) = true
  fflush : s.rp_fetch_flush.shape c (decide (k ≤ 1)) (decide (4 < k)) = true
  dflush : s.rp_decode_flush.shape c (decide (k ≤ 2)) (decide (4 < k)) = true
  eflush : s.rp_execute_flush.shape c (decide (k ≤ 3)) (decide (4 < k)) = true
  mflush : s.rp_memory_flush.shape c (decide (k ≤ 4)) (decide (4 < k)) = true
  target : s.rp_memory_2_fetch_target.shape c (decide (k ≤ 1)) (decide (4 < k)) = true
  w_f2d : s.wp_fetch_2_decode.shape c (decide (1 < k)) = true
  w_stall : s.wp_decode_2_fetch_stall.shape c (decide (2 < k)) = true
  w_d2d : s.wp_decode_2_decode.shape c (decide (2 < k)) = true
  w_d2e : s.wp_decode_2_execute.shape c (decide (2 < k)) = true
  w_e2m : s.wp_execute_2_memory.shape c (decide (3 < k)) = true
  w_m2w : s.wp_memory_2_writeback.shape c (decide (4 < k)) = true
  w_flush : s.wp_memory_2_all_flush.shape c (decide (4 < k)) = true
  w_target : s.wp_memory_2_fetch_target.shape c (decide (4 < k)) = true
  fflush_true : s.rp_fetch_flush.dataQueue.all (fun e => e.2) = true
  dflush_true : s.rp_decode_flush.dataQueue.all (fun e => e.2) = true
  eflush_true : s.rp_execute_flush.dataQueue.all (fun e => e.2) = true
  mflush_true : s.rp_memory_flush.dataQueue.all (fun e => e.2) = true
  target_flush : s.rp_memory_2_fetch_target.dataQueue.map (fun e => e.1) =
    s.rp_fetch_flush.dataQueue.map (fun e => e.1)
  flush_eq : k = 0 ∨ k = 5 →
    s.rp_fetch_flush.dataQueue = s.rp_decode_flush.dataQueue ∧
    s.rp_decode_flush.dataQueue = s.rp_execute_flush.dataQueue ∧
    s.rp_execute_flush.dataQueue = s.rp_memory_flush.dataQueue
  f2d_pc : s.rp_fetch_2_decode.dataQueue.getLast?.all (fun e => e.2.PC == s.PC) = true
  f2d_fresh : 2 ≤ k →
    s.rp_fetch_2_decode.dataQueue.getLast?.any (fun e => e.1 == c + 1) = true

instance (s : PerfMIPS E) (c : Cycle) (k : Nat) : Decidable (Inv s c k) :=
  decidable_of_iff _ (inv_iff s c k).symm

/-- At the start of cycle `c` decode is stalled on `instr`: the stall signal and
`instr` on the self-loop are pending for this cycle, the fetch→decode latch
holds one value, fetched at `P`, which is still `PC`, and nothing is pending
for execute. -/
structure Stalling (t : PerfMIPS E) (c : Cycle) (instr : E.Instr) (P : Addr) : Prop where
  inv : Inv t c 0
  stall : t.rp_decode_2_fetch_stall.dataQueue = [(c, true)]
  loop : t.rp_decode_2_decode.dataQueue = [(c, instr)]
  latch : ∃ d, t.rp_fetch_2_decode.dataQueue = [(c, d)] ∧ d.PC = P
  pc : t.PC = P
  issue : t.rp_decode_2_execute.dataQueue = []

/-- At the start of cycle `c` the stall is over: no stall signal and nothing on
the self-loop, `instr` is pending for execute, and the fetch→decode latch holds
the one value `d`, fetched at `PC`. -/
structure Released (t : PerfMIPS E) (c : Cycle) (instr : E.Instr) (d : IfIdData) : Prop where
  inv : Inv t c 0
  stall : t.rp_decode_2_fetch_stall.dataQueue = []
  loop : t.rp_decode_2_decode.dataQueue = []
  latch : t.rp_fetch_2_decode.dataQueue = [(c, d)]
  pc : t.PC = d.PC
  issue : t.rp_decode_2_execute.dataQueue = [(c, instr)]

/-! ### The states the stages leave, one definition per path -/

/-- Writeback that retires `instr` (`instr'` after `check_trap`). -/
def PerfMIPS.retired (s : PerfMIPS E) (c : Cycle) (instr instr' : E.Instr) : PerfMIPS E :=
  { s with
    rp_memory_2_writeback := s.rp_memory_2_writeback.ignore c
    rf := E.write_dst s.rf instr
    checker := (E.step s.checker).1
    calls := s.calls ++ [.rf_write_dst instr, .instr_check_trap instr, .checker_step]
    sout := s.sout ++ [.stage .wb c (.instr instr')]
    executed_instrs := (s.executed_instrs + 1) % 2 ^ 64
    last_writeback_cycle := c }

/-- Fetch that selects `pc` and whose write leaves the write port as `w`; the
fetch-target port is not included. -/
def PerfMIPS.fetched (s : PerfMIPS E) (c : Cycle) (pc : Addr) (w : WritePort) : PerfMIPS E :=
  { s with
    PC := pc
    new_PC := E.get_target s.bp pc
    rp_fetch_flush := s.rp_fetch_flush.ignore c
    rp_decode_2_fetch_stall := s.rp_decode_2_fetch_stall.ignore c
    wp_fetch_2_decode := w
    rp_fetch_2_decode := s.rp_fetch_2_decode.pushData
      { raw := E.fetch s.memory pc, PC := pc, predicted_taken := E.is_taken s.bp pc,
        predicted_target := E.get_target s.bp pc } c
    calls := s.calls ++ [.mem_fetch pc, .bp_is_taken pc, .bp_get_target pc]
    sout := s.sout ++ [.stage .fetch c (.fetched pc (E.fetch s.memory pc))] }

/-- Decode with its three inputs consumed and payload `p` logged. -/
def PerfMIPS.decode_in (s : PerfMIPS E) (c : Cycle) (p : Payload E) : PerfMIPS E :=
  { s with
    rp_decode_flush := s.rp_decode_flush.ignore c
    rp_fetch_2_decode := s.rp_fetch_2_decode.ignore c
    rp_decode_2_decode := s.rp_decode_2_decode.ignore c
    sout := s.sout ++ [.stage .decode c p] }

/-- Decode that sends `instr` to execute; `w` is the write port afterwards. -/
def PerfMIPS.issued (s : PerfMIPS E) (c : Cycle) (instr : E.Instr) (w : WritePort) :
    PerfMIPS E :=
  { s.decode_in c (.instr (E.read_sources s.rf instr).2) with
    rf := (E.read_sources s.rf instr).1
    calls := s.calls ++ [.rf_check_sources instr, .rf_read_sources instr]
    wp_decode_2_execute := w
    rp_decode_2_execute := s.rp_decode_2_execute.pushData (E.read_sources s.rf instr).2 c }

/-- Decode that finds a data hazard on `instr`; `w1` and `w2` are the stall and
self-loop write ports afterwards. -/
def PerfMIPS.stalled (s : PerfMIPS E) (c : Cycle) (instr : E.Instr) (w1 w2 : WritePort) :
    PerfMIPS E :=
  { s.decode_in c (.hazard instr) with
    calls := s.calls ++ [.rf_check_sources instr]
    wp_decode_2_fetch_stall := w1
    rp_decode_2_fetch_stall := s.rp_decode_2_fetch_stall.pushData true c
    wp_decode_2_decode := w2
    rp_decode_2_decode := (s.rp_decode_2_decode.ignore c).pushData instr c }

/-- Execute with its two inputs consumed and payload `p` logged. -/
def PerfMIPS.execute_in (s : PerfMIPS E) (c : Cycle) (p : Payload E) : PerfMIPS E :=
  { s with
    rp_execute_flush := s.rp_execute_flush.ignore c
    rp_decode_2_execute := s.rp_decode_2_execute.ignore c
    sout := s.sout ++ [.stage .execute c p] }

/-- Execute that is flushed while holding `instr`. -/
def PerfMIPS.execute_cancelled (s : PerfMIPS E) (c : Cycle) (instr : E.Instr) : PerfMIPS E :=
  { s.execute_in c .flush with
    rf := E.cancel s.rf instr
    calls := s.calls ++ [.rf_cancel instr] }

/-- Execute that executes `instr`; `w` is the write port afterwards. -/
def PerfMIPS.executed (s : PerfMIPS E) (c : Cycle) (instr : E.Instr) (w : WritePort) :
    PerfMIPS E :=
  { s.execute_in c (.instr (E.execute instr)) with
    calls := s.calls ++ [.instr_execute instr]
    wp_execute_2_memory := w
    rp_execute_2_memory := s.rp_execute_2_memory.pushData (E.execute instr) c }

/-- Memory with its two inputs consumed and payload `p` logged. -/
def PerfMIPS.memory_in (s : PerfMIPS E) (c : Cycle) (p : Payload E) : PerfMIPS E :=
  { s with
    rp_memory_flush := s.rp_memory_flush.ignore c
    rp_execute_2_memory := s.rp_execute_2_memory.ignore c
    sout := s.sout ++ [.stage .memory c p] }

/-- Memory that is flushed while holding `instr`. -/
def PerfMIPS.memory_cancelled (s : PerfMIPS E) (c : Cycle) (instr : E.Instr) : PerfMIPS E :=
  { s.memory_in c .flush with
    rf := E.cancel s.rf instr
    calls := s.calls ++ [.rf_cancel instr] }

/-- Memory that processes `instr` which is not a jump; `w` is the writeback
write port afterwards. -/
def PerfMIPS.memory_plain (s : PerfMIPS E) (c : Cycle) (instr : E.Instr) (w : WritePort) :
    PerfMIPS E :=
  { s.memory_in c (.instr (E.load_store s.memory instr).2) with
    memory := (E.load_store s.memory instr).1
    calls := s.calls ++ [.mem_load_store instr]
    wp_memory_2_writeback := w
    rp_memory_2_writeback :=
      s.rp_memory_2_writeback.pushData (E.load_store s.memory instr).2 c }

/-- Memory that processes the correctly predicted jump `instr`. -/
def PerfMIPS.memory_jump (s : PerfMIPS E) (c : Cycle) (instr : E.Instr) (w : WritePort) :
    PerfMIPS E :=
  { s.memory_plain c instr w with
    bp := E.update s.bp (E.is_jump_taken instr) (E.get_PC instr) (E.get_new_PC instr)
    calls := s.calls ++
      [.bp_update (E.is_jump_taken instr) (E.get_PC instr) (E.get_new_PC instr),
       .mem_load_store instr] }

/-- Memory that processes the mispredicted jump `instr`; `wf` and `wt` are the
flush and fetch-target write ports afterwards. -/
def PerfMIPS.memory_mispredicted (s : PerfMIPS E) (c : Cycle) (instr : E.Instr)
    (wf wt w : WritePort) : PerfMIPS E :=
  { s.memory_jump c instr w with
    wp_memory_2_all_flush := wf
    rp_fetch_flush := s.rp_fetch_flush.pushData true c
    rp_decode_flush := s.rp_decode_flush.pushData true c
    rp_execute_flush := s.rp_execute_flush.pushData true c
    rp_memory_flush := (s.rp_memory_flush.ignore c).pushData true c
    wp_memory_2_fetch_target := wt
    rp_memory_2_fetch_target := s.rp_memory_2_fetch_target.pushData (E.get_new_PC instr) c
    sout := s.sout ++ [.stage .memory c (.misprediction (E.load_store s.memory instr).2)] }

/-- The instruction `read_instr` returns at cycle `c`: the recirculated one if
the self-loop is ready, else the one built from the fetch→decode value. -/
def PerfMIPS.decode_input (s : PerfMIPS E) (c : Cycle) : Option E.Instr :=
  if s.rp_decode_2_decode.is_ready c then s.rp_decode_2_decode.front?
  else if s.rp_fetch_2_decode.is_ready c then
    s.rp_fetch_2_decode.front?.map
      (fun d => E.FuncInstr d.raw d.PC d.predicted_taken d.predicted_target)
  else none

/-! ## Execution over several cycles -/

/-- The state at the start of cycle `c + k`, reached from `s` at the start of
cycle `c` by `k` iterations of the loop of `run`. -/
def PerfMIPS.cycles (s : PerfMIPS E) (c : Cycle) : Nat → Except Fatal (PerfMIPS E)
  | 0 => .ok s
  | k + 1 =>
    match s.iteration c with
    | .ok (s', c') => PerfMIPS.cycles s' c' k
    | .error e => .error e

/-- The value of a computation that did not end in a fatal error, `d` otherwise. -/
def okOr {α : Type} (x : Except Fatal α) (d : α) : α :=
  match x with
  | .ok a => a
  | .error _ => d

/-- The computation did not end in a fatal error and its value satisfies `p`. -/
def holds {α : Type} (x : Except Fatal α) (p : α → Bool) : Bool :=
  match x with
  | .ok a => p a
  | .error _ => false

/-- Is this line the log line of a writeback that retires an instruction? -/
def LogLine.is_retirement : LogLine E → Bool
  | .stage .wb _ (.instr _) => true
  | _ => false

/-- The stage of a log line whose payload is `"flush"`. -/
def LogLine.flush_stage? : LogLine E → Option Stage
  | .stage st _ .flush => some st
  | _ => none

/-- The stage and cycle of a stage line of the log. -/
def LogLine.stage_cycle? : LogLine E → Option (Stage × Cycle)
  | .stage st c _ => some (st, c)
  | .executed _ => none

/-- The number of writebacks that retired an instruction, read off the log. -/
def PerfMIPS.retirements (s : PerfMIPS E) : Nat :=
  (s.sout.filter LogLine.is_retirement).length

/-! ## A small concrete machine, used to instantiate the theorems

The program is a taken jump at address 0 to address 32, followed by
straight-line code. The predictor predicts not taken for the jump, which is
therefore mispredicted, and predicts taken (to the next address) for the plain
instruction at 32. The instruction at 8 (wrong path) waits for the first
writeback, the one at 36 for the second, and the one at 48 never gets its
sources. -/

/-- Instructions of the concrete machine. -/
structure ToyInstr where
  raw : Nat
  PC : Addr
  predicted_taken : Bool
  predicted_target : Addr
  new_PC : Addr
  deriving DecidableEq, Repr

/-- The concrete machine. The register file is the number of writebacks so far,
the checker the number of steps so far. -/
abbrev toy : Env :=
  { Instr := ToyInstr
    RF := Nat
    BP := Unit
    Mem := Unit
    Chk := Nat
    MAX_VAL32 := 2 ^ 32
    FuncInstr := fun raw pc t tg => ⟨raw, pc, t, tg, pc + 4⟩
    execute := fun i => { i with new_PC := if i.PC = 0 then 32 else i.PC + 4 }
    check_trap := fun i => some i
    is_jump := fun i => i.PC == 0
    is_jump_taken := fun i => i.PC == 0
    is_misprediction := fun i =>
      (i.predicted_taken != (i.PC == 0)) ||
        (i.predicted_taken && i.predicted_target != i.new_PC)
    get_PC := fun i => i.PC
    get_new_PC := fun i => i.new_PC
    Dump := fun i => String.mk (List.replicate (i.PC / 4) 'i')
    check_sources := fun rf i =>
      !((i.PC == 8 && rf == 0) || (i.PC == 36 && decide (rf < 2)) || i.PC == 48)
    read_sources := fun rf i => (rf, i)
    write_dst := fun rf _ => rf + 1
    cancel := fun rf _ => rf
    is_taken := fun _ pc => pc == 32
    get_target := fun _ pc => pc + 4
    update := fun bp _ _ _ => bp
    MIPSMemory := fun tr => if tr = "" then none else some ()
    startPC := fun _ => 0
    fetch := fun _ pc => pc
    load_store := fun m i => (m, i)
    checker_init := fun c _ => some c
    step := fun k => (k + 1, ⟨0, if k = 0 then 0 else 28 + 4 * k, false, 0, 0⟩) }

/-- The instruction at address 36 as decode builds it. -/
def toy_stalled : toy.Instr := (⟨36, 36, false, 40, 40⟩ : ToyInstr)

/-- The jump at address 0 as it arrives at the memory stage. -/
def toy_jump : toy.Instr := (⟨0, 0, false, 4, 32⟩ : ToyInstr)

/-- The plain instruction at address 32 as it arrives at the memory stage; it
was fetched with the prediction "taken". -/
def toy_plain : toy.Instr := (⟨32, 32, true, 36, 36⟩ : ToyInstr)

/-- The concrete machine, freshly constructed; `run` leaves it unchanged before
its first iteration. -/
def toy_new : PerfMIPS toy := PerfMIPS.new toy (0 : Nat) () (0 : Nat) () 0 0 0

/-- The concrete machine at the start of cycle `k`. -/
def toy_at (k : Nat) : PerfMIPS toy := okOr (toy_new.cycles 0 k) toy_new

/-- The concrete machine in cycle `k` after writeback. -/
def toy_wb (k : Nat) : PerfMIPS toy := okOr ((toy_at k).clock_writeback k) toy_new

/-- The concrete machine in cycle `k` after writeback and fetch. -/
def toy_fetch (k : Nat) : PerfMIPS toy := okOr ((toy_wb k).clock_fetch k) toy_new

/-- The concrete machine in cycle `k` after writeback, fetch and decode. -/
def toy_decode (k : Nat) : PerfMIPS toy := okOr ((toy_fetch k).clock_decode k) toy_new

/-- The concrete machine in cycle `k` after writeback, fetch, decode and execute. -/
def toy_execute (k : Nat) : PerfMIPS toy := okOr ((toy_decode k).clock_execute k) toy_new

/-! ## Lockstep with the reference checker -/

/-- The instruction a writeback log line reports as retired. -/
def LogLine.retired? : LogLine E → Option E.Instr
  | .stage .wb _ (.instr i) => some i
  | _ => none

/-- The instructions retired so far, in order, read off the log. -/
def PerfMIPS.retired_instrs (s : PerfMIPS E) : List E.Instr :=
  s.sout.filterMap LogLine.retired?

/-- Is this call a `checker.step()`? -/
def Call.is_checker_step : Call E → Bool
  | .checker_step => true
  | _ => false

/-- The number of `checker.step()` calls made so far. -/
def PerfMIPS.checker_calls (s : PerfMIPS E) : Nat :=
  (s.calls.filter Call.is_checker_step).length

/-- The checker after `n` steps from `chk`, and the reference instructions
those steps returned, in order. -/
def checker_steps (E : Env) (chk : E.Chk) : Nat → E.Chk × List E.Instr
  | 0 => (chk, [])
  | n + 1 =>
    ((E.step (checker_steps E chk n).1).1,
      (checker_steps E chk n).2 ++ [(E.step (checker_steps E chk n).1).2])

/-- The simulator is in lockstep with a checker started as `chk`: with `n`
instructions retired, the checker has made `n` steps, `checker.step()` was
called `n` times, and the dumps of the retired instructions are, in order,
the dumps of the reference instructions of those steps. -/
structure Lockstep (chk : E.Chk) (s : PerfMIPS E) : Prop where
  checker : s.checker = (checker_steps E chk s.retired_instrs.length).1
  dumps : s.retired_instrs.map E.Dump =
    (checker_steps E chk s.retired_instrs.length).2.map E.Dump
  calls : s.checker_calls = s.retired_instrs.length

/-! ## The port registry -/

/-- The value types of the ports of the core: the template argument of
`make_write_port<T>` and `make_read_port<T>`. -/
inductive PortType where
  | IfIdData
  | bool
  | FuncInstr
  | Addr
  deriving DecidableEq, Repr

/-- A port as the constructor declares it: the member it is assigned to, its
name, its value type and its parameters. -/
inductive PortDecl where
  /-- Source: `member = make_write_port<T>(name, bandwidth, fanout)` -/
  | write (member name : String) (type : PortType) (bandwidth fanout : Nat)
  /-- Source: `member = make_read_port<T>(name, latency)` -/
  | read (member name : String) (type : PortType) (latency : Latency)
  deriving DecidableEq, Repr

/-- The name a port is declared under. -/
def PortDecl.name : PortDecl → String
  | .write _ n _ _ _ => n
  | .read _ n _ _ => n

/-- The write ports registered under `name`, as (member, type, bandwidth, fanout). -/
def writers (reg : List PortDecl) (name : String) : List (String × PortType × Nat × Nat) :=
  reg.filterMap fun d =>
    match d with
    | .write m n t b f => if n = name then some (m, t, b, f) else none
    | .read _ _ _ _ => none

/-- The read ports registered under `name`, as (member, type, latency). -/
def readers (reg : List PortDecl) (name : String) : List (String × PortType × Latency) :=
  reg.filterMap fun d =>
    match d with
    | .write _ _ _ _ _ => none
    | .read m n t l => if n = name then some (m, t, l) else none

/-- Modelled from the spec: registration by `make_write_port` and
`make_read_port` (`infra/ports/ports.h` is not among the sources). A write port
is refused if its name already has a writer; a read port is refused if it would
exceed the fanout its writer declared or if its type differs from the writer's.
`none` stands for the fatal error. -/
def register (reg : List PortDecl) (d : PortDecl) : Option (List PortDecl) :=
  match d with
  | .write _ n _ _ _ => if (writers reg n).isEmpty then some (reg ++ [d]) else none
  | .read _ n t _ =>
    match writers reg n with
    | [] => some (reg ++ [d])
    | w :: _ =>
      if (readers reg n).length + 1 ≤ w.2.2.2 ∧ t = w.2.1 then some (reg ++ [d]) else none

/-- Modelled from the spec: `init_ports()`: every read-port name has a writer,
every name has exactly one writer, every writer's fanout equals the number of
its read ports, and all types match. -/
def init_ports (reg : List PortDecl) : Bool :=
  reg.all fun d =>
    match d with
    | .write _ n t _ f =>
      (writers reg n).length == 1 && (readers reg n).length == f &&
        (readers reg n).all (fun r => r.2.1 == t)
    | .read _ n t _ =>
      match writers reg n with
      | [w] => w.2.1 == t
      | _ => false

/-- Source: the port declarations of the constructor `PerfMIPS::PerfMIPS`,
in the order of the source. -/
def PerfMIPS.port_decls : List PortDecl :=
  [ .write "wp_fetch_2_decode" "FETCH_2_DECODE" .IfIdData PORT_BW PORT_FANOUT,
    .read "rp_fetch_2_decode" "FETCH_2_DECODE" .IfIdData PORT_LATENCY,
    .write "wp_decode_2_fetch_stall" "DECODE_2_FETCH_STALL" .bool PORT_BW PORT_FANOUT,
    .read "rp_decode_2_fetch_stall" "DECODE_2_FETCH_STALL" .bool PORT_LATENCY,
    .write "wp_decode_2_decode" "DECODE_2_DECODE" .FuncInstr PORT_BW PORT_FANOUT,
    .read "rp_decode_2_decode" "DECODE_2_DECODE" .FuncInstr PORT_LATENCY,
    .write "wp_decode_2_execute" "DECODE_2_EXECUTE" .FuncInstr PORT_BW PORT_FANOUT,
    .read "rp_decode_2_execute" "DECODE_2_EXECUTE" .FuncInstr PORT_LATENCY,
    .write "wp_execute_2_memory" "EXECUTE_2_MEMORY" .FuncInstr PORT_BW PORT_FANOUT,
    .read "rp_execute_2_memory" "EXECUTE_2_MEMORY" .FuncInstr PORT_LATENCY,
    .write "wp_memory_2_writeback" "MEMORY_2_WRITEBACK" .FuncInstr PORT_BW PORT_FANOUT,
    .read "rp_memory_2_writeback" "MEMORY_2_WRITEBACK" .FuncInstr PORT_LATENCY,
    .write "wp_memory_2_all_flush" "MEMORY_2_ALL_FLUSH" .bool PORT_BW FLUSHED_STAGES_NUM,
    .read "rp_fetch_flush" "MEMORY_2_ALL_FLUSH" .bool PORT_LATENCY,
    .read "rp_decode_flush" "MEMORY_2_ALL_FLUSH" .bool PORT_LATENCY,
    .read "rp_execute_flush" "MEMORY_2_ALL_FLUSH" .bool PORT_LATENCY,
    .read "rp_memory_flush" "MEMORY_2_ALL_FLUSH" .bool PORT_LATENCY,
    .write "wp_memory_2_fetch_target" "MEMORY_2_FETCH_TARGET" .Addr PORT_BW PORT_FANOUT,
    .read "rp_memory_2_fetch_target" "MEMORY_2_FETCH_TARGET" .Addr PORT_LATENCY ]

/-- Source: the constructor makes its declarations one after the other and
then calls `init_ports()`; `none` when a declaration or the validation is
fatal, otherwise the registry. -/
def PerfMIPS.build_ports (decls : List PortDecl) : Option (List PortDecl) :=
  match decls.foldlM register [] with
  | none => none
  | some reg => if init_ports reg then some reg else none

/-- The eight port names of the core. -/
def port_names : List String :=
  [ "FETCH_2_DECODE", "DECODE_2_FETCH_STALL", "DECODE_2_DECODE", "DECODE_2_EXECUTE",
    "EXECUTE_2_MEMORY", "MEMORY_2_WRITEBACK", "MEMORY_2_ALL_FLUSH", "MEMORY_2_FETCH_TARGET" ]

/-! ## Calls to the predictor and to memory -/

/-- The arguments of a `bp->update` call. -/
def Call.bp_update? : Call E → Option (Bool × Addr × Addr)
  | .bp_update t pc target => some (t, pc, target)
  | _ => none

/-- The `bp->update` calls made so far, in order. -/
def PerfMIPS.bp_updates (s : PerfMIPS E) : List (Bool × Addr × Addr) :=
  s.calls.filterMap Call.bp_update?

/-- The argument of a `memory->load_store` call. -/
def Call.load_store? : Call E → Option E.Instr
  | .mem_load_store i => some i
  | _ => none

/-- The `memory->load_store` calls made so far, in order. -/
def PerfMIPS.load_stores (s : PerfMIPS E) : List E.Instr :=
  s.calls.filterMap Call.load_store?

/-- The instruction `clock_memory` reads at cycle `c` in a non-flushed cycle:
none if it receives a flush or its input latch is not ready. -/
def PerfMIPS.memory_input (s : PerfMIPS E) (c : Cycle) : Option E.Instr :=
  if s.rp_memory_flush.signal c then none
  else if s.rp_execute_2_memory.is_ready c then s.rp_execute_2_memory.front?
  else none

/-! ## The concrete machine with a trap

The same program on a functional model that reports a trap on the jump at
address 0, the first instruction to reach writeback. -/

/-- The concrete machine, except that `check_trap` reports a trap on the
instruction at address 0. -/
abbrev toy_trap : Env :=
  { toy with check_trap := fun i => if i.PC = 0 then none else some i }

/-- The trapping machine, freshly constructed. -/
def toy_trap_new : PerfMIPS toy_trap := PerfMIPS.new toy_trap (0 : Nat) () (0 : Nat) () 0 0 0

/-- The trapping machine at the start of cycle `k`. -/
def toy_trap_at (k : Nat) : PerfMIPS toy_trap := okOr (toy_trap_new.cycles 0 k) toy_trap_new

/-! ## Port lemmas -/

theorem ReadPort.ready_and_read_eq (p : ReadPort Bool) (c : Cycle) :
    p.ready_and_read c = Except.ok (p.signal c, p.ignore c) := by
  unfold ReadPort.ready_and_read ReadPort.is_ready ReadPort.read ReadPort.signal ReadPort.ignore
  rcases hq : p.dataQueue with _ | ⟨e, r⟩
  · rfl
  · by_cases h : e.1 ≤ c <;> simp [h, pure, Except.pure]

theorem ReadPort.read_eq {α : Type} {p : ReadPort α} {c : Cycle} {v : α}
    (hr : p.is_ready c = true) (hv : p.front? = some v) : p.read c = .ok (v, p.ignore c) := by
  unfold ReadPort.is_ready at hr
  unfold ReadPort.front? at hv
  unfold ReadPort.read ReadPort.ignore
  rcases hq : p.dataQueue with _ | ⟨e, r⟩
  · simp [hq] at hr
  · simp [hq] at hr hv
    simp [hr, hv]

theorem ReadPort.read_of_not_ready {α : Type} {p : ReadPort α} {c : Cycle}
    (h : p.is_ready c = false) : p.read c = .error .port_not_ready := by
  unfold ReadPort.is_ready at h
  unfold ReadPort.read
  rcases hq : p.dataQueue with _ | ⟨e, r⟩
  · rfl
  · simp [hq] at h
    simp [h]

theorem ReadPort.ignore_of_not_ready {α : Type} {p : ReadPort α} {c : Cycle}
    (h : p.is_ready c = false) : p.ignore c = p := by
  unfold ReadPort.is_ready at h
  unfold ReadPort.ignore
  rcases hq : p.dataQueue with _ | ⟨e, r⟩
  · rfl
  · simp [hq] at h
    simp [h]

theorem ReadPort.front_of_ready {α : Type} {p : ReadPort α} {c : Cycle}
    (h : p.is_ready c = true) : ∃ v, p.front? = some v := by
  unfold ReadPort.is_ready at h
  unfold ReadPort.front?
  rcases hq : p.dataQueue with _ | ⟨e, r⟩
  · simp [hq] at h
  · exact ⟨e.2, rfl⟩

theorem ReadPort.not_ready_ignore {α : Type} {p : ReadPort α} {c : Cycle} {pending fresh : Bool}
    (h : p.shape c pending fresh = true) : (p.ignore c).is_ready c = false := by
  unfold ReadPort.shape at h
  unfold ReadPort.ignore ReadPort.is_ready
  rcases hq : p.dataQueue with _ | ⟨⟨t, v⟩, _ | ⟨⟨t2, v2⟩, _ | ⟨e3, r⟩⟩⟩
  · simp [hq]
  · simp only [hq, Bool.and_eq_true, Bool.or_eq_true, beq_iff_eq] at h
    rcases h with ⟨_, ⟨_, ht⟩ | ⟨_, ht⟩⟩
    · simp [ht]
    · simp [ht, hq]
  · simp only [hq, Bool.and_eq_true, beq_iff_eq] at h
    obtain ⟨_, ⟨_, h1⟩, h2⟩ := h
    simp [h1, h2]
  · simp [hq] at h

theorem ReadPort.shape_ignore {α : Type} {p : ReadPort α} {c : Cycle} {pending fresh : Bool}
    (h : p.shape c pending fresh = true) : (p.ignore c).shape c false fresh = true := by
  unfold ReadPort.shape at h
  unfold ReadPort.shape ReadPort.ignore
  rcases hq : p.dataQueue with _ | ⟨⟨t, v⟩, _ | ⟨⟨t2, v2⟩, _ | ⟨e3, r⟩⟩⟩
  · simp_all
  · simp only [hq, Bool.and_eq_true, Bool.or_eq_true, beq_iff_eq] at h
    rcases h with ⟨hl, ⟨_, ht⟩ | ⟨hf, ht⟩⟩
    · simp [ht, hl]
    · simp [ht, hl, hf, hq]
  · simp only [hq, Bool.and_eq_true, beq_iff_eq] at h
    obtain ⟨hl, ⟨⟨_, hf⟩, h1⟩, h2⟩ := h
    simp [h1, h2, hl, hf]
  · simp_all

theorem ReadPort.shape_not_ready {α : Type} {p : ReadPort α} {c : Cycle} {pending fresh : Bool}
    (h : p.shape c pending fresh = true) (hr : p.is_ready c = false) :
    p.shape c false fresh = true := by
  have := ReadPort.shape_ignore h
  rwa [ReadPort.ignore_of_not_ready hr] at this

theorem ReadPort.shape_pushData {α : Type} {p : ReadPort α} {c : Cycle} {pending : Bool}
    (v : α) (h : p.shape c pending false = true) :
    (p.pushData v c).shape c pending true = true := by
  unfold ReadPort.shape at h
  unfold ReadPort.shape ReadPort.pushData
  rcases hq : p.dataQueue with _ | ⟨⟨t, w⟩, _ | ⟨⟨t2, v2⟩, _ | ⟨e3, r⟩⟩⟩ <;> simp_all

theorem ReadPort.shape_fresh_of {α : Type} {p : ReadPort α} {c : Cycle} {pending : Bool}
    (fresh : Bool) (h : p.shape c pending false = true) : p.shape c pending fresh = true := by
  cases fresh
  · exact h
  · unfold ReadPort.shape at h ⊢
    rcases hq : p.dataQueue with _ | ⟨⟨t, w⟩, _ | ⟨⟨t2, v2⟩, _ | ⟨e3, r⟩⟩⟩ <;> simp_all

theorem ReadPort.shape_next {α : Type} {p : ReadPort α} {c : Cycle}
    (h : p.shape c false true = true) : p.shape (c + 1) true false = true := by
  unfold ReadPort.shape at h
  unfold ReadPort.shape
  rcases hq : p.dataQueue with _ | ⟨⟨t, w⟩, _ | ⟨⟨t2, v2⟩, _ | ⟨e3, r⟩⟩⟩ <;> simp_all

theorem ReadPort.check_of_shape {α : Type} {p : ReadPort α} {c : Cycle}
    (h : p.shape c false true = true) : p.check (c + 1) = true := by
  unfold ReadPort.shape at h
  unfold ReadPort.check
  rcases hq : p.dataQueue with _ | ⟨⟨t, w⟩, _ | ⟨⟨t2, v2⟩, _ | ⟨e3, r⟩⟩⟩ <;> simp_all

theorem ReadPort.shape_empty {α : Type} {p : ReadPort α} {c : Cycle}
    (h : p.shape c false false = true) : p.dataQueue = [] := by
  unfold ReadPort.shape at h
  rcases hq : p.dataQueue with _ | ⟨⟨t, w⟩, _ | ⟨⟨t2, v2⟩, _ | ⟨e3, r⟩⟩⟩ <;> simp_all

theorem ReadPort.all_ignore {p : ReadPort Bool} {c : Cycle}
    (h : p.dataQueue.all (fun e => e.2) = true) :
    (p.ignore c).dataQueue.all (fun e => e.2) = true := by
  have h' := List.all_eq_true.mp h
  apply List.all_eq_true.mpr
  intro x hx
  apply h'
  unfold ReadPort.ignore at hx
  rcases hq : p.dataQueue with _ | ⟨e, r⟩
  · simp [hq] at hx
  · rw [hq] at hx
    by_cases ht : e.1 ≤ c
    · simp only [ht, ↓reduceIte] at hx
      exact List.mem_cons_of_mem _ hx
    · simp only [ht, ↓reduceIte] at hx
      rw [← hq]
      exact hx

theorem ReadPort.all_pushData {p : ReadPort Bool} {c : Cycle}
    (h : p.dataQueue.all (fun e => e.2) = true) :
    (p.pushData true c).dataQueue.all (fun e => e.2) = true := by
  unfold ReadPort.pushData
  simpa using h

theorem ReadPort.stamps_ignore {α β : Type} {p : ReadPort α} {q : ReadPort β} {c : Cycle}
    (h : p.dataQueue.map (fun e => e.1) = q.dataQueue.map (fun e => e.1)) :
    (p.ignore c).dataQueue.map (fun e => e.1) = (q.ignore c).dataQueue.map (fun e => e.1) := by
  unfold ReadPort.ignore
  rcases hp : p.dataQueue with _ | ⟨e, r⟩ <;> rcases hq : q.dataQueue with _ | ⟨e', r'⟩ <;>
    simp [hp, hq] at h ⊢
  obtain ⟨h1, h2⟩ := h
  by_cases ht : e.1 ≤ c
  · have ht' : e'.1 ≤ c := h1 ▸ ht
    simpa [ht, ht'] using h2
  · have ht' : ¬ e'.1 ≤ c := h1 ▸ ht
    simp [ht, ht', hp, hq, h1, h2]

theorem ReadPort.stamps_pushData {α β : Type} {p : ReadPort α} {q : ReadPort β} {c : Cycle}
    (v : α) (w : β) (hl : p.latency = q.latency)
    (h : p.dataQueue.map (fun e => e.1) = q.dataQueue.map (fun e => e.1)) :
    (p.pushData v c).dataQueue.map (fun e => e.1) =
      (q.pushData w c).dataQueue.map (fun e => e.1) := by
  unfold ReadPort.pushData
  simp [h, hl]

theorem ReadPort.stamps_ready {α β : Type} {p : ReadPort α} {q : ReadPort β} {c : Cycle}
    (h : p.dataQueue.map (fun e => e.1) = q.dataQueue.map (fun e => e.1)) :
    p.is_ready c = q.is_ready c := by
  unfold ReadPort.is_ready
  rcases hp : p.dataQueue with _ | ⟨e, r⟩ <;> rcases hq : q.dataQueue with _ | ⟨e', r'⟩ <;>
    simp [hp, hq] at h ⊢
  rw [h.1]

theorem ReadPort.signal_of_all {p : ReadPort Bool} {c : Cycle}
    (h : p.dataQueue.all (fun e => e.2) = true) : p.signal c = p.is_ready c := by
  unfold ReadPort.signal ReadPort.is_ready
  rcases hq : p.dataQueue with _ | ⟨e, r⟩
  · rfl
  · simp [hq] at h
    simp [h.1]

theorem ReadPort.latency_of_shape {α : Type} {p : ReadPort α} {c : Cycle} {pending fresh : Bool}
    (h : p.shape c pending fresh = true) : p.latency = 1 := by
  unfold ReadPort.shape at h
  simp only [Bool.and_eq_true, beq_iff_eq] at h
  exact h.1

theorem WritePort.write_of_shape {w : WritePort} {c : Cycle} (h : w.shape c false = true) :
    w.write c = .ok (w.written c) := by
  simp [WritePort.shape] at h
  obtain ⟨hb, h⟩ := h
  by_cases hc : w.lastCycle = c
  · have : w.writeCounter = 0 := by
      unfold Cycle at *
      omega
    simp [WritePort.write, WritePort.written, hc, hb, this]
  · simp [WritePort.write, WritePort.written, hc, hb]

theorem WritePort.shape_written {w : WritePort} {c : Cycle} (h : w.shape c false = true) :
    (w.written c).shape c true = true := by
  simp [WritePort.shape, WritePort.written] at h ⊢
  exact h.1

theorem WritePort.shape_mono {w : WritePort} {c : Cycle} (h : w.shape c false = true) :
    w.shape c true = true := by
  simp [WritePort.shape] at h ⊢
  exact ⟨h.1, Or.inl h.2⟩

theorem WritePort.shape_next_cycle {w : WritePort} {c : Cycle} (h : w.shape c true = true) :
    w.shape (c + 1) false = true := by
  simp [WritePort.shape] at h ⊢
  refine ⟨h.1, ?_⟩
  unfold Cycle at *
  omega

/-! ## Writeback, path by path -/

theorem clock_writeback_bubble {s : PerfMIPS E} {c : Cycle}
    (hr : s.rp_memory_2_writeback.is_ready c = false) (hd : c < s.last_writeback_cycle + 10) :
    s.clock_writeback c = .ok (s.log .wb c .bubble) := by
  have hd' : ¬ c ≥ s.last_writeback_cycle + 10 := Nat.not_le.mpr hd
  simp [PerfMIPS.clock_writeback, hr, PerfMIPS.log, hd']

theorem clock_writeback_deadlock {s : PerfMIPS E} {c : Cycle}
    (hr : s.rp_memory_2_writeback.is_ready c = false) (hd : s.last_writeback_cycle + 10 ≤ c) :
    s.clock_writeback c = .error .deadlock := by
  simp [PerfMIPS.clock_writeback, hr, PerfMIPS.log, hd]

theorem clock_writeback_trap {s : PerfMIPS E} {c : Cycle} {instr : E.Instr}
    (hr : s.rp_memory_2_writeback.is_ready c = true)
    (hv : s.rp_memory_2_writeback.front? = some instr)
    (ht : E.check_trap instr = none) :
    s.clock_writeback c = .error .trap := by
  simp [PerfMIPS.clock_writeback, hr, ReadPort.read_eq hr hv, bind, Except.bind, ht]

theorem clock_writeback_mismatch {s : PerfMIPS E} {c : Cycle} {instr instr' : E.Instr}
    (hr : s.rp_memory_2_writeback.is_ready c = true)
    (hv : s.rp_memory_2_writeback.front? = some instr)
    (ht : E.check_trap instr = some instr')
    (hc : E.Dump (E.step s.checker).2 ≠ E.Dump instr') :
    s.clock_writeback c = .error .mismatch := by
  simp [PerfMIPS.clock_writeback, hr, ReadPort.read_eq hr hv, bind, Except.bind, ht,
    PerfMIPS.check, PerfMIPS.call, PerfMIPS.log, hc]

theorem clock_writeback_retire {s : PerfMIPS E} {c : Cycle} {instr instr' : E.Instr}
    (hr : s.rp_memory_2_writeback.is_ready c = true)
    (hv : s.rp_memory_2_writeback.front? = some instr)
    (ht : E.check_trap instr = some instr')
    (hc : E.Dump (E.step s.checker).2 = E.Dump instr') :
    s.clock_writeback c = .ok (s.retired c instr instr') := by
  simp [PerfMIPS.clock_writeback, hr, ReadPort.read_eq hr hv, bind, Except.bind, ht,
    PerfMIPS.check, PerfMIPS.call, PerfMIPS.log, hc, PerfMIPS.retired, pure, Except.pure]

/-- Every successful writeback is a bubble or a retirement. -/
theorem clock_writeback_cases {s s' : PerfMIPS E} {c : Cycle}
    (h : s.clock_writeback c = .ok s') :
    (s.rp_memory_2_writeback.is_ready c = false ∧ c < s.last_writeback_cycle + 10 ∧
      s' = s.log .wb c .bubble) ∨
    (∃ instr instr', s.rp_memory_2_writeback.is_ready c = true ∧
      s.rp_memory_2_writeback.front? = some instr ∧ E.check_trap instr = some instr' ∧
      E.Dump (E.step s.checker).2 = E.Dump instr' ∧ s' = s.retired c instr instr') := by
  cases hr : s.rp_memory_2_writeback.is_ready c
  · left
    by_cases hd : c < s.last_writeback_cycle + 10
    · rw [clock_writeback_bubble hr hd] at h
      exact ⟨rfl, hd, (Except.ok.inj h).symm⟩
    · rw [clock_writeback_deadlock hr (Nat.not_lt.mp hd)] at h
      cases h
  · right
    obtain ⟨instr, hv⟩ := ReadPort.front_of_ready hr
    cases ht : E.check_trap instr with
    | none =>
      rw [clock_writeback_trap hr hv ht] at h
      cases h
    | some instr' =>
      by_cases hc : E.Dump (E.step s.checker).2 = E.Dump instr'
      · rw [clock_writeback_retire hr hv ht hc] at h
        exact ⟨instr, instr', rfl, hv, ht, hc, (Except.ok.inj h).symm⟩
      · rw [clock_writeback_mismatch hr hv ht hc] at h
        cases h

/-! ## Fetch, path by path -/

theorem clock_fetch_flush {s : PerfMIPS E} {c : Cycle} {T : Addr} {w : WritePort}
    (hf : s.rp_fetch_flush.signal c = true)
    (hr : s.rp_memory_2_fetch_target.is_ready c = true)
    (hT : s.rp_memory_2_fetch_target.front? = some T)
    (hw : s.wp_fetch_2_decode.write c = .ok w) :
    s.clock_fetch c = .ok
      ({ s with rp_memory_2_fetch_target := s.rp_memory_2_fetch_target.ignore c }.fetched c T w) := by
  unfold PerfMIPS.clock_fetch
  simp only [ReadPort.ready_and_read_eq, bind, Except.bind, hf, ↓reduceIte, ReadPort.read_eq hr hT,
    pure, Except.pure, PerfMIPS.write_fetch_2_decode, hw,
    PerfMIPS.call, PerfMIPS.log, List.append_assoc, List.cons_append, List.nil_append,
    PerfMIPS.fetched]

theorem clock_fetch_flush_not_ready {s : PerfMIPS E} {c : Cycle}
    (hf : s.rp_fetch_flush.signal c = true)
    (hr : s.rp_memory_2_fetch_target.is_ready c = false) :
    s.clock_fetch c = .error .port_not_ready := by
  unfold PerfMIPS.clock_fetch
  simp only [ReadPort.ready_and_read_eq, bind, Except.bind, hf, ↓reduceIte,
    ReadPort.read_of_not_ready hr]

theorem clock_fetch_stall {s : PerfMIPS E} {c : Cycle} {w : WritePort}
    (hf : s.rp_fetch_flush.signal c = false)
    (hs : s.rp_decode_2_fetch_stall.signal c = true)
    (hw : s.wp_fetch_2_decode.write c = .ok w) :
    s.clock_fetch c = .ok (s.fetched c s.PC w) := by
  unfold PerfMIPS.clock_fetch
  simp only [ReadPort.ready_and_read_eq, bind, Except.bind, hf, hs, ↓reduceIte,
    pure, Except.pure, PerfMIPS.write_fetch_2_decode, hw,
    PerfMIPS.call, PerfMIPS.log, List.append_assoc, List.cons_append, List.nil_append,
    PerfMIPS.fetched, Bool.not_true, Bool.false_eq_true]

theorem clock_fetch_next {s : PerfMIPS E} {c : Cycle} {w : WritePort}
    (hf : s.rp_fetch_flush.signal c = false)
    (hs : s.rp_decode_2_fetch_stall.signal c = false)
    (hw : s.wp_fetch_2_decode.write c = .ok w) :
    s.clock_fetch c = .ok (s.fetched c s.new_PC w) := by
  unfold PerfMIPS.clock_fetch
  simp only [ReadPort.ready_and_read_eq, bind, Except.bind, hf, hs, ↓reduceIte,
    pure, Except.pure, PerfMIPS.write_fetch_2_decode, hw,
    PerfMIPS.call, PerfMIPS.log, List.append_assoc, List.cons_append, List.nil_append,
    PerfMIPS.fetched, Bool.not_false, Bool.false_eq_true]

theorem clock_fetch_overloaded {s : PerfMIPS E} {c : Cycle} {e : Fatal} {s' : PerfMIPS E}
    (hw : s.wp_fetch_2_decode.write c = .error e) : s.clock_fetch c ≠ .ok s' := by
  intro h
  unfold PerfMIPS.clock_fetch at h
  cases hf : s.rp_fetch_flush.signal c <;> cases hs : s.rp_decode_2_fetch_stall.signal c <;>
    cases hrd : s.rp_memory_2_fetch_target.read c <;>
    simp [ReadPort.ready_and_read_eq, bind, Except.bind, pure, Except.pure,
      PerfMIPS.write_fetch_2_decode, PerfMIPS.call, PerfMIPS.log, hf, hs, hrd, hw] at h

/-- Every successful fetch took one of the three ways of selecting the PC. -/
theorem clock_fetch_cases {s s' : PerfMIPS E} {c : Cycle} (h : s.clock_fetch c = .ok s') :
    ∃ w, s.wp_fetch_2_decode.write c = .ok w ∧
    ((∃ T, s.rp_fetch_flush.signal c = true ∧ s.rp_memory_2_fetch_target.is_ready c = true ∧
        s.rp_memory_2_fetch_target.front? = some T ∧
        s' = { s with rp_memory_2_fetch_target :=
                 s.rp_memory_2_fetch_target.ignore c }.fetched c T w) ∨
     (s.rp_fetch_flush.signal c = false ∧ s.rp_decode_2_fetch_stall.signal c = true ∧
        s' = s.fetched c s.PC w) ∨
     (s.rp_fetch_flush.signal c = false ∧ s.rp_decode_2_fetch_stall.signal c = false ∧
        s' = s.fetched c s.new_PC w)) := by
  cases hw : s.wp_fetch_2_decode.write c with
  | error e => exact absurd h (clock_fetch_overloaded hw)
  | ok w =>
    refine ⟨w, rfl, ?_⟩
    cases hf : s.rp_fetch_flush.signal c
    · right
      cases hs : s.rp_decode_2_fetch_stall.signal c
      · right
        rw [clock_fetch_next hf hs hw] at h
        exact ⟨rfl, rfl, (Except.ok.inj h).symm⟩
      · left
        rw [clock_fetch_stall hf hs hw] at h
        exact ⟨rfl, rfl, (Except.ok.inj h).symm⟩
    · left
      cases hr : s.rp_memory_2_fetch_target.is_ready c
      · rw [clock_fetch_flush_not_ready hf hr] at h
        cases h
      · obtain ⟨T, hT⟩ := ReadPort.front_of_ready hr
        rw [clock_fetch_flush hf hr hT hw] at h
        exact ⟨T, rfl, rfl, hT, (Except.ok.inj h).symm⟩

/-! ## Decode, path by path -/

theorem decode_input_none {s : PerfMIPS E} {c : Cycle} :
    s.decode_input c = none ↔
      (s.rp_fetch_2_decode.is_ready c = false ∧ s.rp_decode_2_decode.is_ready c = false) := by
  unfold PerfMIPS.decode_input
  cases hd : s.rp_decode_2_decode.is_ready c
  · cases hf : s.rp_fetch_2_decode.is_ready c
    · simp
    · obtain ⟨v, hv⟩ := ReadPort.front_of_ready hf
      simp [hv]
  · obtain ⟨v, hv⟩ := ReadPort.front_of_ready hd
    simp [hv]

theorem read_instr_eq {s : PerfMIPS E} {c : Cycle} {instr : E.Instr}
    (h : s.decode_input c = some instr) :
    s.read_instr c = .ok (instr,
      { s with rp_fetch_2_decode := s.rp_fetch_2_decode.ignore c
               rp_decode_2_decode := s.rp_decode_2_decode.ignore c }) := by
  unfold PerfMIPS.decode_input at h
  unfold PerfMIPS.read_instr
  cases hd : s.rp_decode_2_decode.is_ready c
  · cases hf : s.rp_fetch_2_decode.is_ready c
    · simp [hd, hf] at h
    · obtain ⟨v, hv⟩ := ReadPort.front_of_ready hf
      simp only [hd, hf, hv, Bool.false_eq_true, ↓reduceIte, Option.map_some',
        Option.some.injEq] at h
      simp [ReadPort.read_eq hf hv, bind, Except.bind, pure, Except.pure, h,
        ReadPort.ignore_of_not_ready hd]
  · simp only [hd, ↓reduceIte] at h
    simp [ReadPort.read_eq hd h, bind, Except.bind, pure, Except.pure]

theorem clock_decode_flush {s : PerfMIPS E} {c : Cycle}
    (hf : s.rp_decode_flush.signal c = true) :
    s.clock_decode c = .ok (s.decode_in c .flush) := by
  unfold PerfMIPS.clock_decode
  simp only [ReadPort.ready_and_read_eq, bind, Except.bind, hf, ↓reduceIte, pure, Except.pure,
    PerfMIPS.log, PerfMIPS.decode_in]

theorem clock_decode_bubble {s : PerfMIPS E} {c : Cycle}
    (hf : s.rp_decode_flush.signal c = false) (hi : s.decode_input c = none) :
    s.clock_decode c = .ok (s.decode_in c .bubble) := by
  obtain ⟨h1, h2⟩ := decode_input_none.mp hi
  unfold PerfMIPS.clock_decode
  simp only [ReadPort.ready_and_read_eq, bind, Except.bind, hf, ↓reduceIte, pure, Except.pure,
    PerfMIPS.log, PerfMIPS.decode_in, h1, h2, Bool.not_false, Bool.and_self,
    Bool.false_eq_true, ReadPort.ignore_of_not_ready h1, ReadPort.ignore_of_not_ready h2]

theorem clock_decode_issue {s : PerfMIPS E} {c : Cycle} {instr : E.Instr} {w : WritePort}
    (hf : s.rp_decode_flush.signal c = false) (hi : s.decode_input c = some instr)
    (hc : E.check_sources s.rf instr = true)
    (hw : s.wp_decode_2_execute.write c = .ok w) :
    s.clock_decode c = .ok (s.issued c instr w) := by
  have hn : ¬ (s.rp_fetch_2_decode.is_ready c = false ∧
      s.rp_decode_2_decode.is_ready c = false) := by
    rw [← decode_input_none, hi]
    simp
  have hb : (!s.rp_fetch_2_decode.is_ready c && !s.rp_decode_2_decode.is_ready c) = false := by
    cases h1 : s.rp_fetch_2_decode.is_ready c <;> cases h2 : s.rp_decode_2_decode.is_ready c <;>
      simp_all
  have hr := @read_instr_eq E { s with rp_decode_flush := s.rp_decode_flush.ignore c }
    c instr hi
  unfold PerfMIPS.clock_decode
  simp only [ReadPort.ready_and_read_eq, bind, Except.bind, hf, Bool.false_eq_true, ↓reduceIte,
    hb, hr, hc, PerfMIPS.call, PerfMIPS.write_decode_2_execute, hw, pure, Except.pure,
    PerfMIPS.log, PerfMIPS.issued, PerfMIPS.decode_in, List.append_assoc, List.cons_append,
    List.nil_append]

theorem clock_decode_hazard {s : PerfMIPS E} {c : Cycle} {instr : E.Instr} {w1 w2 : WritePort}
    (hf : s.rp_decode_flush.signal c = false) (hi : s.decode_input c = some instr)
    (hc : E.check_sources s.rf instr = false)
    (hw1 : s.wp_decode_2_fetch_stall.write c = .ok w1)
    (hw2 : s.wp_decode_2_decode.write c = .ok w2) :
    s.clock_decode c = .ok (s.stalled c instr w1 w2) := by
  have hn : ¬ (s.rp_fetch_2_decode.is_ready c = false ∧
      s.rp_decode_2_decode.is_ready c = false) := by
    rw [← decode_input_none, hi]
    simp
  have hb : (!s.rp_fetch_2_decode.is_ready c && !s.rp_decode_2_decode.is_ready c) = false := by
    cases h1 : s.rp_fetch_2_decode.is_ready c <;> cases h2 : s.rp_decode_2_decode.is_ready c <;>
      simp_all
  have hr := @read_instr_eq E { s with rp_decode_flush := s.rp_decode_flush.ignore c }
    c instr hi
  unfold PerfMIPS.clock_decode
  simp only [ReadPort.ready_and_read_eq, bind, Except.bind, hf, Bool.false_eq_true, ↓reduceIte,
    hb, hr, hc, PerfMIPS.call, PerfMIPS.write_decode_2_fetch_stall,
    PerfMIPS.write_decode_2_decode, hw1, hw2, pure, Except.pure,
    PerfMIPS.log, PerfMIPS.stalled, PerfMIPS.decode_in, List.append_assoc, List.cons_append,
    List.nil_append]

theorem clock_decode_overloaded {s s' : PerfMIPS E} {c : Cycle} {instr : E.Instr}
    (hf : s.rp_decode_flush.signal c = false) (hi : s.decode_input c = some instr)
    (h : s.clock_decode c = .ok s') :
    (E.check_sources s.rf instr = true ∧ ∃ w, s.wp_decode_2_execute.write c = .ok w) ∨
    (E.check_sources s.rf instr = false ∧ ∃ w1 w2, s.wp_decode_2_fetch_stall.write c = .ok w1 ∧
      s.wp_decode_2_decode.write c = .ok w2) := by
  have hn : ¬ (s.rp_fetch_2_decode.is_ready c = false ∧
      s.rp_decode_2_decode.is_ready c = false) := by
    rw [← decode_input_none, hi]
    simp
  have hb : (!s.rp_fetch_2_decode.is_ready c && !s.rp_decode_2_decode.is_ready c) = false := by
    cases h1 : s.rp_fetch_2_decode.is_ready c <;> cases h2 : s.rp_decode_2_decode.is_ready c <;>
      simp_all
  have hr := @read_instr_eq E { s with rp_decode_flush := s.rp_decode_flush.ignore c }
    c instr hi
  unfold PerfMIPS.clock_decode at h
  cases hc : E.check_sources s.rf instr
  · right
    refine ⟨rfl, ?_⟩
    cases hw1 : s.wp_decode_2_fetch_stall.write c <;>
      cases hw2 : s.wp_decode_2_decode.write c <;>
      simp [ReadPort.ready_and_read_eq, bind, Except.bind, hf, hb, hr, hc, PerfMIPS.call,
        PerfMIPS.write_decode_2_fetch_stall, PerfMIPS.write_decode_2_decode, hw1, hw2, pure,
        Except.pure] at h ⊢
  · left
    refine ⟨rfl, ?_⟩
    cases hw : s.wp_decode_2_execute.write c <;>
      simp [ReadPort.ready_and_read_eq, bind, Except.bind, hf, hb, hr, hc, PerfMIPS.call,
        PerfMIPS.write_decode_2_execute, hw, pure, Except.pure] at h ⊢

/-- Every successful decode took one of its four paths. -/
theorem clock_decode_cases {s s' : PerfMIPS E} {c : Cycle} (h : s.clock_decode c = .ok s') :
    (s.rp_decode_flush.signal c = true ∧ s' = s.decode_in c .flush) ∨
    (s.rp_decode_flush.signal c = false ∧ s.decode_input c = none ∧
      s' = s.decode_in c .bubble) ∨
    (∃ instr w, s.rp_decode_flush.signal c = false ∧ s.decode_input c = some instr ∧
      E.check_sources s.rf instr = true ∧ s.wp_decode_2_execute.write c = .ok w ∧
      s' = s.issued c instr w) ∨
    (∃ instr w1 w2, s.rp_decode_flush.signal c = false ∧ s.decode_input c = some instr ∧
      E.check_sources s.rf instr = false ∧ s.wp_decode_2_fetch_stall.write c = .ok w1 ∧
      s.wp_decode_2_decode.write c = .ok w2 ∧ s' = s.stalled c instr w1 w2) := by
  cases hf : s.rp_decode_flush.signal c
  · right
    cases hi : s.decode_input c with
    | none =>
      left
      rw [clock_decode_bubble hf hi] at h
      exact ⟨rfl, rfl, (Except.ok.inj h).symm⟩
    | some instr =>
      right
      rcases clock_decode_overloaded hf hi h with ⟨hc, w, hw⟩ | ⟨hc, w1, w2, hw1, hw2⟩
      · left
        rw [clock_decode_issue hf hi hc hw] at h
        exact ⟨instr, w, rfl, rfl, hc, hw, (Except.ok.inj h).symm⟩
      · right
        rw [clock_decode_hazard hf hi hc hw1 hw2] at h
        exact ⟨instr, w1, w2, rfl, rfl, hc, hw1, hw2, (Except.ok.inj h).symm⟩
  · left
    rw [clock_decode_flush hf] at h
    exact ⟨rfl, (Except.ok.inj h).symm⟩

/-! ## Execute, path by path -/

theorem clock_execute_flush_cancel {s : PerfMIPS E} {c : Cycle} {instr : E.Instr}
    (hf : s.rp_execute_flush.signal c = true)
    (hr : s.rp_decode_2_execute.is_ready c = true)
    (hv : s.rp_decode_2_execute.front? = some instr) :
    s.clock_execute c = .ok (s.execute_cancelled c instr) := by
  unfold PerfMIPS.clock_execute
  simp only [ReadPort.ready_and_read_eq, bind, Except.bind, hf, ↓reduceIte, hr,
    ReadPort.read_eq hr hv, pure, Except.pure, PerfMIPS.call, PerfMIPS.log,
    PerfMIPS.execute_cancelled, PerfMIPS.execute_in]

theorem clock_execute_flush_empty {s : PerfMIPS E} {c : Cycle}
    (hf : s.rp_execute_flush.signal c = true)
    (hr : s.rp_decode_2_execute.is_ready c = false) :
    s.clock_execute c = .ok (s.execute_in c .flush) := by
  unfold PerfMIPS.clock_execute
  simp only [ReadPort.ready_and_read_eq, bind, Except.bind, hf, ↓reduceIte, hr,
    Bool.false_eq_true, pure, Except.pure, PerfMIPS.log, PerfMIPS.execute_in,
    ReadPort.ignore_of_not_ready hr]

theorem clock_execute_bubble {s : PerfMIPS E} {c : Cycle}
    (hf : s.rp_execute_flush.signal c = false)
    (hr : s.rp_decode_2_execute.is_ready c = false) :
    s.clock_execute c = .ok (s.execute_in c .bubble) := by
  unfold PerfMIPS.clock_execute
  simp only [ReadPort.ready_and_read_eq, bind, Except.bind, hf, ↓reduceIte, hr,
    Bool.false_eq_true, Bool.not_false, pure, Except.pure, PerfMIPS.log, PerfMIPS.execute_in,
    ReadPort.ignore_of_not_ready hr]

theorem clock_execute_run {s : PerfMIPS E} {c : Cycle} {instr : E.Instr} {w : WritePort}
    (hf : s.rp_execute_flush.signal c = false)
    (hr : s.rp_decode_2_execute.is_ready c = true)
    (hv : s.rp_decode_2_execute.front? = some instr)
    (hw : s.wp_execute_2_memory.write c = .ok w) :
    s.clock_execute c = .ok (s.executed c instr w) := by
  unfold PerfMIPS.clock_execute
  simp only [ReadPort.ready_and_read_eq, bind, Except.bind, hf, ↓reduceIte, hr,
    Bool.false_eq_true, Bool.not_true, ReadPort.read_eq hr hv, pure, Except.pure,
    PerfMIPS.call, PerfMIPS.write_execute_2_memory, hw, PerfMIPS.log, PerfMIPS.executed,
    PerfMIPS.execute_in]

theorem clock_execute_overloaded {s s' : PerfMIPS E} {c : Cycle} {e : Fatal}
    (hf : s.rp_execute_flush.signal c = false)
    (hr : s.rp_decode_2_execute.is_ready c = true)
    (hw : s.wp_execute_2_memory.write c = .error e) : s.clock_execute c ≠ .ok s' := by
  obtain ⟨instr, hv⟩ := ReadPort.front_of_ready hr
  unfold PerfMIPS.clock_execute
  simp [ReadPort.ready_and_read_eq, bind, Except.bind, hf, hr, ReadPort.read_eq hr hv,
    PerfMIPS.call, PerfMIPS.write_execute_2_memory, hw]

/-- Every successful execute took one of its four paths. -/
theorem clock_execute_cases {s s' : PerfMIPS E} {c : Cycle} (h : s.clock_execute c = .ok s') :
    (∃ instr, s.rp_execute_flush.signal c = true ∧ s.rp_decode_2_execute.is_ready c = true ∧
      s.rp_decode_2_execute.front? = some instr ∧ s' = s.execute_cancelled c instr) ∨
    (s.rp_execute_flush.signal c = true ∧ s.rp_decode_2_execute.is_ready c = false ∧
      s' = s.execute_in c .flush) ∨
    (s.rp_execute_flush.signal c = false ∧ s.rp_decode_2_execute.is_ready c = false ∧
      s' = s.execute_in c .bubble) ∨
    (∃ instr w, s.rp_execute_flush.signal c = false ∧
      s.rp_decode_2_execute.is_ready c = true ∧ s.rp_decode_2_execute.front? = some instr ∧
      s.wp_execute_2_memory.write c = .ok w ∧ s' = s.executed c instr w) := by
  cases hf : s.rp_execute_flush.signal c <;> cases hr : s.rp_decode_2_execute.is_ready c
  · right; right; left
    rw [clock_execute_bubble hf hr] at h
    exact ⟨rfl, rfl, (Except.ok.inj h).symm⟩
  · right; right; right
    obtain ⟨instr, hv⟩ := ReadPort.front_of_ready hr
    cases hw : s.wp_execute_2_memory.write c with
    | error e => exact absurd h (clock_execute_overloaded hf hr hw)
    | ok w =>
      rw [clock_execute_run hf hr hv hw] at h
      exact ⟨instr, w, rfl, rfl, hv, rfl, (Except.ok.inj h).symm⟩
  · right; left
    rw [clock_execute_flush_empty hf hr] at h
    exact ⟨rfl, rfl, (Except.ok.inj h).symm⟩
  · left
    obtain ⟨instr, hv⟩ := ReadPort.front_of_ready hr
    rw [clock_execute_flush_cancel hf hr hv] at h
    exact ⟨instr, rfl, rfl, hv, (Except.ok.inj h).symm⟩

/-! ## Memory, path by path -/

theorem clock_memory_flush_cancel {s : PerfMIPS E} {c : Cycle} {instr : E.Instr}
    (hf : s.rp_memory_flush.signal c = true)
    (hr : s.rp_execute_2_memory.is_ready c = true)
    (hv : s.rp_execute_2_memory.front? = some instr) :
    s.clock_memory c = .ok (s.memory_cancelled c instr) := by
  unfold PerfMIPS.clock_memory
  simp only [ReadPort.ready_and_read_eq, bind, Except.bind, hf, ↓reduceIte, hr,
    ReadPort.read_eq hr hv, pure, Except.pure, PerfMIPS.call, PerfMIPS.log,
    PerfMIPS.memory_cancelled, PerfMIPS.memory_in]

theorem clock_memory_flush_empty {s : PerfMIPS E} {c : Cycle}
    (hf : s.rp_memory_flush.signal c = true)
    (hr : s.rp_execute_2_memory.is_ready c = false) :
    s.clock_memory c = .ok (s.memory_in c .flush) := by
  unfold PerfMIPS.clock_memory
  simp only [ReadPort.ready_and_read_eq, bind, Except.bind, hf, ↓reduceIte, hr,
    Bool.false_eq_true, pure, Except.pure, PerfMIPS.log, PerfMIPS.memory_in,
    ReadPort.ignore_of_not_ready hr]

theorem clock_memory_bubble {s : PerfMIPS E} {c : Cycle}
    (hf : s.rp_memory_flush.signal c = false)
    (hr : s.rp_execute_2_memory.is_ready c = false) :
    s.clock_memory c = .ok (s.memory_in c .bubble) := by
  unfold PerfMIPS.clock_memory
  simp only [ReadPort.ready_and_read_eq, bind, Except.bind, hf, ↓reduceIte, hr,
    Bool.false_eq_true, Bool.not_false, pure, Except.pure, PerfMIPS.log, PerfMIPS.memory_in,
    ReadPort.ignore_of_not_ready hr]

theorem clock_memory_plain {s : PerfMIPS E} {c : Cycle} {instr : E.Instr} {w : WritePort}
    (hf : s.rp_memory_flush.signal c = false)
    (hr : s.rp_execute_2_memory.is_ready c = true)
    (hv : s.rp_execute_2_memory.front? = some instr)
    (hj : E.is_jump instr = false)
    (hw : s.wp_memory_2_writeback.write c = .ok w) :
    s.clock_memory c = .ok (s.memory_plain c instr w) := by
  unfold PerfMIPS.clock_memory
  simp only [ReadPort.ready_and_read_eq, bind, Except.bind, hf, ↓reduceIte, hr,
    Bool.false_eq_true, Bool.not_true, ReadPort.read_eq hr hv, pure, Except.pure, hj,
    PerfMIPS.call, PerfMIPS.write_memory_2_writeback, hw, PerfMIPS.log, PerfMIPS.memory_plain,
    PerfMIPS.memory_in]

theorem clock_memory_jump {s : PerfMIPS E} {c : Cycle} {instr : E.Instr} {w : WritePort}
    (hf : s.rp_memory_flush.signal c = false)
    (hr : s.rp_execute_2_memory.is_ready c = true)
    (hv : s.rp_execute_2_memory.front? = some instr)
    (hj : E.is_jump instr = true) (hm : E.is_misprediction instr = false)
    (hw : s.wp_memory_2_writeback.write c = .ok w) :
    s.clock_memory c = .ok (s.memory_jump c instr w) := by
  unfold PerfMIPS.clock_memory
  simp only [ReadPort.ready_and_read_eq, bind, Except.bind, hf, ↓reduceIte, hr,
    Bool.false_eq_true, Bool.not_true, ReadPort.read_eq hr hv, pure, Except.pure, hj, hm,
    PerfMIPS.call, PerfMIPS.write_memory_2_writeback, hw, PerfMIPS.log, PerfMIPS.memory_jump,
    PerfMIPS.memory_plain, PerfMIPS.memory_in, List.append_assoc, List.cons_append,
    List.nil_append]

theorem clock_memory_mispredicted {s : PerfMIPS E} {c : Cycle} {instr : E.Instr}
    {wf wt w : WritePort}
    (hf : s.rp_memory_flush.signal c = false)
    (hr : s.rp_execute_2_memory.is_ready c = true)
    (hv : s.rp_execute_2_memory.front? = some instr)
    (hj : E.is_jump instr = true) (hm : E.is_misprediction instr = true)
    (hwf : s.wp_memory_2_all_flush.write c = .ok wf)
    (hwt : s.wp_memory_2_fetch_target.write c = .ok wt)
    (hw : s.wp_memory_2_writeback.write c = .ok w) :
    s.clock_memory c = .ok (s.memory_mispredicted c instr wf wt w) := by
  unfold PerfMIPS.clock_memory
  simp only [ReadPort.ready_and_read_eq, bind, Except.bind, hf, ↓reduceIte, hr,
    Bool.false_eq_true, Bool.not_true, ReadPort.read_eq hr hv, pure, Except.pure, hj, hm,
    PerfMIPS.call, PerfMIPS.write_memory_2_all_flush, PerfMIPS.write_memory_2_fetch_target,
    hwf, hwt, PerfMIPS.write_memory_2_writeback, hw, PerfMIPS.log,
    PerfMIPS.memory_mispredicted, PerfMIPS.memory_jump,
    PerfMIPS.memory_plain, PerfMIPS.memory_in, List.append_assoc, List.cons_append,
    List.nil_append]

theorem clock_memory_writes {s s' : PerfMIPS E} {c : Cycle} {instr : E.Instr}
    (hf : s.rp_memory_flush.signal c = false)
    (hr : s.rp_execute_2_memory.is_ready c = true)
    (hv : s.rp_execute_2_memory.front? = some instr)
    (h : s.clock_memory c = .ok s') :
    (∃ w, s.wp_memory_2_writeback.write c = .ok w) ∧
    (E.is_jump instr = true → E.is_misprediction instr = true →
      (∃ wf, s.wp_memory_2_all_flush.write c = .ok wf) ∧
      (∃ wt, s.wp_memory_2_fetch_target.write c = .ok wt)) := by
  unfold PerfMIPS.clock_memory at h
  cases hj : E.is_jump instr <;> cases hm : E.is_misprediction instr <;>
    cases hwf : s.wp_memory_2_all_flush.write c <;>
    cases hwt : s.wp_memory_2_fetch_target.write c <;>
    cases hw : s.wp_memory_2_writeback.write c <;>
    simp [ReadPort.ready_and_read_eq, bind, Except.bind, hf, hr, ReadPort.read_eq hr hv, pure,
      Except.pure, hj, hm, PerfMIPS.call, PerfMIPS.write_memory_2_all_flush,
      PerfMIPS.write_memory_2_fetch_target, hwf, hwt, PerfMIPS.write_memory_2_writeback,
      hw] at h ⊢

/-- Every successful memory stage took one of its six paths. -/
theorem clock_memory_cases {s s' : PerfMIPS E} {c : Cycle} (h : s.clock_memory c = .ok s') :
    (∃ instr, s.rp_memory_flush.signal c = true ∧ s.rp_execute_2_memory.is_ready c = true ∧
      s.rp_execute_2_memory.front? = some instr ∧ s' = s.memory_cancelled c instr) ∨
    (s.rp_memory_flush.signal c = true ∧ s.rp_execute_2_memory.is_ready c = false ∧
      s' = s.memory_in c .flush) ∨
    (s.rp_memory_flush.signal c = false ∧ s.rp_execute_2_memory.is_ready c = false ∧
      s' = s.memory_in c .bubble) ∨
    (∃ instr w, s.rp_memory_flush.signal c = false ∧
      s.rp_execute_2_memory.is_ready c = true ∧ s.rp_execute_2_memory.front? = some instr ∧
      E.is_jump instr = false ∧ s.wp_memory_2_writeback.write c = .ok w ∧
      s' = s.memory_plain c instr w) ∨
    (∃ instr w, s.rp_memory_flush.signal c = false ∧
      s.rp_execute_2_memory.is_ready c = true ∧ s.rp_execute_2_memory.front? = some instr ∧
      E.is_jump instr = true ∧ E.is_misprediction instr = false ∧
      s.wp_memory_2_writeback.write c = .ok w ∧ s' = s.memory_jump c instr w) ∨
    (∃ instr wf wt w, s.rp_memory_flush.signal c = false ∧
      s.rp_execute_2_memory.is_ready c = true ∧ s.rp_execute_2_memory.front? = some instr ∧
      E.is_jump instr = true ∧ E.is_misprediction instr = true ∧
      s.wp_memory_2_all_flush.write c = .ok wf ∧
      s.wp_memory_2_fetch_target.write c = .ok wt ∧
      s.wp_memory_2_writeback.write c = .ok w ∧
      s' = s.memory_mispredicted c instr wf wt w) := by
  cases hf : s.rp_memory_flush.signal c <;> cases hr : s.rp_execute_2_memory.is_ready c
  · right; right; left
    rw [clock_memory_bubble hf hr] at h
    exact ⟨rfl, rfl, (Except.ok.inj h).symm⟩
  · right; right; right
    obtain ⟨instr, hv⟩ := ReadPort.front_of_ready hr
    obtain ⟨⟨w, hw⟩, hmis⟩ := clock_memory_writes hf hr hv h
    cases hj : E.is_jump instr
    · left
      rw [clock_memory_plain hf hr hv hj hw] at h
      exact ⟨instr, w, rfl, rfl, hv, hj, hw, (Except.ok.inj h).symm⟩
    · right
      cases hm : E.is_misprediction instr
      · left
        rw [clock_memory_jump hf hr hv hj hm hw] at h
        exact ⟨instr, w, rfl, rfl, hv, hj, hm, hw, (Except.ok.inj h).symm⟩
      · right
        obtain ⟨⟨wf, hwf⟩, wt, hwt⟩ := hmis hj hm
        rw [clock_memory_mispredicted hf hr hv hj hm hwf hwt hw] at h
        exact ⟨instr, wf, wt, w, rfl, rfl, hv, hj, hm, hwf, hwt, hw, (Except.ok.inj h).symm⟩
  · right; left
    rw [clock_memory_flush_empty hf hr] at h
    exact ⟨rfl, rfl, (Except.ok.inj h).symm⟩
  · left
    obtain ⟨instr, hv⟩ := ReadPort.front_of_ready hr
    rw [clock_memory_flush_cancel hf hr hv] at h
    exact ⟨instr, rfl, rfl, hv, (Except.ok.inj h).symm⟩

/-! ## The port invariant along the five stages -/

theorem ReadPort.all_last_pushData {α : Type} {p : ReadPort α} {c : Cycle}
    {f : Cycle × α → Bool} (v : α) (h : f (c + p.latency, v) = true) :
    (p.pushData v c).dataQueue.getLast?.all f = true := by
  simp [ReadPort.pushData, h]

theorem ReadPort.any_last_pushData {α : Type} {p : ReadPort α} {c : Cycle} (v : α)
    (hl : p.latency = 1) :
    (p.pushData v c).dataQueue.getLast?.any (fun e => e.1 == c + 1) = true := by
  simp [ReadPort.pushData, hl]

theorem ReadPort.last_ignore {α : Type} (p : ReadPort α) (c : Cycle) :
    (p.ignore c).dataQueue.getLast? = none ∨
      (p.ignore c).dataQueue.getLast? = p.dataQueue.getLast? := by
  unfold ReadPort.ignore
  rcases hq : p.dataQueue with _ | ⟨e, _ | ⟨e2, r⟩⟩
  · simp [hq]
  · by_cases ht : e.1 ≤ c <;> simp [ht, hq]
  · by_cases ht : e.1 ≤ c
    · right
      simp [ht, List.getLast?_cons_cons]
    · simp [ht, hq]

theorem ReadPort.all_last_ignore {α : Type} {p : ReadPort α} {c : Cycle}
    {f : Cycle × α → Bool} (h : p.dataQueue.getLast?.all f = true) :
    (p.ignore c).dataQueue.getLast?.all f = true := by
  rcases ReadPort.last_ignore p c with hn | he
  · rw [hn]
    rfl
  · rw [he]
    exact h

theorem ReadPort.any_last_ignore {α : Type} {p : ReadPort α} {c : Cycle}
    (h : p.dataQueue.getLast?.any (fun e => e.1 == c + 1) = true) :
    (p.ignore c).dataQueue.getLast?.any (fun e => e.1 == c + 1) = true := by
  unfold ReadPort.ignore
  rcases hq : p.dataQueue with _ | ⟨e, _ | ⟨e2, r⟩⟩
  · simp [hq] at h
  · simp [hq] at h
    simp [h, hq]
  · by_cases ht : e.1 ≤ c
    · simp only [ht, ↓reduceIte]
      simpa [hq, List.getLast?_cons_cons] using h
    · simpa [ht, hq] using h

theorem flush_eq_of_empty {a b c d : ReadPort Bool} (ha : a.dataQueue = [])
    (hb : b.dataQueue = []) (hc : c.dataQueue = []) (hd : d.dataQueue = []) :
    a.dataQueue = b.dataQueue ∧ b.dataQueue = c.dataQueue ∧ c.dataQueue = d.dataQueue := by
  rw [ha, hb, hc, hd]
  exact ⟨rfl, rfl, rfl⟩

theorem flush_eq_of_pushed {a b c d : ReadPort Bool} (cy : Cycle) (ha : a.dataQueue = [])
    (hb : b.dataQueue = []) (hc : c.dataQueue = []) (hd : d.dataQueue = [])
    (la : a.latency = 1) (lb : b.latency = 1) (lc : c.latency = 1) (ld : d.latency = 1) :
    (a.pushData true cy).dataQueue = (b.pushData true cy).dataQueue ∧
    (b.pushData true cy).dataQueue = (c.pushData true cy).dataQueue ∧
    (c.pushData true cy).dataQueue = (d.pushData true cy).dataQueue := by
  simp [ReadPort.pushData, ha, hb, hc, hd, la, lb, lc, ld]

theorem Inv.wb_bubble {s : PerfMIPS E} {c : Cycle} (h : Inv s c 0) (hr : s.rp_memory_2_writeback.is_ready c = false) :
    Inv (s.log .wb c .bubble) c 1 :=
  { f2d := h.f2d
    stall := h.stall
    d2d := h.d2d
    d2e := h.d2e
    e2m := h.e2m
    m2w := ReadPort.shape_not_ready h.m2w hr
    fflush := h.fflush
    dflush := h.dflush
    eflush := h.eflush
    mflush := h.mflush
    target := h.target
    w_f2d := h.w_f2d
    w_stall := h.w_stall
    w_d2d := h.w_d2d
    w_d2e := h.w_d2e
    w_e2m := h.w_e2m
    w_m2w := h.w_m2w
    w_flush := h.w_flush
    w_target := h.w_target
    fflush_true := h.fflush_true
    dflush_true := h.dflush_true
    eflush_true := h.eflush_true
    mflush_true := h.mflush_true
    target_flush := h.target_flush
    flush_eq := fun hk => absurd hk (by decide)
    f2d_pc := h.f2d_pc
    f2d_fresh := fun hk => absurd hk (by decide) }

theorem Inv.retired {s : PerfMIPS E} {c : Cycle} (h : Inv s c 0) (instr instr' : E.Instr) :
    Inv (s.retired c instr instr') c 1 :=
  { f2d := h.f2d
    stall := h.stall
    d2d := h.d2d
    d2e := h.d2e
    e2m := h.e2m
    m2w := ReadPort.shape_ignore h.m2w
    fflush := h.fflush
    dflush := h.dflush
    eflush := h.eflush
    mflush := h.mflush
    target := h.target
    w_f2d := h.w_f2d
    w_stall := h.w_stall
    w_d2d := h.w_d2d
    w_d2e := h.w_d2e
    w_e2m := h.w_e2m
    w_m2w := h.w_m2w
    w_flush := h.w_flush
    w_target := h.w_target
    fflush_true := h.fflush_true
    dflush_true := h.dflush_true
    eflush_true := h.eflush_true
    mflush_true := h.mflush_true
    target_flush := h.target_flush
    flush_eq := fun hk => absurd hk (by decide)
    f2d_pc := h.f2d_pc
    f2d_fresh := fun hk => absurd hk (by decide) }

theorem Inv.fetched {s : PerfMIPS E} {c : Cycle} (h : Inv s c 1) (pc : Addr) :
    Inv ({ s with rp_memory_2_fetch_target := s.rp_memory_2_fetch_target.ignore c }.fetched c pc
      (s.wp_fetch_2_decode.written c)) c 2 :=
  { f2d := ReadPort.shape_pushData _ h.f2d
    stall := ReadPort.shape_ignore h.stall
    d2d := h.d2d
    d2e := h.d2e
    e2m := h.e2m
    m2w := h.m2w
    fflush := ReadPort.shape_ignore h.fflush
    dflush := h.dflush
    eflush := h.eflush
    mflush := h.mflush
    target := ReadPort.shape_ignore h.target
    w_f2d := WritePort.shape_written h.w_f2d
    w_stall := h.w_stall
    w_d2d := h.w_d2d
    w_d2e := h.w_d2e
    w_e2m := h.w_e2m
    w_m2w := h.w_m2w
    w_flush := h.w_flush
    w_target := h.w_target
    fflush_true := ReadPort.all_ignore h.fflush_true
    dflush_true := h.dflush_true
    eflush_true := h.eflush_true
    mflush_true := h.mflush_true
    target_flush := ReadPort.stamps_ignore h.target_flush
    flush_eq := fun hk => absurd hk (by decide)
    f2d_pc := ReadPort.all_last_pushData _ (beq_self_eq_true pc)
    f2d_fresh := fun _ => ReadPort.any_last_pushData _ (ReadPort.latency_of_shape h.f2d) }

theorem Inv.decode_in {s : PerfMIPS E} {c : Cycle} (h : Inv s c 2) (p : Payload E) :
    Inv (s.decode_in c p) c 3 :=
  { f2d := ReadPort.shape_ignore h.f2d
    stall := ReadPort.shape_fresh_of true h.stall
    d2d := ReadPort.shape_fresh_of true (ReadPort.shape_ignore h.d2d)
    d2e := ReadPort.shape_fresh_of true h.d2e
    e2m := h.e2m
    m2w := h.m2w
    fflush := h.fflush
    dflush := ReadPort.shape_ignore h.dflush
    eflush := h.eflush
    mflush := h.mflush
    target := h.target
    w_f2d := h.w_f2d
    w_stall := WritePort.shape_mono h.w_stall
    w_d2d := WritePort.shape_mono h.w_d2d
    w_d2e := WritePort.shape_mono h.w_d2e
    w_e2m := h.w_e2m
    w_m2w := h.w_m2w
    w_flush := h.w_flush
    w_target := h.w_target
    fflush_true := h.fflush_true
    dflush_true := ReadPort.all_ignore h.dflush_true
    eflush_true := h.eflush_true
    mflush_true := h.mflush_true
    target_flush := h.target_flush
    flush_eq := fun hk => absurd hk (by decide)
    f2d_pc := ReadPort.all_last_ignore h.f2d_pc
    f2d_fresh := fun _ => ReadPort.any_last_ignore (h.f2d_fresh (by decide)) }

theorem Inv.issued {s : PerfMIPS E} {c : Cycle} (h : Inv s c 2) (instr : E.Instr) :
    Inv (s.issued c instr (s.wp_decode_2_execute.written c)) c 3 :=
  { f2d := ReadPort.shape_ignore h.f2d
    stall := ReadPort.shape_fresh_of true h.stall
    d2d := ReadPort.shape_fresh_of true (ReadPort.shape_ignore h.d2d)
    d2e := ReadPort.shape_pushData _ h.d2e
    e2m := h.e2m
    m2w := h.m2w
    fflush := h.fflush
    dflush := ReadPort.shape_ignore h.dflush
    eflush := h.eflush
    mflush := h.mflush
    target := h.target
    w_f2d := h.w_f2d
    w_stall := WritePort.shape_mono h.w_stall
    w_d2d := WritePort.shape_mono h.w_d2d
    w_d2e := WritePort.shape_written h.w_d2e
    w_e2m := h.w_e2m
    w_m2w := h.w_m2w
    w_flush := h.w_flush
    w_target := h.w_target
    fflush_true := h.fflush_true
    dflush_true := ReadPort.all_ignore h.dflush_true
    eflush_true := h.eflush_true
    mflush_true := h.mflush_true
    target_flush := h.target_flush
    flush_eq := fun hk => absurd hk (by decide)
    f2d_pc := ReadPort.all_last_ignore h.f2d_pc
    f2d_fresh := fun _ => ReadPort.any_last_ignore (h.f2d_fresh (by decide)) }

theorem Inv.stalled {s : PerfMIPS E} {c : Cycle} (h : Inv s c 2) (instr : E.Instr) :
    Inv (s.stalled c instr (s.wp_decode_2_fetch_stall.written c)
      (s.wp_decode_2_decode.written c)) c 3 :=
  { f2d := ReadPort.shape_ignore h.f2d
    stall := ReadPort.shape_pushData _ h.stall
    d2d := ReadPort.shape_pushData _ (ReadPort.shape_ignore h.d2d)
    d2e := ReadPort.shape_fresh_of true h.d2e
    e2m := h.e2m
    m2w := h.m2w
    fflush := h.fflush
    dflush := ReadPort.shape_ignore h.dflush
    eflush := h.eflush
    mflush := h.mflush
    target := h.target
    w_f2d := h.w_f2d
    w_stall := WritePort.shape_written h.w_stall
    w_d2d := WritePort.shape_written h.w_d2d
    w_d2e := WritePort.shape_mono h.w_d2e
    w_e2m := h.w_e2m
    w_m2w := h.w_m2w
    w_flush := h.w_flush
    w_target := h.w_target
    fflush_true := h.fflush_true
    dflush_true := ReadPort.all_ignore h.dflush_true
    eflush_true := h.eflush_true
    mflush_true := h.mflush_true
    target_flush := h.target_flush
    flush_eq := fun hk => absurd hk (by decide)
    f2d_pc := ReadPort.all_last_ignore h.f2d_pc
    f2d_fresh := fun _ => ReadPort.any_last_ignore (h.f2d_fresh (by decide)) }

theorem Inv.execute_in {s : PerfMIPS E} {c : Cycle} (h : Inv s c 3) (p : Payload E) :
    Inv (s.execute_in c p) c 4 :=
  { f2d := h.f2d
    stall := h.stall
    d2d := h.d2d
    d2e := ReadPort.shape_ignore h.d2e
    e2m := ReadPort.shape_fresh_of true h.e2m
    m2w := h.m2w
    fflush := h.fflush
    dflush := h.dflush
    eflush := ReadPort.shape_ignore h.eflush
    mflush := h.mflush
    target := h.target
    w_f2d := h.w_f2d
    w_stall := h.w_stall
    w_d2d := h.w_d2d
    w_d2e := h.w_d2e
    w_e2m := WritePort.shape_mono h.w_e2m
    w_m2w := h.w_m2w
    w_flush := h.w_flush
    w_target := h.w_target
    fflush_true := h.fflush_true
    dflush_true := h.dflush_true
    eflush_true := ReadPort.all_ignore h.eflush_true
    mflush_true := h.mflush_true
    target_flush := h.target_flush
    flush_eq := fun hk => absurd hk (by decide)
    f2d_pc := h.f2d_pc
    f2d_fresh := fun _ => h.f2d_fresh (by decide) }

theorem Inv.execute_cancelled {s : PerfMIPS E} {c : Cycle} (h : Inv s c 3) (instr : E.Instr) :
    Inv (s.execute_cancelled c instr) c 4 :=
  { f2d := h.f2d
    stall := h.stall
    d2d := h.d2d
    d2e := ReadPort.shape_ignore h.d2e
    e2m := ReadPort.shape_fresh_of true h.e2m
    m2w := h.m2w
    fflush := h.fflush
    dflush := h.dflush
    eflush := ReadPort.shape_ignore h.eflush
    mflush := h.mflush
    target := h.target
    w_f2d := h.w_f2d
    w_stall := h.w_stall
    w_d2d := h.w_d2d
    w_d2e := h.w_d2e
    w_e2m := WritePort.shape_mono h.w_e2m
    w_m2w := h.w_m2w
    w_flush := h.w_flush
    w_target := h.w_target
    fflush_true := h.fflush_true
    dflush_true := h.dflush_true
    eflush_true := ReadPort.all_ignore h.eflush_true
    mflush_true := h.mflush_true
    target_flush := h.target_flush
    flush_eq := fun hk => absurd hk (by decide)
    f2d_pc := h.f2d_pc
    f2d_fresh := fun _ => h.f2d_fresh (by decide) }

theorem Inv.executed {s : PerfMIPS E} {c : Cycle} (h : Inv s c 3) (instr : E.Instr) :
    Inv (s.executed c instr (s.wp_execute_2_memory.written c)) c 4 :=
  { f2d := h.f2d
    stall := h.stall
    d2d := h.d2d
    d2e := ReadPort.shape_ignore h.d2e
    e2m := ReadPort.shape_pushData _ h.e2m
    m2w := h.m2w
    fflush := h.fflush
    dflush := h.dflush
    eflush := ReadPort.shape_ignore h.eflush
    mflush := h.mflush
    target := h.target
    w_f2d := h.w_f2d
    w_stall := h.w_stall
    w_d2d := h.w_d2d
    w_d2e := h.w_d2e
    w_e2m := WritePort.shape_written h.w_e2m
    w_m2w := h.w_m2w
    w_flush := h.w_flush
    w_target := h.w_target
    fflush_true := h.fflush_true
    dflush_true := h.dflush_true
    eflush_true := ReadPort.all_ignore h.eflush_true
    mflush_true := h.mflush_true
    target_flush := h.target_flush
    flush_eq := fun hk => absurd hk (by decide)
    f2d_pc := h.f2d_pc
    f2d_fresh := fun _ => h.f2d_fresh (by decide) }

theorem Inv.memory_in {s : PerfMIPS E} {c : Cycle} (h : Inv s c 4) (p : Payload E) :
    Inv (s.memory_in c p) c 5 :=
  { f2d := h.f2d
    stall := h.stall
    d2d := h.d2d
    d2e := h.d2e
    e2m := ReadPort.shape_ignore h.e2m
    m2w := ReadPort.shape_fresh_of true h.m2w
    fflush := ReadPort.shape_fresh_of true h.fflush
    dflush := ReadPort.shape_fresh_of true h.dflush
    eflush := ReadPort.shape_fresh_of true h.eflush
    mflush := ReadPort.shape_fresh_of true (ReadPort.shape_ignore h.mflush)
    target := ReadPort.shape_fresh_of true h.target
    w_f2d := h.w_f2d
    w_stall := h.w_stall
    w_d2d := h.w_d2d
    w_d2e := h.w_d2e
    w_e2m := h.w_e2m
    w_m2w := WritePort.shape_mono h.w_m2w
    w_flush := WritePort.shape_mono h.w_flush
    w_target := WritePort.shape_mono h.w_target
    fflush_true := h.fflush_true
    dflush_true := h.dflush_true
    eflush_true := h.eflush_true
    mflush_true := ReadPort.all_ignore h.mflush_true
    target_flush := h.target_flush
    flush_eq := fun _ => flush_eq_of_empty (ReadPort.shape_empty h.fflush) (ReadPort.shape_empty h.dflush)
      (ReadPort.shape_empty h.eflush) (ReadPort.shape_empty (ReadPort.shape_ignore h.mflush))
    f2d_pc := h.f2d_pc
    f2d_fresh := fun _ => h.f2d_fresh (by decide) }

theorem Inv.memory_cancelled {s : PerfMIPS E} {c : Cycle} (h : Inv s c 4) (instr : E.Instr) :
    Inv (s.memory_cancelled c instr) c 5 :=
  { f2d := h.f2d
    stall := h.stall
    d2d := h.d2d
    d2e := h.d2e
    e2m := ReadPort.shape_ignore h.e2m
    m2w := ReadPort.shape_fresh_of true h.m2w
    fflush := ReadPort.shape_fresh_of true h.fflush
    dflush := ReadPort.shape_fresh_of true h.dflush
    eflush := ReadPort.shape_fresh_of true h.eflush
    mflush := ReadPort.shape_fresh_of true (ReadPort.shape_ignore h.mflush)
    target := ReadPort.shape_fresh_of true h.target
    w_f2d := h.w_f2d
    w_stall := h.w_stall
    w_d2d := h.w_d2d
    w_d2e := h.w_d2e
    w_e2m := h.w_e2m
    w_m2w := WritePort.shape_mono h.w_m2w
    w_flush := WritePort.shape_mono h.w_flush
    w_target := WritePort.shape_mono h.w_target
    fflush_true := h.fflush_true
    dflush_true := h.dflush_true
    eflush_true := h.eflush_true
    mflush_true := ReadPort.all_ignore h.mflush_true
    target_flush := h.target_flush
    flush_eq := fun _ => flush_eq_of_empty (ReadPort.shape_empty h.fflush) (ReadPort.shape_empty h.dflush)
      (ReadPort.shape_empty h.eflush) (ReadPort.shape_empty (ReadPort.shape_ignore h.mflush))
    f2d_pc := h.f2d_pc
    f2d_fresh := fun _ => h.f2d_fresh (by decide) }

theorem Inv.memory_plain {s : PerfMIPS E} {c : Cycle} (h : Inv s c 4) (instr : E.Instr) :
    Inv (s.memory_plain c instr (s.wp_memory_2_writeback.written c)) c 5 :=
  { f2d := h.f2d
    stall := h.stall
    d2d := h.d2d
    d2e := h.d2e
    e2m := ReadPort.shape_ignore h.e2m
    m2w := ReadPort.shape_pushData _ h.m2w
    fflush := ReadPort.shape_fresh_of true h.fflush
    dflush := ReadPort.shape_fresh_of true h.dflush
    eflush := ReadPort.shape_fresh_of true h.eflush
    mflush := ReadPort.shape_fresh_of true (ReadPort.shape_ignore h.mflush)
    target := ReadPort.shape_fresh_of true h.target
    w_f2d := h.w_f2d
    w_stall := h.w_stall
    w_d2d := h.w_d2d
    w_d2e := h.w_d2e
    w_e2m := h.w_e2m
    w_m2w := WritePort.shape_written h.w_m2w
    w_flush := WritePort.shape_mono h.w_flush
    w_target := WritePort.shape_mono h.w_target
    fflush_true := h.fflush_true
    dflush_true := h.dflush_true
    eflush_true := h.eflush_true
    mflush_true := ReadPort.all_ignore h.mflush_true
    target_flush := h.target_flush
    flush_eq := fun _ => flush_eq_of_empty (ReadPort.shape_empty h.fflush) (ReadPort.shape_empty h.dflush)
      (ReadPort.shape_empty h.eflush) (ReadPort.shape_empty (ReadPort.shape_ignore h.mflush))
    f2d_pc := h.f2d_pc
    f2d_fresh := fun _ => h.f2d_fresh (by decide) }

theorem Inv.memory_jump {s : PerfMIPS E} {c : Cycle} (h : Inv s c 4) (instr : E.Instr) :
    Inv (s.memory_jump c instr (s.wp_memory_2_writeback.written c)) c 5 :=
  { f2d := h.f2d
    stall := h.stall
    d2d := h.d2d
    d2e := h.d2e
    e2m := ReadPort.shape_ignore h.e2m
    m2w := ReadPort.shape_pushData _ h.m2w
    fflush := ReadPort.shape_fresh_of true h.fflush
    dflush := ReadPort.shape_fresh_of true h.dflush
    eflush := ReadPort.shape_fresh_of true h.eflush
    mflush := ReadPort.shape_fresh_of true (ReadPort.shape_ignore h.mflush)
    target := ReadPort.shape_fresh_of true h.target
    w_f2d := h.w_f2d
    w_stall := h.w_stall
    w_d2d := h.w_d2d
    w_d2e := h.w_d2e
    w_e2m := h.w_e2m
    w_m2w := WritePort.shape_written h.w_m2w
    w_flush := WritePort.shape_mono h.w_flush
    w_target := WritePort.shape_mono h.w_target
    fflush_true := h.fflush_true
    dflush_true := h.dflush_true
    eflush_true := h.eflush_true
    mflush_true := ReadPort.all_ignore h.mflush_true
    target_flush := h.target_flush
    flush_eq := fun _ => flush_eq_of_empty (ReadPort.shape_empty h.fflush) (ReadPort.shape_empty h.dflush)
      (ReadPort.shape_empty h.eflush) (ReadPort.shape_empty (ReadPort.shape_ignore h.mflush))
    f2d_pc := h.f2d_pc
    f2d_fresh := fun _ => h.f2d_fresh (by decide) }

theorem Inv.memory_mispredicted {s : PerfMIPS E} {c : Cycle} (h : Inv s c 4) (instr : E.Instr) :
    Inv (s.memory_mispredicted c instr (s.wp_memory_2_all_flush.written c)
      (s.wp_memory_2_fetch_target.written c) (s.wp_memory_2_writeback.written c)) c 5 :=
  { f2d := h.f2d
    stall := h.stall
    d2d := h.d2d
    d2e := h.d2e
    e2m := ReadPort.shape_ignore h.e2m
    m2w := ReadPort.shape_pushData _ h.m2w
    fflush := ReadPort.shape_pushData _ h.fflush
    dflush := ReadPort.shape_pushData _ h.dflush
    eflush := ReadPort.shape_pushData _ h.eflush
    mflush := ReadPort.shape_pushData _ (ReadPort.shape_ignore h.mflush)
    target := ReadPort.shape_pushData _ h.target
    w_f2d := h.w_f2d
    w_stall := h.w_stall
    w_d2d := h.w_d2d
    w_d2e := h.w_d2e
    w_e2m := h.w_e2m
    w_m2w := WritePort.shape_written h.w_m2w
    w_flush := WritePort.shape_written h.w_flush
    w_target := WritePort.shape_written h.w_target
    fflush_true := ReadPort.all_pushData h.fflush_true
    dflush_true := ReadPort.all_pushData h.dflush_true
    eflush_true := ReadPort.all_pushData h.eflush_true
    mflush_true := ReadPort.all_pushData (ReadPort.all_ignore h.mflush_true)
    target_flush := ReadPort.stamps_pushData _ _
      ((ReadPort.latency_of_shape h.target).trans (ReadPort.latency_of_shape h.fflush).symm) h.target_flush
    flush_eq := fun _ => flush_eq_of_pushed c (ReadPort.shape_empty h.fflush) (ReadPort.shape_empty h.dflush)
      (ReadPort.shape_empty h.eflush) (ReadPort.shape_empty (ReadPort.shape_ignore h.mflush))
      (ReadPort.latency_of_shape h.fflush) (ReadPort.latency_of_shape h.dflush)
      (ReadPort.latency_of_shape h.eflush) (ReadPort.latency_of_shape (ReadPort.shape_ignore h.mflush))
    f2d_pc := h.f2d_pc
    f2d_fresh := fun _ => h.f2d_fresh (by decide) }

theorem Inv.next {s : PerfMIPS E} {c : Cycle} (h : Inv s c 5) (line : LogLine E) :
    Inv { s with sout := s.sout ++ [line] } (c + 1) 0 :=
  { f2d := ReadPort.shape_next h.f2d
    stall := ReadPort.shape_next h.stall
    d2d := ReadPort.shape_next h.d2d
    d2e := ReadPort.shape_next h.d2e
    e2m := ReadPort.shape_next h.e2m
    m2w := ReadPort.shape_next h.m2w
    fflush := ReadPort.shape_next h.fflush
    dflush := ReadPort.shape_next h.dflush
    eflush := ReadPort.shape_next h.eflush
    mflush := ReadPort.shape_next h.mflush
    target := ReadPort.shape_next h.target
    w_f2d := WritePort.shape_next_cycle h.w_f2d
    w_stall := WritePort.shape_next_cycle h.w_stall
    w_d2d := WritePort.shape_next_cycle h.w_d2d
    w_d2e := WritePort.shape_next_cycle h.w_d2e
    w_e2m := WritePort.shape_next_cycle h.w_e2m
    w_m2w := WritePort.shape_next_cycle h.w_m2w
    w_flush := WritePort.shape_next_cycle h.w_flush
    w_target := WritePort.shape_next_cycle h.w_target
    fflush_true := h.fflush_true
    dflush_true := h.dflush_true
    eflush_true := h.eflush_true
    mflush_true := h.mflush_true
    target_flush := h.target_flush
    flush_eq := fun _ => h.flush_eq (Or.inr rfl)
    f2d_pc := h.f2d_pc
    f2d_fresh := fun hk => absurd hk (by decide) }

theorem clock_writeback_inv {s s' : PerfMIPS E} {c : Cycle} (h : Inv s c 0)
    (hs : s.clock_writeback c = .ok s') : Inv s' c 1 := by
  rcases clock_writeback_cases hs with ⟨hr, _, rfl⟩ | ⟨instr, instr', _, _, _, _, rfl⟩
  · exact h.wb_bubble hr
  · exact h.retired instr instr'

theorem clock_fetch_inv {s : PerfMIPS E} {c : Cycle} (h : Inv s c 1) :
    ∃ s', s.clock_fetch c = .ok s' ∧ Inv s' c 2 := by
  have hsig := ReadPort.signal_of_all (c := c) h.fflush_true
  have hrdy := ReadPort.stamps_ready (c := c) h.target_flush
  have hw := WritePort.write_of_shape h.w_f2d
  cases hf : s.rp_fetch_flush.signal c
  · have ht : s.rp_memory_2_fetch_target.ignore c = s.rp_memory_2_fetch_target :=
      ReadPort.ignore_of_not_ready (by rw [hrdy, ← hsig, hf])
    cases hs : s.rp_decode_2_fetch_stall.signal c
    · refine ⟨_, clock_fetch_next hf hs hw, ?_⟩
      have := h.fetched s.new_PC
      rwa [ht] at this
    · refine ⟨_, clock_fetch_stall hf hs hw, ?_⟩
      have := h.fetched s.PC
      rwa [ht] at this
  · have hr : s.rp_memory_2_fetch_target.is_ready c = true := by rw [hrdy, ← hsig, hf]
    obtain ⟨T, hT⟩ := ReadPort.front_of_ready hr
    exact ⟨_, clock_fetch_flush hf hr hT hw, h.fetched T⟩

theorem clock_decode_inv {s : PerfMIPS E} {c : Cycle} (h : Inv s c 2) :
    ∃ s', s.clock_decode c = .ok s' ∧ Inv s' c 3 := by
  cases hf : s.rp_decode_flush.signal c
  · cases hi : s.decode_input c with
    | none => exact ⟨_, clock_decode_bubble hf hi, h.decode_in _⟩
    | some instr =>
      cases hc : E.check_sources s.rf instr
      · exact ⟨_, clock_decode_hazard hf hi hc (WritePort.write_of_shape h.w_stall)
          (WritePort.write_of_shape h.w_d2d), h.stalled instr⟩
      · exact ⟨_, clock_decode_issue hf hi hc (WritePort.write_of_shape h.w_d2e),
          h.issued instr⟩
  · exact ⟨_, clock_decode_flush hf, h.decode_in _⟩

theorem clock_execute_inv {s : PerfMIPS E} {c : Cycle} (h : Inv s c 3) :
    ∃ s', s.clock_execute c = .ok s' ∧ Inv s' c 4 := by
  cases hf : s.rp_execute_flush.signal c <;> cases hr : s.rp_decode_2_execute.is_ready c
  · exact ⟨_, clock_execute_bubble hf hr, h.execute_in _⟩
  · obtain ⟨instr, hv⟩ := ReadPort.front_of_ready hr
    exact ⟨_, clock_execute_run hf hr hv (WritePort.write_of_shape h.w_e2m), h.executed instr⟩
  · exact ⟨_, clock_execute_flush_empty hf hr, h.execute_in _⟩
  · obtain ⟨instr, hv⟩ := ReadPort.front_of_ready hr
    exact ⟨_, clock_execute_flush_cancel hf hr hv, h.execute_cancelled instr⟩

theorem clock_memory_inv {s : PerfMIPS E} {c : Cycle} (h : Inv s c 4) :
    ∃ s', s.clock_memory c = .ok s' ∧ Inv s' c 5 := by
  cases hf : s.rp_memory_flush.signal c <;> cases hr : s.rp_execute_2_memory.is_ready c
  · exact ⟨_, clock_memory_bubble hf hr, h.memory_in _⟩
  · obtain ⟨instr, hv⟩ := ReadPort.front_of_ready hr
    have hw := WritePort.write_of_shape h.w_m2w
    cases hj : E.is_jump instr
    · exact ⟨_, clock_memory_plain hf hr hv hj hw, h.memory_plain instr⟩
    · cases hm : E.is_misprediction instr
      · exact ⟨_, clock_memory_jump hf hr hv hj hm hw, h.memory_jump instr⟩
      · exact ⟨_, clock_memory_mispredicted hf hr hv hj hm (WritePort.write_of_shape h.w_flush)
          (WritePort.write_of_shape h.w_target) hw, h.memory_mispredicted instr⟩
  · exact ⟨_, clock_memory_flush_empty hf hr, h.memory_in _⟩
  · obtain ⟨instr, hv⟩ := ReadPort.front_of_ready hr
    exact ⟨_, clock_memory_flush_cancel hf hr hv, h.memory_cancelled instr⟩

/-- Under the invariant, the four stages after a successful writeback succeed. -/
theorem clock_stages_of_writeback {s s1 : PerfMIPS E} {c : Cycle} (h : Inv s c 0)
    (hw : s.clock_writeback c = .ok s1) :
    ∃ s2 s3 s4 s5, s1.clock_fetch c = .ok s2 ∧ s2.clock_decode c = .ok s3 ∧
      s3.clock_execute c = .ok s4 ∧ s4.clock_memory c = .ok s5 ∧
      s.clock_stages c = .ok s5 ∧ Inv s1 c 1 ∧ Inv s2 c 2 ∧ Inv s3 c 3 ∧ Inv s4 c 4 ∧
      Inv s5 c 5 := by
  have h1 := clock_writeback_inv h hw
  obtain ⟨s2, e2, h2⟩ := clock_fetch_inv h1
  obtain ⟨s3, e3, h3⟩ := clock_decode_inv h2
  obtain ⟨s4, e4, h4⟩ := clock_execute_inv h3
  obtain ⟨s5, e5, h5⟩ := clock_memory_inv h4
  refine ⟨s2, s3, s4, s5, e2, e3, e4, e5, ?_, h1, h2, h3, h4, h5⟩
  simp [PerfMIPS.clock_stages, bind, Except.bind, hw, e2, e3, e4, e5]

theorem clock_stages_error {s : PerfMIPS E} {c : Cycle} {e : Fatal} (h : Inv s c 0)
    (he : s.clock_stages c = .error e) : s.clock_writeback c = .error e := by
  cases hw : s.clock_writeback c with
  | error e' =>
    simp [PerfMIPS.clock_stages, bind, Except.bind, hw] at he
    rw [he]
  | ok s1 =>
    obtain ⟨_, _, _, s5, _, _, _, _, hs, _⟩ := clock_stages_of_writeback h hw
    rw [hs] at he
    cases he

theorem check_ports_of_inv {s : PerfMIPS E} {c : Cycle} (h : Inv s c 5) :
    s.check_ports (c + 1) = true := by
  simp only [PerfMIPS.check_ports, Bool.and_eq_true]
  exact ⟨⟨⟨⟨⟨⟨⟨⟨⟨⟨ReadPort.check_of_shape h.f2d, ReadPort.check_of_shape h.stall⟩,
    ReadPort.check_of_shape h.d2d⟩, ReadPort.check_of_shape h.d2e⟩,
    ReadPort.check_of_shape h.e2m⟩, ReadPort.check_of_shape h.m2w⟩,
    ReadPort.check_of_shape h.fflush⟩, ReadPort.check_of_shape h.dflush⟩,
    ReadPort.check_of_shape h.eflush⟩, ReadPort.check_of_shape h.mflush⟩,
    ReadPort.check_of_shape h.target⟩

/-- Under the invariant an iteration whose writeback succeeds ends in the state
the stages produce plus the "Executed instructions" line, and the invariant
holds at the start of the next cycle. -/
theorem iteration_of_stages {s s5 : PerfMIPS E} {c : Cycle} (h5 : Inv s5 c 5)
    (hs : s.clock_stages c = .ok s5) :
    s.iteration c =
        .ok ({ s5 with sout := s5.sout ++ [LogLine.executed s5.executed_instrs] }, c + 1) ∧
      Inv { s5 with sout := s5.sout ++ [LogLine.executed s5.executed_instrs] } (c + 1) 0 := by
  have hn := h5.next (LogLine.executed s5.executed_instrs)
  refine ⟨?_, hn⟩
  have hc : PerfMIPS.check_ports
      { s5 with sout := s5.sout ++ [LogLine.executed s5.executed_instrs] } (c + 1) = true :=
    (check_ports_of_inv h5 : s5.check_ports (c + 1) = true)
  simp [PerfMIPS.iteration, bind, Except.bind, hs, hc, pure, Except.pure]

theorem iteration_inv {s s' : PerfMIPS E} {c c' : Cycle} (h : Inv s c 0)
    (hi : s.iteration c = .ok (s', c')) : c' = c + 1 ∧ Inv s' (c + 1) 0 := by
  cases hw : s.clock_writeback c with
  | error e =>
    simp [PerfMIPS.iteration, PerfMIPS.clock_stages, bind, Except.bind, hw] at hi
  | ok s1 =>
    obtain ⟨_, _, _, s5, _, _, _, _, hs, _, _, _, _, h5⟩ := clock_stages_of_writeback h hw
    obtain ⟨e, hn⟩ := iteration_of_stages h5 hs
    rw [e] at hi
    cases hi
    exact ⟨rfl, hn⟩

theorem iteration_error {s : PerfMIPS E} {c : Cycle} {e : Fatal} (h : Inv s c 0)
    (hi : s.iteration c = .error e) : s.clock_writeback c = .error e := by
  cases hw : s.clock_writeback c with
  | error e' =>
    simp [PerfMIPS.iteration, PerfMIPS.clock_stages, bind, Except.bind, hw] at hi
    rw [hi]
  | ok s1 =>
    obtain ⟨_, _, _, s5, _, _, _, _, hs, _, _, _, _, h5⟩ := clock_stages_of_writeback h hw
    rw [(iteration_of_stages h5 hs).1] at hi
    cases hi

theorem clock_writeback_error {s : PerfMIPS E} {c : Cycle} {e : Fatal}
    (h : s.clock_writeback c = .error e) :
    e = .deadlock ∨ e = .trap ∨ e = .mismatch := by
  cases hr : s.rp_memory_2_writeback.is_ready c
  · by_cases hd : c < s.last_writeback_cycle + 10
    · rw [clock_writeback_bubble hr hd] at h
      cases h
    · rw [clock_writeback_deadlock hr (Nat.not_lt.mp hd)] at h
      cases h
      exact Or.inl rfl
  · obtain ⟨instr, hv⟩ := ReadPort.front_of_ready hr
    cases ht : E.check_trap instr with
    | none =>
      rw [clock_writeback_trap hr hv ht] at h
      cases h
      exact Or.inr (Or.inl rfl)
    | some instr' =>
      by_cases hc : E.Dump (E.step s.checker).2 = E.Dump instr'
      · rw [clock_writeback_retire hr hv ht hc] at h
        cases h
      · rw [clock_writeback_mismatch hr hv ht hc] at h
        cases h
        exact Or.inr (Or.inr rfl)

theorem Inv.new (E : Env) (rf : E.RF) (bp : E.BP) (checker : E.Chk) (memory : E.Mem)
    (PC new_PC : Addr) (lwc : Cycle) :
    Inv (PerfMIPS.new E rf bp checker memory PC new_PC lwc) 0 0 := by
  constructor
  all_goals first
    | rfl
    | exact fun _ => ⟨rfl, rfl, rfl⟩
    | exact fun hk => absurd hk (by decide)

/-! ## What each stage does to the retirement counters -/

theorem retirements_append {s : PerfMIPS E} {l : LogLine E} (hl : l.is_retirement = false)
    {t : PerfMIPS E} (ht : t.sout = s.sout ++ [l]) : t.retirements = s.retirements := by
  simp [PerfMIPS.retirements, ht, List.filter_append, List.filter_cons, hl]

theorem clock_fetch_counters {s s' : PerfMIPS E} {c : Cycle} (h : s.clock_fetch c = .ok s') :
    s'.executed_instrs = s.executed_instrs ∧
    s'.last_writeback_cycle = s.last_writeback_cycle ∧ s'.retirements = s.retirements := by
  obtain ⟨w, _, ⟨T, _, _, _, rfl⟩ | ⟨_, _, rfl⟩ | ⟨_, _, rfl⟩⟩ := clock_fetch_cases h <;>
    exact ⟨rfl, rfl, retirements_append (l := .stage .fetch c _) rfl rfl⟩

theorem clock_decode_counters {s s' : PerfMIPS E} {c : Cycle} (h : s.clock_decode c = .ok s') :
    s'.executed_instrs = s.executed_instrs ∧
    s'.last_writeback_cycle = s.last_writeback_cycle ∧ s'.retirements = s.retirements := by
  rcases clock_decode_cases h with ⟨_, rfl⟩ | ⟨_, _, rfl⟩ | ⟨i, w, _, _, _, _, rfl⟩ |
    ⟨i, w1, w2, _, _, _, _, _, rfl⟩ <;>
    exact ⟨rfl, rfl, retirements_append (l := .stage .decode c _) rfl rfl⟩

theorem clock_execute_counters {s s' : PerfMIPS E} {c : Cycle}
    (h : s.clock_execute c = .ok s') :
    s'.executed_instrs = s.executed_instrs ∧
    s'.last_writeback_cycle = s.last_writeback_cycle ∧ s'.retirements = s.retirements := by
  rcases clock_execute_cases h with ⟨i, _, _, _, rfl⟩ | ⟨_, _, rfl⟩ | ⟨_, _, rfl⟩ |
    ⟨i, w, _, _, _, _, rfl⟩ <;>
    exact ⟨rfl, rfl, retirements_append (l := .stage .execute c _) rfl rfl⟩

theorem clock_memory_counters {s s' : PerfMIPS E} {c : Cycle} (h : s.clock_memory c = .ok s') :
    s'.executed_instrs = s.executed_instrs ∧
    s'.last_writeback_cycle = s.last_writeback_cycle ∧ s'.retirements = s.retirements := by
  rcases clock_memory_cases h with ⟨i, _, _, _, rfl⟩ | ⟨_, _, rfl⟩ | ⟨_, _, rfl⟩ |
    ⟨i, w, _, _, _, _, _, rfl⟩ | ⟨i, w, _, _, _, _, _, _, rfl⟩ |
    ⟨i, wf, wt, w, _, _, _, _, _, _, _, _, rfl⟩ <;>
    exact ⟨rfl, rfl, retirements_append (l := .stage .memory c _) rfl rfl⟩

/-- The counters after one iteration, by what its writeback found. -/
theorem iteration_counters {s s' : PerfMIPS E} {c c' : Cycle}
    (h : s.iteration c = .ok (s', c')) :
    c' = c + 1 ∧
    ((s.rp_memory_2_writeback.is_ready c = false ∧ c < s.last_writeback_cycle + 10 ∧
        s'.executed_instrs = s.executed_instrs ∧
        s'.last_writeback_cycle = s.last_writeback_cycle ∧ s'.retirements = s.retirements) ∨
     (s.rp_memory_2_writeback.is_ready c = true ∧
        s'.executed_instrs = (s.executed_instrs + 1) % 2 ^ 64 ∧
        s'.last_writeback_cycle = c ∧ s'.retirements = s.retirements + 1)) := by
  unfold PerfMIPS.iteration PerfMIPS.clock_stages at h
  cases h1 : s.clock_writeback c with
  | error e => simp [h1, bind, Except.bind] at h
  | ok s1 =>
  cases h2 : s1.clock_fetch c with
  | error e => simp [h1, h2, bind, Except.bind] at h
  | ok s2 =>
  cases h3 : s2.clock_decode c with
  | error e => simp [h1, h2, h3, bind, Except.bind] at h
  | ok s3 =>
  cases h4 : s3.clock_execute c with
  | error e => simp [h1, h2, h3, h4, bind, Except.bind] at h
  | ok s4 =>
  cases h5 : s4.clock_memory c with
  | error e => simp [h1, h2, h3, h4, h5, bind, Except.bind] at h
  | ok s5 =>
  simp only [h1, h2, h3, h4, h5, bind, Except.bind, pure, Except.pure] at h
  split at h
  · cases h
    obtain ⟨a2, b2, r2⟩ := clock_fetch_counters h2
    obtain ⟨a3, b3, r3⟩ := clock_decode_counters h3
    obtain ⟨a4, b4, r4⟩ := clock_execute_counters h4
    obtain ⟨a5, b5, r5⟩ := clock_memory_counters h5
    have hr : PerfMIPS.retirements
        { s5 with sout := s5.sout ++ [LogLine.executed s5.executed_instrs] } =
        s5.retirements := retirements_append (l := .executed _) rfl rfl
    refine ⟨rfl, ?_⟩
    rcases clock_writeback_cases h1 with ⟨hr1, hd, rfl⟩ | ⟨i, i', hr1, _, _, _, rfl⟩
    · left
      refine ⟨hr1, hd, ?_, ?_, ?_⟩
      · exact a5.trans (a4.trans (a3.trans a2))
      · exact b5.trans (b4.trans (b3.trans b2))
      · rw [hr, r5, r4, r3, r2]
        exact retirements_append (l := .stage .wb c .bubble) rfl rfl
    · right
      refine ⟨hr1, ?_, ?_, ?_⟩
      · exact a5.trans (a4.trans (a3.trans a2))
      · exact b5.trans (b4.trans (b3.trans b2))
      · rw [hr, r5, r4, r3, r2]
        simp [PerfMIPS.retirements, PerfMIPS.retired, List.filter_append,
          LogLine.is_retirement]
  · cases h

theorem run_loop_zero {N : Nat} {s : PerfMIPS E} {c : Cycle} :
    PerfMIPS.run_loop N 0 s c =
      if s.executed_instrs < N then none else some (.ok (s, c)) := by
  unfold PerfMIPS.run_loop
  rfl

theorem run_loop_succ {N fuel : Nat} {s : PerfMIPS E} {c : Cycle} :
    PerfMIPS.run_loop N (fuel + 1) s c =
      if s.executed_instrs < N then
        match s.iteration c with
        | .error e => some (.error e)
        | .ok (s, cycle) => PerfMIPS.run_loop N fuel s cycle
      else some (.ok (s, c)) := by
  conv_lhs => unfold PerfMIPS.run_loop

/-- The loop of `run` cannot overshoot, and every state it passes through has
counted exactly the retirements in its log. -/
theorem run_loop_exact {N : Nat} (hN : N < 2 ^ 64) :
    ∀ (fuel : Nat) (s : PerfMIPS E) (c : Cycle) (s' : PerfMIPS E) (c' : Cycle),
      s.executed_instrs ≤ N → s.executed_instrs = s.retirements →
      PerfMIPS.run_loop N fuel s c = some (.ok (s', c')) →
      s'.executed_instrs = N ∧ s'.executed_instrs = s'.retirements := by
  intro fuel
  induction fuel with
  | zero =>
    intro s c s' c' hle hret h
    rw [run_loop_zero] at h
    split at h
    · cases h
    · cases h
      exact ⟨by omega, hret⟩
  | succ fuel ih =>
    intro s c s' c' hle hret h
    rw [run_loop_succ] at h
    split at h
    · rename_i hlt
      cases hi : s.iteration c with
      | error e => simp [hi] at h
      | ok r =>
        obtain ⟨s1, c1⟩ := r
        simp only [hi] at h
        obtain ⟨_, ⟨_, _, he, _, hr⟩ | ⟨_, he, _, hr⟩⟩ := iteration_counters hi
        · exact ih s1 c1 s' c' (by omega) (by omega) h
        · have hmod : (s.executed_instrs + 1) % 2 ^ 64 = s.executed_instrs + 1 :=
            Nat.mod_eq_of_lt (by omega)
          exact ih s1 c1 s' c' (by omega) (by omega) h
    · cases h
      exact ⟨by omega, hret⟩

/-- The loop of `run` ends: deadlock detection bounds the number of iterations
between two retirements. -/
theorem run_loop_total {N : Nat} (hN : N < 2 ^ 64) :
    ∀ (fuel : Nat) (s : PerfMIPS E) (c : Cycle),
      10 * (N - s.executed_instrs) + (s.last_writeback_cycle + 10 - c) ≤ fuel →
      ∃ r, PerfMIPS.run_loop N fuel s c = some r := by
  intro fuel
  induction fuel with
  | zero =>
    intro s c hf
    rw [run_loop_zero]
    split
    · unfold Cycle at *
      omega
    · exact ⟨_, rfl⟩
  | succ fuel ih =>
    intro s c hf
    rw [run_loop_succ]
    split
    · rename_i hlt
      cases hi : s.iteration c with
      | error e => exact ⟨_, rfl⟩
      | ok r =>
        obtain ⟨s1, c1⟩ := r
        obtain ⟨hc, ⟨_, hd, he, hl, _⟩ | ⟨_, he, hl, _⟩⟩ := iteration_counters hi
        · apply ih
          rw [he, hl, hc]
          unfold Cycle at *
          omega
        · have hmod : (s.executed_instrs + 1) % 2 ^ 64 = s.executed_instrs + 1 :=
            Nat.mod_eq_of_lt (by omega)
          apply ih
          rw [he, hl, hc, hmod]
          unfold Cycle at *
          omega
    · exact ⟨_, rfl⟩

/-! ## The driver loop -/

theorem okOr_eq {α : Type} {x : Except Fatal α} (d : α)
    (h : holds x (fun _ => true) = true) : x = .ok (okOr x d) := by
  cases x with
  | error e => simp [holds] at h
  | ok a => rfl

theorem holds_iff {α : Type} {x : Except Fatal α} {p : α → Bool} :
    holds x p = true ↔ ∃ a, x = .ok a ∧ p a = true := by
  cases x with
  | error e => simp [holds]
  | ok a => simp [holds]

theorem cycles_succ {s : PerfMIPS E} {c : Cycle} {k : Nat} :
    s.cycles c (k + 1) =
      match s.iteration c with
      | .ok (s', c') => PerfMIPS.cycles s' c' k
      | .error e => .error e := rfl

theorem cycles_inv {k : Nat} : ∀ {s s' : PerfMIPS E} {c : Cycle}, Inv s c 0 →
    s.cycles c k = .ok s' → Inv s' (c + k) 0 := by
  induction k with
  | zero =>
    intro s s' c h hk
    cases hk
    exact h
  | succ k ih =>
    intro s s' c h hk
    rw [cycles_succ] at hk
    cases hi : s.iteration c with
    | error e => simp [hi] at hk
    | ok r =>
      obtain ⟨s1, c1⟩ := r
      simp only [hi] at hk
      obtain ⟨rfl, h1⟩ := iteration_inv h hi
      have := ih h1 hk
      rwa [Nat.add_assoc, Nat.add_comm 1 k] at this

/-- The state `k` cycles ahead, split off its last iteration. -/
theorem cycles_last {k : Nat} : ∀ {s : PerfMIPS E} {c : Cycle},
    s.cycles c (k + 1) =
      match s.cycles c k with
      | .ok t =>
        (match t.iteration (c + k) with
         | .ok r => .ok r.1
         | .error e => .error e)
      | .error e => .error e := by
  induction k with
  | zero =>
    intro s c
    rw [cycles_succ]
    cases hi : s.iteration c with
    | error e => simp [PerfMIPS.cycles, hi]
    | ok r =>
      obtain ⟨s1, c1⟩ := r
      simp [PerfMIPS.cycles, hi]
  | succ k ih =>
    intro s c
    rw [cycles_succ]
    cases hi : s.iteration c with
    | error e => simp [cycles_succ, hi]
    | ok r =>
      obtain ⟨s1, c1⟩ := r
      have hc : c1 = c + 1 := (iteration_counters hi).1
      subst hc
      simp only []
      rw [ih, cycles_succ, hi]
      simp only []
      rw [Nat.add_assoc, Nat.add_comm 1 k]

/-- Under the invariant the loop of `run` can only end fatally in writeback. -/
theorem run_loop_error {N : Nat} {e : Fatal} :
    ∀ (fuel : Nat) (s : PerfMIPS E) (c : Cycle), Inv s c 0 →
      PerfMIPS.run_loop N fuel s c = some (.error e) →
      e = .deadlock ∨ e = .trap ∨ e = .mismatch := by
  intro fuel
  induction fuel with
  | zero =>
    intro s c _ h
    rw [run_loop_zero] at h
    split at h <;> cases h
  | succ fuel ih =>
    intro s c hinv h
    rw [run_loop_succ] at h
    split at h
    · cases hi : s.iteration c with
      | error e' =>
        simp only [hi, Option.some.injEq, Except.error.injEq] at h
        subst h
        exact clock_writeback_error (iteration_error hinv hi)
      | ok r =>
        obtain ⟨s1, c1⟩ := r
        simp only [hi] at h
        obtain ⟨rfl, h1⟩ := iteration_inv hinv hi
        exact ih s1 _ h1 h
    · cases h

/-- The state `run` starts its loop from is a freshly constructed one. -/
theorem run_eq (E : Env) (rf : E.RF) (bp : E.BP) (checker : E.Chk) (memory : E.Mem)
    (PC new_PC : Addr) (lwc : Cycle) (tr : String) (N fuel : Nat) :
    (PerfMIPS.new E rf bp checker memory PC new_PC lwc).run tr N fuel =
      if N < E.MAX_VAL32 then
        match E.MIPSMemory tr with
        | none => some (.error .bad_trace)
        | some m =>
          match E.checker_init checker tr with
          | none => some (.error .bad_trace)
          | some chk =>
            PerfMIPS.run_loop N fuel (PerfMIPS.new E rf bp chk m PC (E.startPC m) lwc) 0
      else some (.error .assert_failed) := rfl

/-- The only fatal errors a run can end in. -/
theorem run_error (E : Env) (rf : E.RF) (bp : E.BP) (checker : E.Chk) (memory : E.Mem)
    (PC new_PC : Addr) (lwc : Cycle) (tr : String) (N fuel : Nat) (e : Fatal)
    (h : (PerfMIPS.new E rf bp checker memory PC new_PC lwc).run tr N fuel = some (.error e)) :
    e = .assert_failed ∨ e = .bad_trace ∨ e = .deadlock ∨ e = .trap ∨ e = .mismatch := by
  rw [run_eq] at h
  split at h
  · split at h
    · cases h
      exact Or.inr (Or.inl rfl)
    · split at h
      · cases h
        exact Or.inr (Or.inl rfl)
      · exact Or.inr (Or.inr (run_loop_error _ _ _ (Inv.new ..) h))
  · cases h
    exact Or.inl rfl

/-! ## The claims -/

/-- C1. For a freshly constructed simulator and every `N < 2^32`: whenever
`run(trace, N)` ends normally, `executed_instrs` is exactly `N`; and the run
does end (normally or with a fatal error) within `10 * N + 10` iterations plus
the initial value of `last_writeback_cycle`. -/
theorem run_retires_exactly (E : Env) (rf : E.RF) (bp : E.BP) (checker : E.Chk)
    (memory : E.Mem) (PC new_PC : Addr) (lwc : Cycle) (tr : String) (N : Nat)
    (hN : N < 2 ^ 32) :
    (∀ fuel s' c',
      (PerfMIPS.new E rf bp checker memory PC new_PC lwc).run tr N fuel = some (.ok (s', c')) →
        s'.executed_instrs = N) ∧
    (∀ fuel, 10 * N + lwc + 10 ≤ fuel →
      ∃ r, (PerfMIPS.new E rf bp checker memory PC new_PC lwc).run tr N fuel = some r) := by
  have hN' : N < 2 ^ 64 := by omega
  constructor
  · intro fuel s' c' h
    rw [run_eq] at h
    split at h
    · split at h
      · cases h
      · split at h
        · cases h
        · exact (run_loop_exact hN' fuel _ 0 s' c' (Nat.zero_le _) rfl h).1
    · cases h
  · intro fuel hf
    rw [run_eq]
    split
    · split
      · exact ⟨_, rfl⟩
      · split
        · exact ⟨_, rfl⟩
        · apply run_loop_total hN'
          show 10 * (N - 0) + (lwc + 10 - 0) ≤ fuel
          unfold Cycle at *
          omega
    · exact ⟨_, rfl⟩

/-- Witness for C1 on the concrete machine with `N = 3`, which ends normally. -/
theorem run_retires_exactly_witness :
    3 < 2 ^ 32 ∧
    ((∀ fuel s' c', toy_new.run "t" 3 fuel = some (.ok (s', c')) → s'.executed_instrs = 3) ∧
     (∀ fuel, 10 * 3 + 0 + 10 ≤ fuel → ∃ r, toy_new.run "t" 3 fuel = some r)) ∧
    (match toy_new.run "t" 3 40 with
      | some (.ok r) => r.1.executed_instrs
      | _ => 0) = 3 :=
  ⟨by decide, run_retires_exactly toy (0 : Nat) () (0 : Nat) () 0 0 0 "t" 3 (by decide),
    by decide!⟩

/-- C2. `check_ports` never triggers during a run of a freshly constructed
simulator: a run never ends with the stale-value diagnostic, and in every cycle
`k` the run reaches, once the five stages of cycle `k` have run no read port
holds a value stamped before `k + 1`. -/
theorem check_ports_never_triggers (E : Env) (rf : E.RF) (bp : E.BP) (checker : E.Chk)
    (memory : E.Mem) (PC new_PC : Addr) (lwc : Cycle) :
    (∀ tr N fuel, (PerfMIPS.new E rf bp checker memory PC new_PC lwc).run tr N fuel ≠
        some (.error .port_data_lost)) ∧
    (∀ k s s5, (PerfMIPS.new E rf bp checker memory PC new_PC lwc).cycles 0 k = .ok s →
        s.clock_stages k = .ok s5 → s5.check_ports (k + 1) = true) := by
  constructor
  · intro tr N fuel h
    have := run_error E rf bp checker memory PC new_PC lwc tr N fuel _ h
    simp at this
  · intro k s s5 hk hs
    have hinv : Inv s k 0 := by
      have := cycles_inv (Inv.new E rf bp checker memory PC new_PC lwc) hk
      rwa [Nat.zero_add] at this
    cases hw : s.clock_writeback k with
    | error e => simp [PerfMIPS.clock_stages, bind, Except.bind, hw] at hs
    | ok s1 =>
      obtain ⟨_, _, _, s5', _, _, _, _, hs', _, _, _, _, h5⟩ := clock_stages_of_writeback hinv hw
      rw [hs] at hs'
      cases hs'
      exact check_ports_of_inv h5

/-- Witness for C2 on the concrete machine, in the cycle of the flush. -/
theorem check_ports_never_triggers_witness :
    toy_new.run "t" 3 40 ≠ some (.error .port_data_lost) ∧
    (okOr ((toy_at 4).clock_stages 4) toy_new).check_ports 5 = true :=
  ⟨(check_ports_never_triggers toy (0 : Nat) () (0 : Nat) () 0 0 0).1 "t" 3 40,
   (check_ports_never_triggers toy (0 : Nat) () (0 : Nat) () 0 0 0).2 4 (toy_at 4) _
     (okOr_eq toy_new (by decide!)) (okOr_eq toy_new (by decide!))⟩


/-! ### Misprediction recovery -/

theorem ReadPort.pushData_of_empty {α : Type} {p : ReadPort α} (v : α) (c : Cycle)
    (hq : p.dataQueue = []) (hl : p.latency = 1) :
    (p.pushData v c).dataQueue = [(c + 1, v)] := by
  simp [ReadPort.pushData, hq, hl]

theorem ReadPort.signal_of_queue {p : ReadPort Bool} {c : Cycle} {r : List (Cycle × Bool)}
    (hq : p.dataQueue = (c, true) :: r) : p.signal c = true := by
  simp [ReadPort.signal, hq]

theorem ReadPort.signal_of_nil {p : ReadPort Bool} {c : Cycle} (hq : p.dataQueue = []) :
    p.signal c = false := by
  simp [ReadPort.signal, hq]

theorem ReadPort.ready_of_queue {α : Type} {p : ReadPort α} {c : Cycle} {v : α}
    {r : List (Cycle × α)} (hq : p.dataQueue = (c, v) :: r) : p.is_ready c = true := by
  simp [ReadPort.is_ready, hq]

theorem ReadPort.not_ready_of_nil {α : Type} {p : ReadPort α} {c : Cycle}
    (hq : p.dataQueue = []) : p.is_ready c = false := by
  simp [ReadPort.is_ready, hq]

theorem ReadPort.front_of_queue {α : Type} {p : ReadPort α} {c : Cycle} {v : α}
    {r : List (Cycle × α)} (hq : p.dataQueue = (c, v) :: r) : p.front? = some v := by
  simp [ReadPort.front?, hq]

theorem ReadPort.ignore_of_queue {α : Type} {p : ReadPort α} {c : Cycle} {v : α}
    {r : List (Cycle × α)} (hq : p.dataQueue = (c, v) :: r) : (p.ignore c).dataQueue = r := by
  simp [ReadPort.ignore, hq]

theorem ReadPort.ignore_of_nil {α : Type} {p : ReadPort α} {c : Cycle}
    (hq : p.dataQueue = []) : (p.ignore c).dataQueue = [] := by
  simp [ReadPort.ignore, hq]

/-- What a memory stage that signals a misprediction leaves on the flush and
fetch-target ports. -/
theorem memory_mispredicted_ports {s : PerfMIPS E} {c : Cycle} (h : Inv s c 4)
    (instr : E.Instr) (wf wt w : WritePort) :
    (s.memory_mispredicted c instr wf wt w).rp_fetch_flush.dataQueue = [(c + 1, true)] ∧
    (s.memory_mispredicted c instr wf wt w).rp_decode_flush.dataQueue = [(c + 1, true)] ∧
    (s.memory_mispredicted c instr wf wt w).rp_execute_flush.dataQueue = [(c + 1, true)] ∧
    (s.memory_mispredicted c instr wf wt w).rp_memory_flush.dataQueue = [(c + 1, true)] ∧
    (s.memory_mispredicted c instr wf wt w).rp_memory_2_fetch_target.dataQueue =
      [(c + 1, E.get_new_PC instr)] :=
  ⟨ReadPort.pushData_of_empty _ _ (ReadPort.shape_empty h.fflush)
      (ReadPort.latency_of_shape h.fflush),
   ReadPort.pushData_of_empty _ _ (ReadPort.shape_empty h.dflush)
      (ReadPort.latency_of_shape h.dflush),
   ReadPort.pushData_of_empty _ _ (ReadPort.shape_empty h.eflush)
      (ReadPort.latency_of_shape h.eflush),
   ReadPort.pushData_of_empty _ _ (ReadPort.shape_empty (ReadPort.shape_ignore h.mflush))
      (ReadPort.latency_of_shape (ReadPort.shape_ignore h.mflush)),
   ReadPort.pushData_of_empty _ _ (ReadPort.shape_empty h.target)
      (ReadPort.latency_of_shape h.target)⟩

/-- Writeback touches no port but its own input, and neither PC, the predictor
nor the memory. -/
theorem clock_writeback_frame {s s' : PerfMIPS E} {c : Cycle}
    (h : s.clock_writeback c = .ok s') :
    s'.rp_fetch_flush = s.rp_fetch_flush ∧ s'.rp_decode_flush = s.rp_decode_flush ∧
    s'.rp_execute_flush = s.rp_execute_flush ∧ s'.rp_memory_flush = s.rp_memory_flush ∧
    s'.rp_memory_2_fetch_target = s.rp_memory_2_fetch_target ∧
    s'.rp_decode_2_fetch_stall = s.rp_decode_2_fetch_stall ∧
    s'.rp_fetch_2_decode = s.rp_fetch_2_decode ∧
    s'.rp_decode_2_decode = s.rp_decode_2_decode ∧
    s'.rp_decode_2_execute = s.rp_decode_2_execute ∧
    s'.rp_execute_2_memory = s.rp_execute_2_memory ∧
    s'.PC = s.PC ∧ s'.new_PC = s.new_PC ∧ s'.bp = s.bp ∧ s'.memory = s.memory := by
  rcases clock_writeback_cases h with ⟨_, _, rfl⟩ | ⟨i, i', _, _, _, _, rfl⟩ <;>
    exact ⟨rfl, rfl, rfl, rfl, rfl, rfl, rfl, rfl, rfl, rfl, rfl, rfl, rfl, rfl⟩

/-- Writeback writes to no port. -/
theorem clock_writeback_writes {s s' : PerfMIPS E} {c : Cycle}
    (h : s.clock_writeback c = .ok s') :
    s'.wp_fetch_2_decode = s.wp_fetch_2_decode ∧
    s'.wp_decode_2_fetch_stall = s.wp_decode_2_fetch_stall ∧
    s'.wp_decode_2_decode = s.wp_decode_2_decode ∧
    s'.wp_decode_2_execute = s.wp_decode_2_execute ∧
    s'.wp_execute_2_memory = s.wp_execute_2_memory ∧
    s'.wp_memory_2_writeback = s.wp_memory_2_writeback ∧
    s'.wp_memory_2_all_flush = s.wp_memory_2_all_flush ∧
    s'.wp_memory_2_fetch_target = s.wp_memory_2_fetch_target := by
  rcases clock_writeback_cases h with ⟨_, _, rfl⟩ | ⟨i, i', _, _, _, _, rfl⟩ <;>
    exact ⟨rfl, rfl, rfl, rfl, rfl, rfl, rfl, rfl⟩

/-- Fetch in a cycle that starts with a flush and target `T` pending. -/
theorem clock_fetch_redirect {s : PerfMIPS E} {c : Cycle} {T : Addr} (h : Inv s c 1)
    (hf : s.rp_fetch_flush.dataQueue = [(c, true)])
    (ht : s.rp_memory_2_fetch_target.dataQueue = [(c, T)]) :
    s.clock_fetch c = .ok
      ({ s with rp_memory_2_fetch_target := s.rp_memory_2_fetch_target.ignore c }.fetched c T
        (s.wp_fetch_2_decode.written c)) :=
  clock_fetch_flush (ReadPort.signal_of_queue hf) (ReadPort.ready_of_queue ht)
    (ReadPort.front_of_queue ht) (WritePort.write_of_shape h.w_f2d)

/-- C3. Misprediction recovery redirects fetch. Let `s` be a state the driver
loop can be in before `clock_memory` at cycle `C` (the port invariant holds),
with Memory not flushed and reading a jump `instr` that is mispredicted. Then
`clock_memory` succeeds and leaves `true` on the flush port of fetch and
`T = instr.get_new_PC()` on the fetch-target port, both for cycle `C + 1`; and
whenever writeback at `C + 1` returns, `clock_fetch` at `C + 1` succeeds, sets
`PC` to `T`, calls `memory.fetch(T)` and writes as its last value on
fetch→decode an `IfIdData` with `PC = T` and `raw = memory.fetch(T)`, and has
consumed the stall signal, whatever the stall port held. -/
theorem misprediction_redirects_fetch {s : PerfMIPS E} {C : Cycle} {instr : E.Instr}
    (h : Inv s C 4)
    (hf : s.rp_memory_flush.signal C = false)
    (hr : s.rp_execute_2_memory.is_ready C = true)
    (hv : s.rp_execute_2_memory.front? = some instr)
    (hj : E.is_jump instr = true) (hm : E.is_misprediction instr = true) :
    ∃ s1, s.clock_memory C = .ok s1 ∧
      s1.rp_fetch_flush.dataQueue = [(C + 1, true)] ∧
      s1.rp_memory_2_fetch_target.dataQueue = [(C + 1, E.get_new_PC instr)] ∧
      ∀ s2, PerfMIPS.clock_writeback
          { s1 with sout := s1.sout ++ [LogLine.executed s1.executed_instrs] } (C + 1) = .ok s2 →
        ∃ s3, s2.clock_fetch (C + 1) = .ok s3 ∧
          s3.PC = E.get_new_PC instr ∧
          s3.calls = s2.calls ++ [.mem_fetch (E.get_new_PC instr),
            .bp_is_taken (E.get_new_PC instr), .bp_get_target (E.get_new_PC instr)] ∧
          s3.rp_fetch_2_decode.dataQueue = s2.rp_fetch_2_decode.dataQueue ++
            [(C + 2, { raw := E.fetch s2.memory (E.get_new_PC instr)
                       PC := E.get_new_PC instr
                       predicted_taken := E.is_taken s2.bp (E.get_new_PC instr)
                       predicted_target := E.get_target s2.bp (E.get_new_PC instr) })] ∧
          s3.rp_decode_2_fetch_stall.is_ready (C + 1) = false := by
  have e1 := clock_memory_mispredicted hf hr hv hj hm (WritePort.write_of_shape h.w_flush)
    (WritePort.write_of_shape h.w_target) (WritePort.write_of_shape h.w_m2w)
  have h5 := h.memory_mispredicted instr
  obtain ⟨pf, _, _, _, pt⟩ := memory_mispredicted_ports h instr
    (s.wp_memory_2_all_flush.written C) (s.wp_memory_2_fetch_target.written C)
    (s.wp_memory_2_writeback.written C)
  refine ⟨_, e1, pf, pt, ?_⟩
  intro s2 hwb
  have h0 := h5.next (LogLine.executed
    (s.memory_mispredicted C instr (s.wp_memory_2_all_flush.written C)
      (s.wp_memory_2_fetch_target.written C)
      (s.wp_memory_2_writeback.written C)).executed_instrs)
  have h1 := clock_writeback_inv h0 hwb
  obtain ⟨f1, _, _, _, f2, _⟩ := clock_writeback_frame hwb
  have hf2 : s2.rp_fetch_flush.dataQueue = [(C + 1, true)] := by rw [f1]; exact pf
  have ht2 : s2.rp_memory_2_fetch_target.dataQueue = [(C + 1, E.get_new_PC instr)] := by
    rw [f2]; exact pt
  refine ⟨_, clock_fetch_redirect h1 hf2 ht2, rfl, rfl, ?_, ?_⟩
  · simp [PerfMIPS.fetched, ReadPort.pushData, ReadPort.latency_of_shape h1.f2d]
  · exact ReadPort.not_ready_ignore h1.stall


/-- Witness for C3: the concrete machine before `clock_memory` at cycle 3, where
the jump at address 0 reaches the memory stage. -/
theorem misprediction_redirects_fetch_witness :
    Inv (toy_execute 3) 3 4 ∧
    (toy_execute 3).rp_memory_flush.signal 3 = false ∧
    (toy_execute 3).rp_execute_2_memory.is_ready 3 = true ∧
    (toy_execute 3).rp_execute_2_memory.front? = some toy_jump ∧
    toy.is_jump toy_jump = true ∧ toy.is_misprediction toy_jump = true ∧
    ∃ s1, (toy_execute 3).clock_memory 3 = .ok s1 ∧
      s1.rp_fetch_flush.dataQueue = [(3 + 1, true)] ∧
      s1.rp_memory_2_fetch_target.dataQueue = [(3 + 1, toy.get_new_PC toy_jump)] ∧
      ∀ s2, PerfMIPS.clock_writeback
          { s1 with sout := s1.sout ++ [LogLine.executed s1.executed_instrs] } (3 + 1) = .ok s2 →
        ∃ s3, s2.clock_fetch (3 + 1) = .ok s3 ∧
          s3.PC = toy.get_new_PC toy_jump ∧
          s3.calls = s2.calls ++ [.mem_fetch (toy.get_new_PC toy_jump),
            .bp_is_taken (toy.get_new_PC toy_jump), .bp_get_target (toy.get_new_PC toy_jump)] ∧
          s3.rp_fetch_2_decode.dataQueue = s2.rp_fetch_2_decode.dataQueue ++
            [(3 + 2, { raw := toy.fetch s2.memory (toy.get_new_PC toy_jump)
                       PC := toy.get_new_PC toy_jump
                       predicted_taken := toy.is_taken s2.bp (toy.get_new_PC toy_jump)
                       predicted_target := toy.get_target s2.bp (toy.get_new_PC toy_jump) })] ∧
          s3.rp_decode_2_fetch_stall.is_ready (3 + 1) = false :=
  ⟨by decide!, by decide!, by decide!, by decide!, by decide!, by decide!,
    misprediction_redirects_fetch (by decide!) (by decide!) (by decide!) (by decide!)
      (by decide!) (by decide!)⟩


/-- C4, as the code has it. For every instruction `instr` that `clock_memory`
reads when it is not itself flushed (in a state of the driver loop): if
`instr.is_jump()` and `instr.is_misprediction()` both hold, Memory writes `true`
to MEMORY_2_ALL_FLUSH (delivered to all four flush read ports) and
`instr.get_new_PC()` to MEMORY_2_FETCH_TARGET in that cycle; otherwise, in
particular for every instruction that is not a jump, it writes to neither
port. -/
theorem memory_flushes_mispredicted_jumps {s : PerfMIPS E} {c : Cycle} {instr : E.Instr}
    (h : Inv s c 4)
    (hf : s.rp_memory_flush.signal c = false)
    (hr : s.rp_execute_2_memory.is_ready c = true)
    (hv : s.rp_execute_2_memory.front? = some instr) :
    ∃ s', s.clock_memory c = .ok s' ∧
      (E.is_jump instr = true ∧ E.is_misprediction instr = true →
        s'.wp_memory_2_all_flush = s.wp_memory_2_all_flush.written c ∧
        s'.wp_memory_2_fetch_target = s.wp_memory_2_fetch_target.written c ∧
        s'.rp_fetch_flush.dataQueue = [(c + 1, true)] ∧
        s'.rp_decode_flush.dataQueue = [(c + 1, true)] ∧
        s'.rp_execute_flush.dataQueue = [(c + 1, true)] ∧
        s'.rp_memory_flush.dataQueue = [(c + 1, true)] ∧
        s'.rp_memory_2_fetch_target.dataQueue = [(c + 1, E.get_new_PC instr)]) ∧
      (¬ (E.is_jump instr = true ∧ E.is_misprediction instr = true) →
        s'.wp_memory_2_all_flush = s.wp_memory_2_all_flush ∧
        s'.wp_memory_2_fetch_target = s.wp_memory_2_fetch_target ∧
        s'.rp_fetch_flush.dataQueue = [] ∧ s'.rp_decode_flush.dataQueue = [] ∧
        s'.rp_execute_flush.dataQueue = [] ∧ s'.rp_memory_flush.dataQueue = [] ∧
        s'.rp_memory_2_fetch_target.dataQueue = []) := by
  have hw := WritePort.write_of_shape h.w_m2w
  have q1 := ReadPort.shape_empty h.fflush
  have q2 := ReadPort.shape_empty h.dflush
  have q3 := ReadPort.shape_empty h.eflush
  have q4 := ReadPort.shape_empty (ReadPort.shape_ignore h.mflush)
  have q5 := ReadPort.shape_empty h.target
  cases hj : E.is_jump instr
  · refine ⟨_, clock_memory_plain hf hr hv hj hw, ?_, ?_⟩
    · intro hc
      simp at hc
    · intro _
      exact ⟨rfl, rfl, q1, q2, q3, q4, q5⟩
  · cases hm : E.is_misprediction instr
    · refine ⟨_, clock_memory_jump hf hr hv hj hm hw, ?_, ?_⟩
      · intro hc
        simp at hc
      · intro _
        exact ⟨rfl, rfl, q1, q2, q3, q4, q5⟩
    · refine ⟨_, clock_memory_mispredicted hf hr hv hj hm (WritePort.write_of_shape h.w_flush)
        (WritePort.write_of_shape h.w_target) hw, ?_, ?_⟩
      · intro _
        obtain ⟨p1, p2, p3, p4, p5⟩ := memory_mispredicted_ports h instr
          (s.wp_memory_2_all_flush.written c) (s.wp_memory_2_fetch_target.written c)
          (s.wp_memory_2_writeback.written c)
        exact ⟨rfl, rfl, p1, p2, p3, p4, p5⟩
      · intro hc
        simp at hc

/-- Witness for C4 as amended: the mispredicted jump of the concrete machine. -/
theorem memory_flushes_mispredicted_jumps_witness :
    Inv (toy_execute 3) 3 4 ∧
    (toy_execute 3).rp_memory_flush.signal 3 = false ∧
    (toy_execute 3).rp_execute_2_memory.is_ready 3 = true ∧
    (toy_execute 3).rp_execute_2_memory.front? = some toy_jump ∧
    toy.is_jump toy_jump = true ∧ toy.is_misprediction toy_jump = true ∧
    ∃ s', (toy_execute 3).clock_memory 3 = .ok s' ∧
      s'.rp_fetch_flush.dataQueue = [(3 + 1, true)] ∧
      s'.rp_memory_2_fetch_target.dataQueue = [(3 + 1, toy.get_new_PC toy_jump)] :=
  ⟨by decide!, by decide!, by decide!, by decide!, by decide!, by decide!,
    (@memory_flushes_mispredicted_jumps toy (toy_execute 3) 3 toy_jump (by decide!) (by decide!)
      (by decide!) (by decide!)).elim
      fun s' hs => ⟨s', hs.1, (hs.2.1 ⟨by decide!, by decide!⟩).2.2.1,
        (hs.2.1 ⟨by decide!, by decide!⟩).2.2.2.2.2.2⟩⟩

/-- Counterexample to C4 as stated: in the run of the concrete machine the
memory stage, not flushed, reads at cycle 7 the instruction fetched at 32,
for which `is_misprediction()` is true (predicted taken, not taken) and
`is_jump()` is false; it writes neither the flush signal nor a fetch target. -/
theorem memory_flush_non_jump_counterexample :
    (toy_execute 7).rp_memory_flush.signal 7 = false ∧
    (toy_execute 7).rp_execute_2_memory.is_ready 7 = true ∧
    (toy_execute 7).rp_execute_2_memory.front? = some toy_plain ∧
    toy.is_misprediction toy_plain = true ∧ toy.is_jump toy_plain = false ∧
    ∃ s', (toy_execute 7).clock_memory 7 = .ok s' ∧
      s'.wp_memory_2_all_flush = (toy_execute 7).wp_memory_2_all_flush ∧
      s'.wp_memory_2_fetch_target = (toy_execute 7).wp_memory_2_fetch_target ∧
      s'.rp_fetch_flush.dataQueue = [] ∧ s'.rp_decode_flush.dataQueue = [] ∧
      s'.rp_execute_flush.dataQueue = [] ∧ s'.rp_memory_flush.dataQueue = [] ∧
      s'.rp_memory_2_fetch_target.dataQueue = [] :=
  ⟨by decide!, by decide!, by decide!, by decide!, by decide!,
    okOr ((toy_execute 7).clock_memory 7) toy_new, okOr_eq toy_new (by decide!),
    by decide!, by decide!, by decide!, by decide!, by decide!, by decide!, by decide!⟩


/-! ### The cycle after a misprediction -/

theorem ReadPort.ignore_empty {α : Type} {p : ReadPort α} {c : Cycle} {pending : Bool}
    (h : p.shape c pending false = true) : (p.ignore c).dataQueue = [] :=
  ReadPort.shape_empty (ReadPort.shape_ignore h)

theorem ReadPort.ignore_pushData {α : Type} {p : ReadPort α} {c : Cycle} {pending : Bool}
    (v : α) (h : p.shape c pending false = true) :
    ((p.pushData v c).ignore c).dataQueue = [(c + 1, v)] := by
  unfold ReadPort.shape at h
  unfold ReadPort.ignore ReadPort.pushData
  rcases hq : p.dataQueue with _ | ⟨⟨t, w⟩, _ | ⟨⟨t2, v2⟩, _ | ⟨e3, r⟩⟩⟩ <;> simp_all

/-- A flushed execute consumes its input and writes nothing. -/
theorem clock_execute_flushed {s : PerfMIPS E} {c : Cycle}
    (hf : s.rp_execute_flush.signal c = true) :
    ∃ rf calls, s.clock_execute c =
      .ok { s.execute_in c .flush with rf := rf, calls := calls } := by
  cases hr : s.rp_decode_2_execute.is_ready c
  · exact ⟨_, _, clock_execute_flush_empty hf hr⟩
  · obtain ⟨instr, hv⟩ := ReadPort.front_of_ready hr
    exact ⟨_, _, clock_execute_flush_cancel hf hr hv⟩

/-- A flushed memory stage consumes its input and writes nothing. -/
theorem clock_memory_flushed {s : PerfMIPS E} {c : Cycle}
    (hf : s.rp_memory_flush.signal c = true) :
    ∃ rf calls, s.clock_memory c =
      .ok { s.memory_in c .flush with rf := rf, calls := calls } := by
  cases hr : s.rp_execute_2_memory.is_ready c
  · exact ⟨_, _, clock_memory_flush_empty hf hr⟩
  · obtain ⟨instr, hv⟩ := ReadPort.front_of_ready hr
    exact ⟨_, _, clock_memory_flush_cancel hf hr hv⟩

/-- The four stages after writeback in a cycle that starts with a flush and the
fetch target `T` pending. -/
theorem flush_cycle {t s2 : PerfMIPS E} {c : Cycle} {T : Addr} (h : Inv t c 0)
    (hq : t.rp_fetch_flush.dataQueue = [(c, true)])
    (ht : t.rp_memory_2_fetch_target.dataQueue = [(c, T)])
    (hwb : t.clock_writeback c = .ok s2) :
    ∃ s3 s4 s5 s6 rf5 calls5 rf6 calls6,
      s2.clock_fetch c = .ok s3 ∧ s3.clock_decode c = .ok s4 ∧
      s4.clock_execute c = .ok s5 ∧ s5.clock_memory c = .ok s6 ∧
      s3 = { s2 with rp_memory_2_fetch_target := s2.rp_memory_2_fetch_target.ignore c }.fetched
        c T (s2.wp_fetch_2_decode.written c) ∧
      s4 = s3.decode_in c .flush ∧
      s5 = { s4.execute_in c .flush with rf := rf5, calls := calls5 } ∧
      s6 = { s5.memory_in c .flush with rf := rf6, calls := calls6 } := by
  obtain ⟨e1, e2, e3⟩ := h.flush_eq (Or.inl rfl)
  have h1 := clock_writeback_inv h hwb
  obtain ⟨f1, f2, f3, f4, f5, _⟩ := clock_writeback_frame hwb
  have hf2 : s2.rp_fetch_flush.dataQueue = [(c, true)] := by rw [f1]; exact hq
  have ht2 : s2.rp_memory_2_fetch_target.dataQueue = [(c, T)] := by rw [f5]; exact ht
  have hd2 : s2.rp_decode_flush.dataQueue = [(c, true)] := by rw [f2, ← e1]; exact hq
  have he2 : s2.rp_execute_flush.dataQueue = [(c, true)] := by rw [f3, ← e2, ← e1]; exact hq
  have hm2 : s2.rp_memory_flush.dataQueue = [(c, true)] := by
    rw [f4, ← e3, ← e2, ← e1]; exact hq
  obtain ⟨s3, k3, q3⟩ : ∃ s3, s2.clock_fetch c = .ok s3 ∧
      s3 = { s2 with rp_memory_2_fetch_target :=
               s2.rp_memory_2_fetch_target.ignore c }.fetched c T
             (s2.wp_fetch_2_decode.written c) :=
    ⟨_, clock_fetch_redirect h1 hf2 ht2, rfl⟩
  have hd3 : s3.rp_decode_flush.dataQueue = [(c, true)] := by rw [q3]; exact hd2
  obtain ⟨s4, k4, q4⟩ : ∃ s4, s3.clock_decode c = .ok s4 ∧ s4 = s3.decode_in c .flush :=
    ⟨_, clock_decode_flush (ReadPort.signal_of_queue hd3), rfl⟩
  have he4 : s4.rp_execute_flush.dataQueue = [(c, true)] := by rw [q4, q3]; exact he2
  obtain ⟨rf5, calls5, k5⟩ := clock_execute_flushed (ReadPort.signal_of_queue he4)
  have hm5 : (PerfMIPS.rp_memory_flush
      { s4.execute_in c .flush with rf := rf5, calls := calls5 }).dataQueue = [(c, true)] := by
    rw [q4, q3]; exact hm2
  obtain ⟨rf6, calls6, k6⟩ := clock_memory_flushed (ReadPort.signal_of_queue hm5)
  exact ⟨s3, s4, _, _, rf5, calls5, rf6, calls6, k3, k4, k5, k6, q3, q4, rfl, rfl⟩

/-- The contents of all ports at the end of a cycle that started with a flush
and the fetch target `T` pending, in terms of the state `s2` after writeback. -/
theorem flush_cycle_ports {t s2 s3 s4 s5 s6 : PerfMIPS E} {c : Cycle} {T : Addr}
    {rf5 rf6 : E.RF} {calls5 calls6 : List (Call E)}
    (h : Inv t c 0) (hwb : t.clock_writeback c = .ok s2)
    (q3 : s3 = { s2 with rp_memory_2_fetch_target :=
                   s2.rp_memory_2_fetch_target.ignore c }.fetched c T
                 (s2.wp_fetch_2_decode.written c))
    (q4 : s4 = s3.decode_in c .flush)
    (q5 : s5 = { s4.execute_in c .flush with rf := rf5, calls := calls5 })
    (q6 : s6 = { s5.memory_in c .flush with rf := rf6, calls := calls6 }) :
    s6.rp_fetch_2_decode.dataQueue =
      [(c + 1, { raw := E.fetch s2.memory T, PC := T, predicted_taken := E.is_taken s2.bp T,
                 predicted_target := E.get_target s2.bp T })] ∧
    s6.rp_decode_2_decode.dataQueue = [] ∧ s6.rp_decode_2_execute.dataQueue = [] ∧
    s6.rp_execute_2_memory.dataQueue = [] ∧ s6.rp_memory_2_writeback.dataQueue = [] ∧
    s6.rp_decode_2_fetch_stall.dataQueue = [] ∧ s6.rp_fetch_flush.dataQueue = [] ∧
    s6.rp_decode_flush.dataQueue = [] ∧ s6.rp_execute_flush.dataQueue = [] ∧
    s6.rp_memory_flush.dataQueue = [] ∧ s6.rp_memory_2_fetch_target.dataQueue = [] ∧
    s6.wp_decode_2_fetch_stall = t.wp_decode_2_fetch_stall ∧
    s6.wp_decode_2_decode = t.wp_decode_2_decode ∧
    s6.wp_decode_2_execute = t.wp_decode_2_execute ∧
    s6.wp_execute_2_memory = t.wp_execute_2_memory ∧
    s6.wp_memory_2_writeback = t.wp_memory_2_writeback ∧
    s6.wp_memory_2_all_flush = t.wp_memory_2_all_flush ∧
    s6.wp_memory_2_fetch_target = t.wp_memory_2_fetch_target := by
  have h1 := clock_writeback_inv h hwb
  obtain ⟨_, w2, w3, w4, w5, w6, w7, w8⟩ := clock_writeback_writes hwb
  subst q3 q4 q5 q6
  exact ⟨ReadPort.ignore_pushData _ h1.f2d,
    ReadPort.ignore_empty h1.d2d,
    ReadPort.ignore_empty h1.d2e,
    ReadPort.ignore_empty h1.e2m,
    ReadPort.shape_empty h1.m2w,
    ReadPort.ignore_empty h1.stall,
    ReadPort.ignore_empty h1.fflush,
    ReadPort.ignore_empty h1.dflush,
    ReadPort.ignore_empty h1.eflush,
    ReadPort.ignore_empty h1.mflush,
    ReadPort.ignore_empty h1.target,
    w2,
    w3,
    w4,
    w5,
    w6,
    w7,
    w8⟩


/-- The start of the cycle after a memory stage that signals a misprediction:
the invariant holds, the flush signal and the target are pending. -/
theorem after_misprediction {s : PerfMIPS E} {C : Cycle} {instr : E.Instr}
    (h : Inv s C 4)
    (hf : s.rp_memory_flush.signal C = false)
    (hr : s.rp_execute_2_memory.is_ready C = true)
    (hv : s.rp_execute_2_memory.front? = some instr)
    (hj : E.is_jump instr = true) (hm : E.is_misprediction instr = true) :
    ∃ s1, s.clock_memory C = .ok s1 ∧
      Inv { s1 with sout := s1.sout ++ [LogLine.executed s1.executed_instrs] } (C + 1) 0 ∧
      s1.rp_fetch_flush.dataQueue = [(C + 1, true)] ∧
      s1.rp_memory_2_fetch_target.dataQueue = [(C + 1, E.get_new_PC instr)] := by
  have e1 := clock_memory_mispredicted hf hr hv hj hm (WritePort.write_of_shape h.w_flush)
    (WritePort.write_of_shape h.w_target) (WritePort.write_of_shape h.w_m2w)
  obtain ⟨pf, _, _, _, pt⟩ := memory_mispredicted_ports h instr
    (s.wp_memory_2_all_flush.written C) (s.wp_memory_2_fetch_target.written C)
    (s.wp_memory_2_writeback.written C)
  exact ⟨_, e1, (h.memory_mispredicted instr).next _, pf, pt⟩

/-- C5. A flush discards all wrong-path contents. Let `s` be a state of the
driver loop before `clock_memory` at cycle `C` in which Memory, not flushed,
reads a mispredicted jump `instr`, so that it writes the flush signal. Then,
whenever writeback at `C + 1` returns, the other four stages of cycle `C + 1`
succeed; Decode is flushed (it ignores both its inputs and logs "flush"),
Execute and Memory are flushed (each drops its input; apart from the log only
the register file, through `cancel`, changes); at the end of cycle `C + 1` the
latches decode→decode, decode→execute, execute→memory and memory→writeback are
empty and fetch→decode holds only the value fetched at the new target in cycle
`C + 1`; and nothing was written to decode→execute, decode→decode,
decode→fetch-stall, execute→memory, memory→writeback, memory→all-flush or
memory→fetch-target: their write ports are as Memory left them at cycle `C`
and their read ports are empty. -/
theorem flush_discards_wrong_path {s : PerfMIPS E} {C : Cycle} {instr : E.Instr}
    (h : Inv s C 4)
    (hf : s.rp_memory_flush.signal C = false)
    (hr : s.rp_execute_2_memory.is_ready C = true)
    (hv : s.rp_execute_2_memory.front? = some instr)
    (hj : E.is_jump instr = true) (hm : E.is_misprediction instr = true) :
    ∃ s1, s.clock_memory C = .ok s1 ∧
      ∀ s2, PerfMIPS.clock_writeback
          { s1 with sout := s1.sout ++ [LogLine.executed s1.executed_instrs] } (C + 1) = .ok s2 →
        ∃ s3 s4 s5 s6 rf5 calls5 rf6 calls6,
          s2.clock_fetch (C + 1) = .ok s3 ∧ s3.clock_decode (C + 1) = .ok s4 ∧
          s4.clock_execute (C + 1) = .ok s5 ∧ s5.clock_memory (C + 1) = .ok s6 ∧
          s4 = s3.decode_in (C + 1) .flush ∧
          s5 = { s4.execute_in (C + 1) .flush with rf := rf5, calls := calls5 } ∧
          s6 = { s5.memory_in (C + 1) .flush with rf := rf6, calls := calls6 } ∧
          s6.rp_fetch_2_decode.dataQueue =
            [(C + 1 + 1, { raw := E.fetch s2.memory (E.get_new_PC instr)
                           PC := E.get_new_PC instr
                           predicted_taken := E.is_taken s2.bp (E.get_new_PC instr)
                           predicted_target := E.get_target s2.bp (E.get_new_PC instr) })] ∧
          s6.rp_decode_2_decode.dataQueue = [] ∧ s6.rp_decode_2_execute.dataQueue = [] ∧
          s6.rp_execute_2_memory.dataQueue = [] ∧ s6.rp_memory_2_writeback.dataQueue = [] ∧
          s6.rp_decode_2_fetch_stall.dataQueue = [] ∧ s6.rp_fetch_flush.dataQueue = [] ∧
          s6.rp_decode_flush.dataQueue = [] ∧ s6.rp_execute_flush.dataQueue = [] ∧
          s6.rp_memory_flush.dataQueue = [] ∧ s6.rp_memory_2_fetch_target.dataQueue = [] ∧
          s6.wp_decode_2_fetch_stall = s1.wp_decode_2_fetch_stall ∧
          s6.wp_decode_2_decode = s1.wp_decode_2_decode ∧
          s6.wp_decode_2_execute = s1.wp_decode_2_execute ∧
          s6.wp_execute_2_memory = s1.wp_execute_2_memory ∧
          s6.wp_memory_2_writeback = s1.wp_memory_2_writeback ∧
          s6.wp_memory_2_all_flush = s1.wp_memory_2_all_flush ∧
          s6.wp_memory_2_fetch_target = s1.wp_memory_2_fetch_target := by
  obtain ⟨s1, e1, h0, pf, pt⟩ := after_misprediction h hf hr hv hj hm
  refine ⟨s1, e1, ?_⟩
  intro s2 hwb
  obtain ⟨s3, s4, s5, s6, rf5, calls5, rf6, calls6, k3, k4, k5, k6, q3, q4, q5, q6⟩ :=
    flush_cycle h0 pf pt hwb
  have hp := flush_cycle_ports h0 hwb q3 q4 q5 q6
  exact ⟨s3, s4, s5, s6, rf5, calls5, rf6, calls6, k3, k4, k5, k6, q4, q5, q6, hp⟩

/-- Witness for C5: the concrete machine before `clock_memory` at cycle 3. -/
theorem flush_discards_wrong_path_witness :
    Inv (toy_execute 3) 3 4 ∧
    (toy_execute 3).rp_memory_flush.signal 3 = false ∧
    (toy_execute 3).rp_execute_2_memory.is_ready 3 = true ∧
    (toy_execute 3).rp_execute_2_memory.front? = some toy_jump ∧
    toy.is_jump toy_jump = true ∧ toy.is_misprediction toy_jump = true ∧
    ∃ s1, (toy_execute 3).clock_memory 3 = .ok s1 ∧
      ∀ s2, PerfMIPS.clock_writeback
          { s1 with sout := s1.sout ++ [LogLine.executed s1.executed_instrs] } (3 + 1) = .ok s2 →
        ∃ s6, (do
            let s3 ← s2.clock_fetch (3 + 1)
            let s4 ← s3.clock_decode (3 + 1)
            let s5 ← s4.clock_execute (3 + 1)
            s5.clock_memory (3 + 1)) = .ok s6 ∧
          s6.rp_decode_2_decode.dataQueue = [] ∧ s6.rp_decode_2_execute.dataQueue = [] ∧
          s6.rp_execute_2_memory.dataQueue = [] ∧ s6.rp_memory_2_writeback.dataQueue = [] :=
  ⟨by decide!, by decide!, by decide!, by decide!, by decide!, by decide!,
    (@flush_discards_wrong_path toy (toy_execute 3) 3 toy_jump (by decide!) (by decide!)
      (by decide!) (by decide!) (by decide!) (by decide!)).elim
      fun s1 hs => ⟨s1, hs.1, fun s2 hwb =>
        (hs.2 s2 hwb).elim fun s3 h3 => h3.elim fun s4 h4 => h4.elim fun s5 h5 =>
          h5.elim fun s6 h6 => h6.elim fun _ h7 => h7.elim fun _ h8 => h8.elim fun _ h9 =>
            h9.elim fun _ h10 =>
              ⟨s6, by simp [bind, Except.bind, h10.1, h10.2.1, h10.2.2.1, h10.2.2.2.1],
                h10.2.2.2.2.2.2.2.2.1, h10.2.2.2.2.2.2.2.2.2.1, h10.2.2.2.2.2.2.2.2.2.2.1,
                h10.2.2.2.2.2.2.2.2.2.2.2.1⟩⟩⟩


/-- C6, as the code has it. On a misprediction signalled by Memory at cycle
`C` (hypotheses as in C5), whenever writeback at `C + 1` returns, the lines
the five stages log in cycle `C + 1` are: the writeback line (never "flush"),
the ordinary fetch line, showing the new PC `T = instr.get_new_PC()` and the
word fetched there, and a "flush" line for each of decode, execute and memory:
three "flush" lines in that cycle, none of them from fetch. -/
theorem flush_log_lines {s : PerfMIPS E} {C : Cycle} {instr : E.Instr}
    (h : Inv s C 4)
    (hf : s.rp_memory_flush.signal C = false)
    (hr : s.rp_execute_2_memory.is_ready C = true)
    (hv : s.rp_execute_2_memory.front? = some instr)
    (hj : E.is_jump instr = true) (hm : E.is_misprediction instr = true) :
    ∃ s1, s.clock_memory C = .ok s1 ∧
      ∀ s2, PerfMIPS.clock_writeback
          { s1 with sout := s1.sout ++ [LogLine.executed s1.executed_instrs] } (C + 1) = .ok s2 →
        ∃ s3 s4 s5 s6 p,
          s2.clock_fetch (C + 1) = .ok s3 ∧ s3.clock_decode (C + 1) = .ok s4 ∧
          s4.clock_execute (C + 1) = .ok s5 ∧ s5.clock_memory (C + 1) = .ok s6 ∧
          p ≠ Payload.flush ∧
          s6.sout = s1.sout ++ [LogLine.executed s1.executed_instrs] ++
            [.stage .wb (C + 1) p,
             .stage .fetch (C + 1)
               (.fetched (E.get_new_PC instr) (E.fetch s2.memory (E.get_new_PC instr))),
             .stage .decode (C + 1) .flush,
             .stage .execute (C + 1) .flush,
             .stage .memory (C + 1) .flush] ∧
          (s6.sout.drop (s1.sout.length + 1)).filterMap LogLine.flush_stage? =
            [.decode, .execute, .memory] := by
  obtain ⟨s1, e1, h0, pf, pt⟩ := after_misprediction h hf hr hv hj hm
  refine ⟨s1, e1, ?_⟩
  intro s2 hwb
  obtain ⟨s3, s4, s5, s6, rf5, calls5, rf6, calls6, k3, k4, k5, k6, q3, q4, q5, q6⟩ :=
    flush_cycle h0 pf pt hwb
  have hlog : ∃ p, p ≠ Payload.flush ∧
      s2.sout = s1.sout ++ [LogLine.executed s1.executed_instrs] ++
        [.stage .wb (C + 1) p] := by
    rcases clock_writeback_cases hwb with ⟨_, _, rfl⟩ | ⟨i, i', _, _, _, _, rfl⟩
    · exact ⟨.bubble, fun hp => Payload.noConfusion hp, rfl⟩
    · exact ⟨.instr i', fun hp => Payload.noConfusion hp, rfl⟩
  obtain ⟨p, hp, hs2⟩ := hlog
  have hs6 : s6.sout = s2.sout ++
      [.stage .fetch (C + 1)
         (.fetched (E.get_new_PC instr) (E.fetch s2.memory (E.get_new_PC instr))),
       .stage .decode (C + 1) .flush, .stage .execute (C + 1) .flush,
       .stage .memory (C + 1) .flush] := by
    subst q3 q4 q5 q6
    simp [PerfMIPS.memory_in, PerfMIPS.execute_in, PerfMIPS.decode_in, PerfMIPS.fetched]
  have hs6' : s6.sout = s1.sout ++ [LogLine.executed s1.executed_instrs] ++
      [.stage .wb (C + 1) p,
       .stage .fetch (C + 1)
         (.fetched (E.get_new_PC instr) (E.fetch s2.memory (E.get_new_PC instr))),
       .stage .decode (C + 1) .flush, .stage .execute (C + 1) .flush,
       .stage .memory (C + 1) .flush] := by
    rw [hs6, hs2]
    simp
  refine ⟨s3, s4, s5, s6, p, k3, k4, k5, k6, hp, hs6', ?_⟩
  rw [hs6']
  have hlen : (s1.sout ++ [LogLine.executed s1.executed_instrs]).length =
      s1.sout.length + 1 := by simp
  rw [← hlen, List.drop_left]
  cases p with
  | flush => exact absurd rfl hp
  | bubble => rfl
  | fetched a b => rfl
  | instr i => rfl
  | hazard i => rfl
  | misprediction i => rfl

/-- Witness for C6 as amended: the concrete machine before `clock_memory` at
cycle 3. -/
theorem flush_log_lines_witness :
    Inv (toy_execute 3) 3 4 ∧
    (toy_execute 3).rp_memory_flush.signal 3 = false ∧
    (toy_execute 3).rp_execute_2_memory.is_ready 3 = true ∧
    (toy_execute 3).rp_execute_2_memory.front? = some toy_jump ∧
    toy.is_jump toy_jump = true ∧ toy.is_misprediction toy_jump = true ∧
    ∃ s1, (toy_execute 3).clock_memory 3 = .ok s1 ∧
      ∀ s2, PerfMIPS.clock_writeback
          { s1 with sout := s1.sout ++ [LogLine.executed s1.executed_instrs] } (3 + 1) = .ok s2 →
        ∃ s6, (do
            let s3 ← s2.clock_fetch (3 + 1)
            let s4 ← s3.clock_decode (3 + 1)
            let s5 ← s4.clock_execute (3 + 1)
            s5.clock_memory (3 + 1)) = .ok s6 ∧
          (s6.sout.drop (s1.sout.length + 1)).filterMap LogLine.flush_stage? =
            [.decode, .execute, .memory] :=
  ⟨by decide!, by decide!, by decide!, by decide!, by decide!, by decide!,
    (@flush_log_lines toy (toy_execute 3) 3 toy_jump (by decide!) (by decide!)
      (by decide!) (by decide!) (by decide!) (by decide!)).elim
      fun s1 hs => ⟨s1, hs.1, fun s2 hwb =>
        (hs.2 s2 hwb).elim fun s3 h3 => h3.elim fun s4 h4 => h4.elim fun s5 h5 =>
          h5.elim fun s6 h6 => h6.elim fun _ h7 =>
            ⟨s6, by simp [bind, Except.bind, h7.1, h7.2.1, h7.2.2.1, h7.2.2.2.1],
              h7.2.2.2.2.2.2⟩⟩⟩

/-- Counterexample to C6 as stated: in the run of the concrete machine Memory
signals a misprediction at cycle 3, and the log of cycle 4 (the lines added
between the starts of cycles 4 and 5) has one line per stage of which only
three carry "flush", those of decode, execute and memory; the fetch line does
not. -/
theorem flush_log_lines_counterexample :
    (toy_execute 3).rp_memory_flush.signal 3 = false ∧
    (toy_execute 3).rp_execute_2_memory.front? = some toy_jump ∧
    toy.is_jump toy_jump = true ∧ toy.is_misprediction toy_jump = true ∧
    (toy_at 4).rp_fetch_flush.dataQueue = [(4, true)] ∧
    ((toy_at 5).sout.drop (toy_at 4).sout.length).map LogLine.stage_cycle? =
      [some (.wb, 4), some (.fetch, 4), some (.decode, 4), some (.execute, 4),
       some (.memory, 4), none] ∧
    ((toy_at 5).sout.drop (toy_at 4).sout.length).filterMap LogLine.flush_stage? =
      [.decode, .execute, .memory] ∧
    (((toy_at 5).sout.drop (toy_at 4).sout.length).filterMap LogLine.flush_stage?).length ≠ 4 :=
  ⟨by decide!, by decide!, by decide!, by decide!, by decide!, by decide!, by decide!,
    by decide!⟩


/-! ### Fetch: flush against stall -/

/-- C8. Flush wins over stall at Fetch. Whenever the flush signal read by
`clock_fetch` at cycle `c` is true and the step returns, `PC` after the step is
the value read from MEMORY_2_FETCH_TARGET at cycle `c`, whatever the stall port
holds; the stall port is consumed all the same (it is left as `ignore` leaves
it). In a state of the driver loop the step does return, and no stall value
remains ready. -/
theorem fetch_flush_wins {s : PerfMIPS E} {c : Cycle}
    (hf : s.rp_fetch_flush.signal c = true) :
    (∀ s', s.clock_fetch c = .ok s' →
      ∃ T, s.rp_memory_2_fetch_target.is_ready c = true ∧
        s.rp_memory_2_fetch_target.front? = some T ∧ s'.PC = T ∧
        s'.rp_decode_2_fetch_stall = s.rp_decode_2_fetch_stall.ignore c) ∧
    (Inv s c 1 → ∃ s', s.clock_fetch c = .ok s' ∧
      s'.rp_decode_2_fetch_stall.is_ready c = false) := by
  constructor
  · intro s' h
    obtain ⟨w, _, ⟨T, _, hr, hT, rfl⟩ | ⟨hf', _, _⟩ | ⟨hf', _, _⟩⟩ := clock_fetch_cases h
    · exact ⟨T, hr, hT, rfl, rfl⟩
    · rw [hf] at hf'
      cases hf'
    · rw [hf] at hf'
      cases hf'
  · intro h
    have hr : s.rp_memory_2_fetch_target.is_ready c = true := by
      rw [ReadPort.stamps_ready h.target_flush, ← ReadPort.signal_of_all h.fflush_true, hf]
    obtain ⟨T, hT⟩ := ReadPort.front_of_ready hr
    exact ⟨_, clock_fetch_flush hf hr hT (WritePort.write_of_shape h.w_f2d),
      ReadPort.not_ready_ignore h.stall⟩

/-- Witness for C8: the concrete machine at cycle 4 after writeback, where the
flush from the memory stage and the stall from decode arrive together. -/
theorem fetch_flush_wins_witness :
    (toy_wb 4).rp_fetch_flush.signal 4 = true ∧
    (toy_wb 4).rp_decode_2_fetch_stall.signal 4 = true ∧
    Inv (toy_wb 4) 4 1 ∧
    (toy_wb 4).rp_memory_2_fetch_target.front? = some 32 ∧
    (∀ s', (toy_wb 4).clock_fetch 4 = .ok s' →
      ∃ T, (toy_wb 4).rp_memory_2_fetch_target.is_ready 4 = true ∧
        (toy_wb 4).rp_memory_2_fetch_target.front? = some T ∧ s'.PC = T ∧
        s'.rp_decode_2_fetch_stall = (toy_wb 4).rp_decode_2_fetch_stall.ignore 4) ∧
    (∃ s', (toy_wb 4).clock_fetch 4 = .ok s' ∧
      s'.rp_decode_2_fetch_stall.is_ready 4 = false) :=
  ⟨by decide!, by decide!, by decide!, by decide!,
    (@fetch_flush_wins toy (toy_wb 4) 4 (by decide!)).1,
    (@fetch_flush_wins toy (toy_wb 4) 4 (by decide!)).2 (by decide!)⟩

/-! ### Retirement accounting and deadlock detection -/

/-- C9. `executed_instrs` and `last_writeback_cycle` are changed only by a
successful Writeback. A writeback with a ready input that passes `check_trap`
and the checker comparison raises `executed_instrs` (a 64-bit counter, not at
its maximum) by exactly 1 and sets `last_writeback_cycle` to the current cycle;
a writeback with no ready input and every call of the other four stages leave
both unchanged. Hence an iteration never lowers `executed_instrs`, and at the
normal end of a run of a fresh simulator it equals the number of writebacks
that retired an instruction. -/
theorem counters_only_by_writeback (E : Env) :
    (∀ (s : PerfMIPS E) (c : Cycle) (instr instr' : E.Instr),
      s.rp_memory_2_writeback.is_ready c = true →
      s.rp_memory_2_writeback.front? = some instr →
      E.check_trap instr = some instr' →
      E.Dump (E.step s.checker).2 = E.Dump instr' →
      s.executed_instrs + 1 < 2 ^ 64 →
      ∃ s', s.clock_writeback c = .ok s' ∧ s'.executed_instrs = s.executed_instrs + 1 ∧
        s'.last_writeback_cycle = c) ∧
    (∀ (s s' : PerfMIPS E) (c : Cycle), s.rp_memory_2_writeback.is_ready c = false →
      s.clock_writeback c = .ok s' →
      s'.executed_instrs = s.executed_instrs ∧
        s'.last_writeback_cycle = s.last_writeback_cycle) ∧
    (∀ (s s' : PerfMIPS E) (c : Cycle), s.clock_fetch c = .ok s' →
      s'.executed_instrs = s.executed_instrs ∧
        s'.last_writeback_cycle = s.last_writeback_cycle) ∧
    (∀ (s s' : PerfMIPS E) (c : Cycle), s.clock_decode c = .ok s' →
      s'.executed_instrs = s.executed_instrs ∧
        s'.last_writeback_cycle = s.last_writeback_cycle) ∧
    (∀ (s s' : PerfMIPS E) (c : Cycle), s.clock_execute c = .ok s' →
      s'.executed_instrs = s.executed_instrs ∧
        s'.last_writeback_cycle = s.last_writeback_cycle) ∧
    (∀ (s s' : PerfMIPS E) (c : Cycle), s.clock_memory c = .ok s' →
      s'.executed_instrs = s.executed_instrs ∧
        s'.last_writeback_cycle = s.last_writeback_cycle) ∧
    (∀ (s s' : PerfMIPS E) (c c' : Cycle), s.executed_instrs + 1 < 2 ^ 64 →
      s.iteration c = .ok (s', c') → s.executed_instrs ≤ s'.executed_instrs) ∧
    (∀ (rf : E.RF) (bp : E.BP) (checker : E.Chk) (memory : E.Mem) (PC new_PC : Addr)
      (lwc : Cycle) (tr : String) (N fuel : Nat) (s' : PerfMIPS E) (c' : Cycle), N < 2 ^ 32 →
      (PerfMIPS.new E rf bp checker memory PC new_PC lwc).run tr N fuel = some (.ok (s', c')) →
      s'.executed_instrs = s'.retirements) := by
  refine ⟨?_, ?_, ?_, ?_, ?_, ?_, ?_, ?_⟩
  · intro s c instr instr' hr hv ht hc hlt
    refine ⟨_, clock_writeback_retire hr hv ht hc, ?_, rfl⟩
    exact Nat.mod_eq_of_lt hlt
  · intro s s' c hr h
    rcases clock_writeback_cases h with ⟨_, _, rfl⟩ | ⟨i, i', hr', _⟩
    · exact ⟨rfl, rfl⟩
    · rw [hr] at hr'
      cases hr'
  · intro s s' c h
    exact ⟨(clock_fetch_counters h).1, (clock_fetch_counters h).2.1⟩
  · intro s s' c h
    exact ⟨(clock_decode_counters h).1, (clock_decode_counters h).2.1⟩
  · intro s s' c h
    exact ⟨(clock_execute_counters h).1, (clock_execute_counters h).2.1⟩
  · intro s s' c h
    exact ⟨(clock_memory_counters h).1, (clock_memory_counters h).2.1⟩
  · intro s s' c c' hlt h
    obtain ⟨_, ⟨_, _, he, _⟩ | ⟨_, he, _⟩⟩ := iteration_counters h
    · omega
    · rw [he, Nat.mod_eq_of_lt hlt]
      omega
  · intro rf bp checker memory PC new_PC lwc tr N fuel s' c' hN h
    rw [run_eq] at h
    split at h
    · split at h
      · cases h
      · split at h
        · cases h
        · exact (run_loop_exact (by omega) fuel _ 0 s' c' (Nat.zero_le _) rfl h).2
    · cases h

/-- Witness for C9: the retirement of the jump at cycle 4 of the concrete
machine, and the normal end of its run of three instructions. -/
theorem counters_only_by_writeback_witness :
    (toy_at 4).rp_memory_2_writeback.is_ready 4 = true ∧
    (toy_at 4).rp_memory_2_writeback.front? = some toy_jump ∧
    (toy_at 4).executed_instrs = 0 ∧
    (∃ s', (toy_at 4).clock_writeback 4 = .ok s' ∧ s'.executed_instrs = 0 + 1 ∧
      s'.last_writeback_cycle = 4) ∧
    (match toy_new.run "t" 3 40 with
      | some (.ok r) => (r.1.executed_instrs, r.1.retirements)
      | _ => (0, 0)) = (3, 3) :=
  ⟨by decide!, by decide!, by decide!,
    (counters_only_by_writeback toy).1 (toy_at 4) 4 toy_jump toy_jump (by decide!) (by decide!)
      (by decide!) (by decide!) (by decide!),
    by decide!⟩

theorem cycles_lwc {E : Env} {s : PerfMIPS E} {R : Cycle}
    (hr : s.rp_memory_2_writeback.is_ready R = true) :
    ∀ j, (∀ i, 1 ≤ i → i ≤ j + 1 →
        holds (s.cycles R i) (fun t => !t.rp_memory_2_writeback.is_ready (R + i)) = true) →
      ∃ t, s.cycles R (j + 1) = .ok t ∧ t.last_writeback_cycle = R ∧
        t.rp_memory_2_writeback.is_ready (R + (j + 1)) = false := by
  intro j
  induction j with
  | zero =>
    intro hb
    obtain ⟨t, ht, hn⟩ := holds_iff.mp (hb 1 (Nat.le_refl 1) (Nat.le_refl 1))
    refine ⟨t, ht, ?_, by simpa using hn⟩
    rw [cycles_succ] at ht
    cases hi : s.iteration R with
    | error e => simp [hi] at ht
    | ok r =>
      obtain ⟨s1, c1⟩ := r
      simp only [hi, PerfMIPS.cycles] at ht
      cases ht
      obtain ⟨_, ⟨hr', _⟩ | ⟨_, _, hl, _⟩⟩ := iteration_counters hi
      · rw [hr] at hr'
        cases hr'
      · exact hl
  | succ j ih =>
    intro hb
    obtain ⟨t0, ht0, hl0, hn0⟩ := ih (fun i h1 h2 => hb i h1 (by omega))
    obtain ⟨t, ht, hn⟩ := holds_iff.mp (hb (j + 1 + 1) (by omega) (Nat.le_refl _))
    refine ⟨t, ht, ?_, by simpa using hn⟩
    rw [cycles_last, ht0] at ht
    simp only [] at ht
    cases hi : t0.iteration (R + (j + 1)) with
    | error e => simp [hi] at ht
    | ok r =>
      obtain ⟨s1, c1⟩ := r
      simp only [hi] at ht
      cases ht
      obtain ⟨_, ⟨_, _, _, hl, _⟩ | ⟨hr', _⟩⟩ := iteration_counters hi
      · rw [hl, hl0]
      · rw [hn0] at hr'
        cases hr'

/-- C10. Deadlock detection. `clock_writeback` at cycle `c` declares deadlock
if and only if its input latch is not ready and `c − last_writeback_cycle ≥ 10`.
Consequently, if writeback retires at cycle `R` and then finds only bubbles, so
that the loop reaches cycle `R + j` without a fatal error: `last_writeback_cycle`
is still `R` there, for `j ≤ 9` writeback at `R + j` logs its bubble and returns
(no deadlock), and for `j = 10` it declares deadlock. -/
theorem deadlock_detection (E : Env) :
    (∀ (s : PerfMIPS E) (c : Cycle), s.clock_writeback c = .error .deadlock ↔
      (s.rp_memory_2_writeback.is_ready c = false ∧ c - s.last_writeback_cycle ≥ 10)) ∧
    (∀ (s : PerfMIPS E) (R : Cycle) (j : Nat),
      s.rp_memory_2_writeback.is_ready R = true → 1 ≤ j →
      (∀ i, 1 ≤ i → i ≤ j →
        holds (s.cycles R i) (fun t => !t.rp_memory_2_writeback.is_ready (R + i)) = true) →
      ∃ t, s.cycles R j = .ok t ∧ t.last_writeback_cycle = R ∧
        (j ≤ 9 → t.clock_writeback (R + j) = .ok (t.log .wb (R + j) .bubble)) ∧
        (j = 10 → t.clock_writeback (R + j) = .error .deadlock)) := by
  constructor
  · intro s c
    constructor
    · intro h
      cases hr : s.rp_memory_2_writeback.is_ready c
      · refine ⟨rfl, ?_⟩
        by_cases hd : c < s.last_writeback_cycle + 10
        · rw [clock_writeback_bubble hr hd] at h
          cases h
        · unfold Cycle at *
          omega
      · have := clock_writeback_error h
        obtain ⟨instr, hv⟩ := ReadPort.front_of_ready hr
        cases ht : E.check_trap instr with
        | none =>
          rw [clock_writeback_trap hr hv ht] at h
          cases h
        | some instr' =>
          by_cases hc : E.Dump (E.step s.checker).2 = E.Dump instr'
          · rw [clock_writeback_retire hr hv ht hc] at h
            cases h
          · rw [clock_writeback_mismatch hr hv ht hc] at h
            cases h
    · intro ⟨hr, hd⟩
      exact clock_writeback_deadlock hr (by unfold Cycle at *; omega)
  · intro s R j hr hj hb
    obtain ⟨k, rfl⟩ : ∃ k, j = k + 1 := ⟨j - 1, by omega⟩
    obtain ⟨t, ht, hl, hn⟩ := cycles_lwc hr k hb
    refine ⟨t, ht, hl, ?_, ?_⟩
    · intro h9
      exact clock_writeback_bubble hn (by rw [hl]; unfold Cycle at *; omega)
    · intro h10
      exact clock_writeback_deadlock hn (by rw [hl]; unfold Cycle at *; omega)

/-- Witness for C10: in the concrete machine the last retirement is at cycle
13; the instruction at 48 never leaves decode, and writeback declares deadlock
at cycle 23 and not before. -/
theorem deadlock_detection_witness :
    (toy_at 13).rp_memory_2_writeback.is_ready 13 = true ∧
    (∀ i, 1 ≤ i → i ≤ 10 →
      holds ((toy_at 13).cycles 13 i)
        (fun t => !t.rp_memory_2_writeback.is_ready (13 + i)) = true) ∧
    (∃ t, (toy_at 13).cycles 13 10 = .ok t ∧ t.last_writeback_cycle = 13 ∧
      (10 ≤ 9 → t.clock_writeback (13 + 10) = .ok (t.log .wb (13 + 10) .bubble)) ∧
      (10 = 10 → t.clock_writeback (13 + 10) = .error .deadlock)) ∧
    (∃ t, (toy_at 13).cycles 13 9 = .ok t ∧ t.last_writeback_cycle = 13 ∧
      (9 ≤ 9 → t.clock_writeback (13 + 9) = .ok (t.log .wb (13 + 9) .bubble)) ∧
      (9 = 10 → t.clock_writeback (13 + 9) = .error .deadlock)) :=
  ⟨by decide!, by decide!,
    (deadlock_detection toy).2 (toy_at 13) 13 10 (by decide!) (by decide!) (by decide!),
    (deadlock_detection toy).2 (toy_at 13) 13 9 (by decide!) (by decide!) (by decide!)⟩


/-! ### Data-hazard stalls -/

/-- Execute leaves the fetch and decode latches alone and consumes its input. -/
theorem clock_execute_frame {s s' : PerfMIPS E} {c : Cycle}
    (h : s.clock_execute c = .ok s') :
    s'.rp_fetch_2_decode = s.rp_fetch_2_decode ∧
    s'.rp_decode_2_decode = s.rp_decode_2_decode ∧
    s'.rp_decode_2_fetch_stall = s.rp_decode_2_fetch_stall ∧
    s'.rp_decode_2_execute = s.rp_decode_2_execute.ignore c ∧
    s'.PC = s.PC ∧ s'.new_PC = s.new_PC ∧ s'.rp_memory_flush = s.rp_memory_flush := by
  rcases clock_execute_cases h with ⟨i, _, _, _, rfl⟩ | ⟨_, _, rfl⟩ | ⟨_, _, rfl⟩ |
    ⟨i, w, _, _, _, _, rfl⟩ <;>
    exact ⟨rfl, rfl, rfl, rfl, rfl, rfl, rfl⟩

/-- Memory leaves the fetch, decode and execute latches alone. -/
theorem clock_memory_frame {s s' : PerfMIPS E} {c : Cycle}
    (h : s.clock_memory c = .ok s') :
    s'.rp_fetch_2_decode = s.rp_fetch_2_decode ∧
    s'.rp_decode_2_decode = s.rp_decode_2_decode ∧
    s'.rp_decode_2_fetch_stall = s.rp_decode_2_fetch_stall ∧
    s'.rp_decode_2_execute = s.rp_decode_2_execute ∧
    s'.PC = s.PC ∧ s'.new_PC = s.new_PC := by
  rcases clock_memory_cases h with ⟨i, _, _, _, rfl⟩ | ⟨_, _, rfl⟩ | ⟨_, _, rfl⟩ |
    ⟨i, w, _, _, _, _, _, rfl⟩ | ⟨i, w, _, _, _, _, _, _, rfl⟩ |
    ⟨i, wf, wt, w, _, _, _, _, _, _, _, _, rfl⟩ <;>
    exact ⟨rfl, rfl, rfl, rfl, rfl, rfl⟩

/-- Once decode has run, the fetch→decode latch holds exactly the value
fetched in this cycle, at `PC`. -/
theorem Inv.latch {s : PerfMIPS E} {c : Cycle} {k : Nat} (h : Inv s c k) (hk : 3 ≤ k) :
    ∃ d, s.rp_fetch_2_decode.dataQueue = [(c + 1, d)] ∧ d.PC = s.PC := by
  have h1 := h.f2d
  have h2 := h.f2d_fresh (by omega)
  have h3 := h.f2d_pc
  have hk' : decide (k ≤ 2) = false := by simp; omega
  rw [hk'] at h1
  unfold ReadPort.shape at h1
  rcases hq : s.rp_fetch_2_decode.dataQueue with _ | ⟨⟨t, v⟩, _ | ⟨⟨t2, v2⟩, _ | ⟨e3, r⟩⟩⟩
  · simp [hq] at h2
  · simp [hq] at h1 h2 h3
    exact ⟨v, by rw [h2], h3⟩
  · simp [hq] at h1
  · simp [hq] at h1

/-- The end of a cycle in which decode found a hazard on `instr`. -/
theorem stalling_of_stalled {f d e m : PerfMIPS E} {c : Cycle} {instr : E.Instr}
    (h2 : Inv f c 2) (hd : d = f.stalled c instr (f.wp_decode_2_fetch_stall.written c)
      (f.wp_decode_2_decode.written c))
    (he : d.clock_execute c = .ok e) (hm : e.clock_memory c = .ok m) :
    Stalling { m with sout := m.sout ++ [LogLine.executed m.executed_instrs] } (c + 1)
      instr f.PC := by
  have h3 : Inv d c 3 := hd ▸ h2.stalled instr
  obtain ⟨e', he', h4⟩ := clock_execute_inv h3
  rw [he] at he'
  cases he'
  obtain ⟨m', hm', h5⟩ := clock_memory_inv h4
  rw [hm] at hm'
  cases hm'
  obtain ⟨a1, a2, a3, a4, a5, _⟩ := clock_execute_frame he
  obtain ⟨b1, b2, b3, b4, b5, _⟩ := clock_memory_frame hm
  obtain ⟨d0, hq, hp⟩ := h5.latch (by decide)
  refine ⟨h5.next _, ?_, ?_, ⟨d0, hq, ?_⟩, ?_, ?_⟩
  · show m.rp_decode_2_fetch_stall.dataQueue = _
    rw [b3, a3, hd]
    exact ReadPort.pushData_of_empty _ _ (ReadPort.shape_empty h2.stall)
      (ReadPort.latency_of_shape h2.stall)
  · show m.rp_decode_2_decode.dataQueue = _
    rw [b2, a2, hd]
    exact ReadPort.pushData_of_empty _ _ (ReadPort.ignore_empty h2.d2d)
      (ReadPort.latency_of_shape (ReadPort.shape_ignore h2.d2d))
  · rw [hp, b5, a5, hd]
    rfl
  · show m.PC = f.PC
    rw [b5, a5, hd]
    rfl
  · show m.rp_decode_2_execute.dataQueue = _
    rw [b4, a4, hd]
    exact ReadPort.ignore_empty h2.d2e

/-- The end of a cycle in which decode sent `instr` on to execute while nothing
else was pending for execute. -/
theorem released_of_issued {f d e m : PerfMIPS E} {c : Cycle} {instr : E.Instr}
    (h2 : Inv f c 2) (hne : f.rp_decode_2_execute.dataQueue = [])
    (hs : f.rp_decode_2_fetch_stall.dataQueue = [])
    (hd : d = f.issued c instr (f.wp_decode_2_execute.written c))
    (he : d.clock_execute c = .ok e) (hm : e.clock_memory c = .ok m) :
    ∃ d0, Released { m with sout := m.sout ++ [LogLine.executed m.executed_instrs] } (c + 1)
      (E.read_sources f.rf instr).2 d0 ∧ d0.PC = f.PC := by
  have h3 : Inv d c 3 := hd ▸ h2.issued instr
  obtain ⟨e', he', h4⟩ := clock_execute_inv h3
  rw [he] at he'
  cases he'
  obtain ⟨m', hm', h5⟩ := clock_memory_inv h4
  rw [hm] at hm'
  cases hm'
  obtain ⟨a1, a2, a3, a4, a5, _⟩ := clock_execute_frame he
  obtain ⟨b1, b2, b3, b4, b5, _⟩ := clock_memory_frame hm
  obtain ⟨d0, hq, hp⟩ := h5.latch (by decide)
  have hpc : m.PC = f.PC := by
    rw [b5, a5, hd]
    rfl
  refine ⟨d0, ⟨h5.next _, ?_, ?_, hq, ?_, ?_⟩, hp.trans hpc⟩
  · show m.rp_decode_2_fetch_stall.dataQueue = _
    rw [b3, a3, hd]
    exact hs
  · show m.rp_decode_2_decode.dataQueue = _
    rw [b2, a2, hd]
    exact ReadPort.ignore_empty h2.d2d
  · exact hp.symm
  · show m.rp_decode_2_execute.dataQueue = _
    rw [b4, a4, hd]
    have hpush : (f.rp_decode_2_execute.pushData (E.read_sources f.rf instr).2 c).dataQueue =
        [(c + 1, (E.read_sources f.rf instr).2)] :=
      ReadPort.pushData_of_empty _ _ hne (ReadPort.latency_of_shape h2.d2e)
    have hnr : (f.rp_decode_2_execute.pushData (E.read_sources f.rf instr).2 c).is_ready c =
        false := by
      simp [ReadPort.is_ready, hpush]
    show ((f.rp_decode_2_execute.pushData (E.read_sources f.rf instr).2 c).ignore c).dataQueue
      = _
    rw [ReadPort.ignore_of_not_ready hnr]
    exact hpush


/-- One cycle that starts stalled on `instr`, with no flush pending: fetch
presents `P` again, decode takes `instr` from the self-loop and drops the older
of the two fetch→decode values; what follows depends on `check_sources`. -/
theorem stall_cycle {t w : PerfMIPS E} {c : Cycle} {instr : E.Instr} {P : Addr}
    (hs : Stalling t c instr P) (hnf : t.rp_fetch_flush.dataQueue = [])
    (hwb : t.clock_writeback c = .ok w) :
    ∃ f d t' d0 d1, w.clock_fetch c = .ok f ∧ f.clock_decode c = .ok d ∧
      t.iteration c = .ok (t', c + 1) ∧
      f = w.fetched c P (w.wp_fetch_2_decode.written c) ∧
      f.rp_decode_2_decode.dataQueue = [(c, instr)] ∧ f.decode_input c = some instr ∧
      f.rp_fetch_2_decode.dataQueue = [(c, d0), (c + 1, d1)] ∧
      d.rp_fetch_2_decode.dataQueue = [(c + 1, d1)] ∧ d0.PC = P ∧ d1.PC = P ∧
      (E.check_sources w.rf instr = false →
        d = f.stalled c instr (f.wp_decode_2_fetch_stall.written c)
          (f.wp_decode_2_decode.written c) ∧
        d.rp_decode_2_execute.dataQueue = [] ∧ Stalling t' (c + 1) instr P) ∧
      (E.check_sources w.rf instr = true →
        d = f.issued c instr (f.wp_decode_2_execute.written c) ∧
        d.rp_decode_2_execute.dataQueue = [(c + 1, (E.read_sources w.rf instr).2)] ∧
        ∃ d', Released t' (c + 1) (E.read_sources w.rf instr).2 d' ∧ d'.PC = P) := by
  have h1 : Inv w c 1 := clock_writeback_inv hs.inv hwb
  obtain ⟨r1, r2, r3, r4, r5, r6, r7, r8, r9, r10, r11, r12, r13, r14⟩ :=
    clock_writeback_frame hwb
  have hflq := hs.inv.flush_eq (Or.inl rfl)
  have hff : w.rp_fetch_flush.signal c = false :=
    ReadPort.signal_of_nil (by rw [r1]; exact hnf)
  have hst : w.rp_decode_2_fetch_stall.signal c = true :=
    ReadPort.signal_of_queue (by rw [r6]; exact hs.stall)
  have hfetch := clock_fetch_stall hff hst (WritePort.write_of_shape h1.w_f2d)
  rw [r11, hs.pc] at hfetch
  obtain ⟨s2, s3, s4, s5, q2, q3, q4, q5, qs, -, h2, h3, h4, h5⟩ :=
    clock_stages_of_writeback hs.inv hwb
  rw [hfetch] at q2
  cases q2
  obtain ⟨d0, hq0, hp0⟩ := hs.latch
  have hqf : (w.fetched c P (w.wp_fetch_2_decode.written c)).rp_fetch_2_decode.dataQueue =
      [(c, d0), (c + 1, IfIdData.mk (E.fetch w.memory P) P (E.is_taken w.bp P)
        (E.get_target w.bp P))] := by
    show (w.rp_fetch_2_decode.pushData _ c).dataQueue = _
    simp [ReadPort.pushData, r7, hq0, ReadPort.latency_of_shape hs.inv.f2d]
  have hqd : (w.fetched c P (w.wp_fetch_2_decode.written c)).rp_decode_2_decode.dataQueue =
      [(c, instr)] := by
    show w.rp_decode_2_decode.dataQueue = _
    rw [r8]
    exact hs.loop
  have hdf : (w.fetched c P (w.wp_fetch_2_decode.written c)).rp_decode_flush.signal c =
      false := by
    apply ReadPort.signal_of_nil
    show w.rp_decode_flush.dataQueue = _
    rw [r2, ← hflq.1]
    exact hnf
  have hin : (w.fetched c P (w.wp_fetch_2_decode.written c)).decode_input c = some instr := by
    simp [PerfMIPS.decode_input, ReadPort.ready_of_queue hqd, ReadPort.front_of_queue hqd]
  have hne : (w.fetched c P (w.wp_fetch_2_decode.written c)).rp_decode_2_execute.dataQueue =
      [] := by
    show w.rp_decode_2_execute.dataQueue = _
    rw [r9]
    exact hs.issue
  have hns : (w.fetched c P (w.wp_fetch_2_decode.written c)).rp_decode_2_fetch_stall.dataQueue
      = [] := by
    show (w.rp_decode_2_fetch_stall.ignore c).dataQueue = _
    exact ReadPort.ignore_of_queue (by rw [r6]; exact hs.stall)
  have hit := (iteration_of_stages h5 qs).1
  refine ⟨_, s3, _, d0, _, hfetch, q3, hit, rfl, hqd, hin, hqf, ?_, hp0, rfl, ?_, ?_⟩
  · rcases clock_decode_cases q3 with ⟨hx, -⟩ | ⟨-, hx, -⟩ | ⟨i, x, -, -, -, -, rfl⟩ |
      ⟨i, x, y, -, -, -, -, -, rfl⟩
    · rw [hdf] at hx
      cases hx
    · rw [hin] at hx
      cases hx
    · exact ReadPort.ignore_of_queue hqf
    · exact ReadPort.ignore_of_queue hqf
  · intro hc
    have hd := clock_decode_hazard hdf hin hc (WritePort.write_of_shape h2.w_stall)
      (WritePort.write_of_shape h2.w_d2d)
    rw [hd] at q3
    cases q3
    exact ⟨rfl, hne, stalling_of_stalled h2 rfl q4 q5⟩
  · intro hc
    have hd := clock_decode_issue hdf hin hc (WritePort.write_of_shape h2.w_d2e)
    rw [hd] at q3
    cases q3
    exact ⟨rfl, ReadPort.pushData_of_empty _ _ hne (ReadPort.latency_of_shape h2.d2e),
      released_of_issued h2 hne hns rfl q4 q5⟩

/-- The cycle in which decode first finds the hazard ends stalled. -/
theorem hazard_cycle {t w s : PerfMIPS E} {c : Cycle} {instr : E.Instr}
    (h0 : Inv t c 0) (hnf : t.rp_fetch_flush.dataQueue = [])
    (hw : t.clock_writeback c = .ok w) (hs : w.clock_fetch c = .ok s)
    (hi : s.decode_input c = some instr) (hc : E.check_sources s.rf instr = false) :
    ∃ t', s.clock_decode c = .ok (s.stalled c instr (s.wp_decode_2_fetch_stall.written c)
        (s.wp_decode_2_decode.written c)) ∧
      t.iteration c = .ok (t', c + 1) ∧ Stalling t' (c + 1) instr s.PC := by
  obtain ⟨r1, r2, -⟩ := clock_writeback_frame hw
  have hflq := h0.flush_eq (Or.inl rfl)
  obtain ⟨s2, s3, s4, s5, q2, q3, q4, q5, qs, -, h2, h3, h4, h5⟩ :=
    clock_stages_of_writeback h0 hw
  rw [hs] at q2
  cases q2
  have hdf : s.rp_decode_flush.signal c = false := by
    apply ReadPort.signal_of_nil
    obtain ⟨x, -, hx⟩ := clock_fetch_cases hs
    have : s.rp_decode_flush = w.rp_decode_flush := by
      rcases hx with ⟨T, -, -, -, rfl⟩ | ⟨-, -, rfl⟩ | ⟨-, -, rfl⟩ <;> rfl
    rw [this, r2, ← hflq.1]
    exact hnf
  have hd := clock_decode_hazard hdf hi hc (WritePort.write_of_shape h2.w_stall)
    (WritePort.write_of_shape h2.w_d2d)
  rw [hd] at q3
  cases q3
  exact ⟨_, hd, (iteration_of_stages h5 qs).1, stalling_of_stalled h2 rfl q4 q5⟩


/-- One cycle that starts released, with no flush pending: fetch moves on to
`new_PC`, decode builds its instruction from the one value in the fetch→decode
latch and leaves only the value fetched in this cycle behind. -/
theorem release_cycle {t w : PerfMIPS E} {c : Cycle} {instr : E.Instr} {d0 : IfIdData}
    (hr : Released t c instr d0) (hnf : t.rp_fetch_flush.dataQueue = [])
    (hwb : t.clock_writeback c = .ok w) :
    ∃ f d d2, w.clock_fetch c = .ok f ∧ f.clock_decode c = .ok d ∧
      f = w.fetched c t.new_PC (w.wp_fetch_2_decode.written c) ∧
      f.decode_input c =
        some (E.FuncInstr d0.raw d0.PC d0.predicted_taken d0.predicted_target) ∧
      (d = f.issued c (E.FuncInstr d0.raw d0.PC d0.predicted_taken d0.predicted_target)
            (f.wp_decode_2_execute.written c) ∨
        d = f.stalled c (E.FuncInstr d0.raw d0.PC d0.predicted_taken d0.predicted_target)
            (f.wp_decode_2_fetch_stall.written c) (f.wp_decode_2_decode.written c)) ∧
      d.rp_fetch_2_decode.dataQueue = [(c + 1, d2)] ∧ d2.PC = t.new_PC := by
  have h1 : Inv w c 1 := clock_writeback_inv hr.inv hwb
  obtain ⟨r1, r2, r3, r4, r5, r6, r7, r8, r9, r10, r11, r12, r13, r14⟩ :=
    clock_writeback_frame hwb
  have hflq := hr.inv.flush_eq (Or.inl rfl)
  have hff : w.rp_fetch_flush.signal c = false :=
    ReadPort.signal_of_nil (by rw [r1]; exact hnf)
  have hst : w.rp_decode_2_fetch_stall.signal c = false :=
    ReadPort.signal_of_nil (by rw [r6]; exact hr.stall)
  have hfetch := clock_fetch_next hff hst (WritePort.write_of_shape h1.w_f2d)
  rw [r12] at hfetch
  obtain ⟨s2, h2q, h2⟩ := clock_fetch_inv h1
  rw [hfetch] at h2q
  cases h2q
  obtain ⟨s3, q3, h3⟩ := clock_decode_inv h2
  have hqf : (w.fetched c t.new_PC (w.wp_fetch_2_decode.written c)).rp_fetch_2_decode.dataQueue
      = [(c, d0), (c + 1, IfIdData.mk (E.fetch w.memory t.new_PC) t.new_PC
          (E.is_taken w.bp t.new_PC) (E.get_target w.bp t.new_PC))] := by
    show (w.rp_fetch_2_decode.pushData _ c).dataQueue = _
    simp [ReadPort.pushData, r7, hr.latch, ReadPort.latency_of_shape hr.inv.f2d]
  have hqd : (w.fetched c t.new_PC (w.wp_fetch_2_decode.written c)).rp_decode_2_decode.dataQueue
      = [] := by
    show w.rp_decode_2_decode.dataQueue = _
    rw [r8]
    exact hr.loop
  have hdf : (w.fetched c t.new_PC (w.wp_fetch_2_decode.written c)).rp_decode_flush.signal c =
      false := by
    apply ReadPort.signal_of_nil
    show w.rp_decode_flush.dataQueue = _
    rw [r2, ← hflq.1]
    exact hnf
  have hin : (w.fetched c t.new_PC (w.wp_fetch_2_decode.written c)).decode_input c =
      some (E.FuncInstr d0.raw d0.PC d0.predicted_taken d0.predicted_target) := by
    simp [PerfMIPS.decode_input, ReadPort.not_ready_of_nil hqd, ReadPort.ready_of_queue hqf,
      ReadPort.front_of_queue hqf]
  refine ⟨_, s3, IfIdData.mk (E.fetch w.memory t.new_PC) t.new_PC
    (E.is_taken w.bp t.new_PC) (E.get_target w.bp t.new_PC), hfetch, q3, rfl, hin, ?_, ?_, rfl⟩
  · rcases clock_decode_cases q3 with ⟨hx, -⟩ | ⟨-, hx, -⟩ | ⟨i, x, -, hx, -, hy, rfl⟩ |
      ⟨i, x, y, -, hx, -, hy, hz, rfl⟩
    · rw [hdf] at hx
      cases hx
    · rw [hin] at hx
      cases hx
    · rw [hin] at hx
      cases hx
      rw [WritePort.write_of_shape h2.w_d2e] at hy
      cases hy
      exact Or.inl rfl
    · rw [hin] at hx
      cases hx
      rw [WritePort.write_of_shape h2.w_stall] at hy
      rw [WritePort.write_of_shape h2.w_d2d] at hz
      cases hy
      cases hz
      exact Or.inr rfl
  · rcases clock_decode_cases q3 with ⟨hx, -⟩ | ⟨-, hx, -⟩ | ⟨i, x, -, -, -, -, rfl⟩ |
      ⟨i, x, y, -, -, -, -, -, rfl⟩
    · rw [hdf] at hx
      cases hx
    · rw [hin] at hx
      cases hx
    · exact ReadPort.ignore_of_queue hqf
    · exact ReadPort.ignore_of_queue hqf

theorem holds_ok {α : Type} {x : Except Fatal α} {a : α} {p : α → Bool}
    (hx : x = .ok a) (h : holds x p = true) : p a = true := by
  subst hx
  exact h

theorem holds_bind {α β : Type} {x : Except Fatal α} {a : α} {f : α → Except Fatal β}
    {p : β → Bool} (hx : x = .ok a) (h : holds (x >>= f) p = true) :
    ∃ b, f a = .ok b ∧ p b = true := by
  subst hx
  exact holds_iff.mp h

/-- While no flush arrives and `check_sources` keeps failing, every cycle
starts stalled on the same instruction with the same `PC`. -/
theorem stall_persists {t : PerfMIPS E} {c : Cycle} {instr : E.Instr} {P : Addr} {n : Nat}
    (hs : Stalling t c instr P)
    (hflush : ∀ j, j ≤ n →
      holds (t.cycles c j) (fun x => x.rp_fetch_flush.dataQueue.isEmpty) = true)
    (hstall : ∀ j, j < n →
      holds (t.cycles c j >>= fun x => x.clock_writeback (c + j))
        (fun x => !E.check_sources x.rf instr) = true) :
    ∀ j, j ≤ n → ∃ tj, t.cycles c j = .ok tj ∧ Stalling tj (c + j) instr P := by
  intro j
  induction j with
  | zero => exact fun _ => ⟨t, rfl, hs⟩
  | succ j ih =>
    intro hj
    obtain ⟨tj, htj, hsj⟩ := ih (by omega)
    have hnf : tj.rp_fetch_flush.dataQueue = [] := by
      have := holds_ok htj (hflush j (by omega))
      simpa using this
    obtain ⟨wj, hwj, hcj⟩ := holds_bind htj (hstall j (by omega))
    obtain ⟨f, d, t', d0, d1, -, -, hit, -, -, -, -, -, -, -, hF, -⟩ := stall_cycle hsj hnf hwj
    refine ⟨t', ?_, (hF (by simpa using hcj)).2.2⟩
    rw [cycles_last, htj]
    simp [hit]


/-- C7. Pure data-hazard stall. Decode at cycle `C` finds `check_sources` false
for `instr`, no flush is pending in cycles `C` .. `C + n + 2`, `check_sources`
stays false in cycles `C + 1` .. `C + n` and succeeds in cycle `C + 1 + n`.
Then decode at `C` takes the hazard path, and in every cycle `C + 1 + j`,
`j ≤ n`: (a) fetch fetches again at the `PC` it fetched at in cycle `C`;
(b) decode takes `instr` from the self-loop and drops the older fetch→decode
value, keeping only the one just fetched; (c) decode leaves decode→execute empty
while `j < n` and writes `instr` to it, once, in cycle `C + 1 + n`. The cycle
after starts with the self-loop and the stall signal empty, `instr` pending for
execute once, and one fetch→decode value, fetched at that `PC`; fetch moves on
to `new_PC`, decode processes the instruction built from that value and leaves
only the newly fetched value in the latch. -/
theorem data_hazard_stall (t0 w s : PerfMIPS E) (C : Cycle) (instr : E.Instr) (n : Nat)
    (h0 : Inv t0 C 0) (hnf : t0.rp_fetch_flush.dataQueue = [])
    (hw : t0.clock_writeback C = .ok w) (hs : w.clock_fetch C = .ok s)
    (hi : s.decode_input C = some instr) (hc : E.check_sources s.rf instr = false)
    (hflush : ∀ j, j ≤ n + 1 →
      holds (t0.cycles C (j + 1)) (fun x => x.rp_fetch_flush.dataQueue.isEmpty) = true)
    (hstall : ∀ j, j < n →
      holds (t0.cycles C (j + 1) >>= fun x => x.clock_writeback (C + 1 + j))
        (fun x => !E.check_sources x.rf instr) = true)
    (hfree : holds (t0.cycles C (n + 1) >>= fun x => x.clock_writeback (C + 1 + n))
      (fun x => E.check_sources x.rf instr) = true)
    (hnext : holds (t0.cycles C (n + 2) >>= fun x => x.clock_writeback (C + 1 + n + 1))
      (fun _ => true) = true) :
    s.clock_decode C = .ok (s.stalled C instr (s.wp_decode_2_fetch_stall.written C)
      (s.wp_decode_2_decode.written C)) ∧
    (∀ j, j ≤ n → ∃ tj wj fj dj d0 d1,
      t0.cycles C (j + 1) = .ok tj ∧ tj.clock_writeback (C + 1 + j) = .ok wj ∧
      wj.clock_fetch (C + 1 + j) = .ok fj ∧ fj.clock_decode (C + 1 + j) = .ok dj ∧
      fj = wj.fetched (C + 1 + j) s.PC (wj.wp_fetch_2_decode.written (C + 1 + j)) ∧
      fj.rp_decode_2_decode.dataQueue = [(C + 1 + j, instr)] ∧
      fj.decode_input (C + 1 + j) = some instr ∧
      fj.rp_fetch_2_decode.dataQueue = [(C + 1 + j, d0), (C + 1 + j + 1, d1)] ∧
      dj.rp_fetch_2_decode.dataQueue = [(C + 1 + j + 1, d1)] ∧ d0.PC = s.PC ∧ d1.PC = s.PC ∧
      (j < n →
        dj = fj.stalled (C + 1 + j) instr (fj.wp_decode_2_fetch_stall.written (C + 1 + j))
          (fj.wp_decode_2_decode.written (C + 1 + j)) ∧
        dj.rp_decode_2_execute.dataQueue = []) ∧
      (j = n →
        dj = fj.issued (C + 1 + j) instr (fj.wp_decode_2_execute.written (C + 1 + j)) ∧
        dj.rp_decode_2_execute.dataQueue =
          [(C + 1 + j + 1, (E.read_sources wj.rf instr).2)])) ∧
    (∃ tn wn t' w' f' d' d0 d2,
      t0.cycles C (n + 1) = .ok tn ∧ tn.clock_writeback (C + 1 + n) = .ok wn ∧
      t0.cycles C (n + 2) = .ok t' ∧
      Released t' (C + 1 + n + 1) (E.read_sources wn.rf instr).2 d0 ∧ d0.PC = s.PC ∧
      t'.clock_writeback (C + 1 + n + 1) = .ok w' ∧ w'.clock_fetch (C + 1 + n + 1) = .ok f' ∧
      f'.clock_decode (C + 1 + n + 1) = .ok d' ∧
      f' = w'.fetched (C + 1 + n + 1) t'.new_PC
        (w'.wp_fetch_2_decode.written (C + 1 + n + 1)) ∧
      f'.decode_input (C + 1 + n + 1) =
        some (E.FuncInstr d0.raw d0.PC d0.predicted_taken d0.predicted_target) ∧
      (d' = f'.issued (C + 1 + n + 1)
            (E.FuncInstr d0.raw d0.PC d0.predicted_taken d0.predicted_target)
            (f'.wp_decode_2_execute.written (C + 1 + n + 1)) ∨
        d' = f'.stalled (C + 1 + n + 1)
            (E.FuncInstr d0.raw d0.PC d0.predicted_taken d0.predicted_target)
            (f'.wp_decode_2_fetch_stall.written (C + 1 + n + 1))
            (f'.wp_decode_2_decode.written (C + 1 + n + 1))) ∧
      d'.rp_fetch_2_decode.dataQueue = [(C + 1 + n + 1 + 1, d2)] ∧ d2.PC = t'.new_PC) := by
  obtain ⟨t1, hd, hit, hst1⟩ := hazard_cycle h0 hnf hw hs hi hc
  have hcyc : ∀ j, t0.cycles C (j + 1) = t1.cycles (C + 1) j := fun j => by
    rw [cycles_succ, hit]
  have hper := @stall_persists E t1 (C + 1) instr s.PC n hst1
    (fun j hj => by rw [← hcyc]; exact hflush j (by omega))
    (fun j hj => by rw [← hcyc]; exact hstall j hj)
  have hstep : ∀ j, j ≤ n → ∃ tj wj, t0.cycles C (j + 1) = .ok tj ∧
      Stalling tj (C + 1 + j) instr s.PC ∧ tj.rp_fetch_flush.dataQueue = [] ∧
      tj.clock_writeback (C + 1 + j) = .ok wj ∧
      (j < n → E.check_sources wj.rf instr = false) ∧
      (j = n → E.check_sources wj.rf instr = true) := by
    intro j hj
    obtain ⟨tj, htj, hsj⟩ := hper j hj
    rw [← hcyc] at htj
    have hnfj : tj.rp_fetch_flush.dataQueue = [] := by
      have := holds_ok htj (hflush j (by omega))
      simpa using this
    rcases Nat.lt_or_ge j n with hlt | hge
    · obtain ⟨wj, hwj, hcj⟩ := holds_bind htj (hstall j hlt)
      exact ⟨tj, wj, htj, hsj, hnfj, hwj, fun _ => by simpa using hcj,
        fun he => absurd he (by omega)⟩
    · have hjn : j = n := by omega
      subst hjn
      obtain ⟨wj, hwj, hcj⟩ := holds_bind htj hfree
      exact ⟨tj, wj, htj, hsj, hnfj, hwj, fun hl => absurd hl (by omega), fun _ => hcj⟩
  refine ⟨hd, ?_, ?_⟩
  · intro j hj
    obtain ⟨tj, wj, htj, hsj, hnfj, hwj, hlt, heq⟩ := hstep j hj
    obtain ⟨f, d, t', d0, d1, a1, a2, -, a4, a5, a6, a7, a8, a9, a10, aF, aT⟩ :=
      stall_cycle hsj hnfj hwj
    exact ⟨tj, wj, f, d, d0, d1, htj, hwj, a1, a2, a4, a5, a6, a7, a8, a9, a10,
      fun hl => ⟨(aF (hlt hl)).1, (aF (hlt hl)).2.1⟩,
      fun he => ⟨(aT (heq he)).1, (aT (heq he)).2.1⟩⟩
  · obtain ⟨tn, wn, htn, hsn, hnfn, hwn, -, heq⟩ := hstep n (Nat.le_refl n)
    obtain ⟨f, d, t', d0, d1, -, -, a3, -, -, -, -, -, -, -, -, aT⟩ :=
      stall_cycle hsn hnfn hwn
    obtain ⟨-, -, dr, hrel, hpr⟩ := aT (heq rfl)
    have ht' : t0.cycles C (n + 2) = .ok t' := by
      rw [cycles_last, htn,
        show C + (n + 1) = C + 1 + n from (Nat.add_right_comm C 1 n).symm]
      simp [a3]
    have hnf' : t'.rp_fetch_flush.dataQueue = [] := by
      have := holds_ok ht' (hflush (n + 1) (Nat.le_refl _))
      simpa using this
    obtain ⟨w', hw', -⟩ := holds_bind ht' hnext
    obtain ⟨f', d', d2, b1, b2, b3, b4, b5, b6, b7⟩ := release_cycle hrel hnf' hw'
    exact ⟨tn, wn, t', w', f', d', dr, d2, htn, hwn, ht', hrel, hpr, hw', b1, b2, b3, b4, b5,
      b6, b7⟩


theorem data_hazard_stall_witness :
    Inv (toy_at 6) 6 0 ∧ (toy_at 6).rp_fetch_flush.dataQueue = [] ∧
    (toy_at 6).clock_writeback 6 = .ok (toy_wb 6) ∧
    (toy_wb 6).clock_fetch 6 = .ok (toy_fetch 6) ∧
    (toy_fetch 6).decode_input 6 = some toy_stalled ∧
    toy.check_sources (toy_fetch 6).rf toy_stalled = false ∧
    (∀ j, j ≤ 1 + 1 →
      holds ((toy_at 6).cycles 6 (j + 1))
        (fun x => x.rp_fetch_flush.dataQueue.isEmpty) = true) ∧
    (∀ j, j < 1 →
      holds ((toy_at 6).cycles 6 (j + 1) >>= fun x => x.clock_writeback (6 + 1 + j))
        (fun x => !toy.check_sources x.rf toy_stalled) = true) ∧
    holds ((toy_at 6).cycles 6 (1 + 1) >>= fun x => x.clock_writeback (6 + 1 + 1))
      (fun x => toy.check_sources x.rf toy_stalled) = true ∧
    holds ((toy_at 6).cycles 6 (1 + 2) >>= fun x => x.clock_writeback (6 + 1 + 1 + 1))
      (fun _ => true) = true ∧
    (toy_fetch 6).clock_decode 6 =
      .ok ((toy_fetch 6).stalled 6 toy_stalled
        ((toy_fetch 6).wp_decode_2_fetch_stall.written 6)
        ((toy_fetch 6).wp_decode_2_decode.written 6)) :=
  ⟨by decide!, by decide!, okOr_eq _ (by decide!), okOr_eq _ (by decide!), by decide!,
    by decide!, by decide!, by decide!, by decide!, by decide!,
    (@data_hazard_stall toy (toy_at 6) (toy_wb 6) (toy_fetch 6) 6 toy_stalled 1 (by decide!)
      (by decide!) (okOr_eq _ (by decide!)) (okOr_eq _ (by decide!)) (by decide!)
      (by decide!) (by decide!) (by decide!) (by decide!) (by decide!)).1⟩


/-! ### Lockstep checking -/

theorem iteration_stages {s s' : PerfMIPS E} {c c' : Cycle}
    (h : s.iteration c = .ok (s', c')) :
    ∃ s1 s2 s3 s4 s5, s.clock_writeback c = .ok s1 ∧ s1.clock_fetch c = .ok s2 ∧
      s2.clock_decode c = .ok s3 ∧ s3.clock_execute c = .ok s4 ∧
      s4.clock_memory c = .ok s5 ∧
      s' = { s5 with sout := s5.sout ++ [LogLine.executed s5.executed_instrs] } ∧
      c' = c + 1 := by
  unfold PerfMIPS.iteration PerfMIPS.clock_stages at h
  cases h1 : s.clock_writeback c with
  | error e => simp [h1, bind, Except.bind] at h
  | ok s1 =>
  cases h2 : s1.clock_fetch c with
  | error e => simp [h1, h2, bind, Except.bind] at h
  | ok s2 =>
  cases h3 : s2.clock_decode c with
  | error e => simp [h1, h2, h3, bind, Except.bind] at h
  | ok s3 =>
  cases h4 : s3.clock_execute c with
  | error e => simp [h1, h2, h3, h4, bind, Except.bind] at h
  | ok s4 =>
  cases h5 : s4.clock_memory c with
  | error e => simp [h1, h2, h3, h4, h5, bind, Except.bind] at h
  | ok s5 =>
  simp only [h1, h2, h3, h4, h5, bind, Except.bind, pure, Except.pure] at h
  split at h
  · cases h
    exact ⟨s1, s2, s3, s4, s5, rfl, h2, h3, h4, h5, rfl, rfl⟩
  · cases h

theorem retirements_eq (s : PerfMIPS E) : s.retirements = s.retired_instrs.length := by
  unfold PerfMIPS.retirements PerfMIPS.retired_instrs
  induction s.sout with
  | nil => rfl
  | cons l r ih =>
    rcases l with ⟨st, c, p⟩ | n
    · cases st <;> cases p <;>
        simp [List.filter_cons, List.filterMap_cons, LogLine.is_retirement,
          LogLine.retired?, ih]
    · simp [List.filter_cons, List.filterMap_cons, LogLine.is_retirement,
        LogLine.retired?, ih]

/-- A step that leaves the checker alone, calls no `checker.step()` and logs
no retirement keeps the lockstep. -/
theorem Lockstep.frame {chk : E.Chk} {s t : PerfMIPS E} (h : Lockstep chk s)
    (hc : t.checker = s.checker) (hn : t.checker_calls = s.checker_calls)
    (hr : t.retired_instrs = s.retired_instrs) : Lockstep chk t := by
  refine ⟨?_, ?_, ?_⟩
  · rw [hc, hr]
    exact h.checker
  · rw [hr]
    exact h.dumps
  · rw [hn, hr]
    exact h.calls

theorem clock_fetch_checker {s s' : PerfMIPS E} {c : Cycle} (h : s.clock_fetch c = .ok s') :
    s'.checker = s.checker ∧ s'.checker_calls = s.checker_calls ∧
      s'.retired_instrs = s.retired_instrs := by
  obtain ⟨w, _, ⟨T, _, _, _, rfl⟩ | ⟨_, _, rfl⟩ | ⟨_, _, rfl⟩⟩ := clock_fetch_cases h <;>
    simp [PerfMIPS.fetched, PerfMIPS.checker_calls, PerfMIPS.retired_instrs,
      List.filter_append, List.filter_cons, List.filterMap_append, Call.is_checker_step,
      LogLine.retired?]

theorem clock_decode_checker {s s' : PerfMIPS E} {c : Cycle} (h : s.clock_decode c = .ok s') :
    s'.checker = s.checker ∧ s'.checker_calls = s.checker_calls ∧
      s'.retired_instrs = s.retired_instrs := by
  rcases clock_decode_cases h with ⟨_, rfl⟩ | ⟨_, _, rfl⟩ | ⟨i, w, _, _, _, _, rfl⟩ |
    ⟨i, w1, w2, _, _, _, _, _, rfl⟩ <;>
    simp [PerfMIPS.decode_in, PerfMIPS.issued, PerfMIPS.stalled, PerfMIPS.checker_calls,
      PerfMIPS.retired_instrs, List.filter_append, List.filter_cons, List.filterMap_append,
      Call.is_checker_step, LogLine.retired?]

theorem clock_execute_checker {s s' : PerfMIPS E} {c : Cycle}
    (h : s.clock_execute c = .ok s') :
    s'.checker = s.checker ∧ s'.checker_calls = s.checker_calls ∧
      s'.retired_instrs = s.retired_instrs := by
  rcases clock_execute_cases h with ⟨i, _, _, _, rfl⟩ | ⟨_, _, rfl⟩ | ⟨_, _, rfl⟩ |
    ⟨i, w, _, _, _, _, rfl⟩ <;>
    simp [PerfMIPS.execute_in, PerfMIPS.execute_cancelled, PerfMIPS.executed,
      PerfMIPS.checker_calls, PerfMIPS.retired_instrs, List.filter_append, List.filter_cons,
      List.filterMap_append, Call.is_checker_step, LogLine.retired?]

theorem clock_memory_checker {s s' : PerfMIPS E} {c : Cycle} (h : s.clock_memory c = .ok s') :
    s'.checker = s.checker ∧ s'.checker_calls = s.checker_calls ∧
      s'.retired_instrs = s.retired_instrs := by
  rcases clock_memory_cases h with ⟨i, _, _, _, rfl⟩ | ⟨_, _, rfl⟩ | ⟨_, _, rfl⟩ |
    ⟨i, w, _, _, _, _, _, rfl⟩ | ⟨i, w, _, _, _, _, _, _, rfl⟩ |
    ⟨i, wf, wt, w, _, _, _, _, _, _, _, _, rfl⟩ <;>
    simp [PerfMIPS.memory_in, PerfMIPS.memory_cancelled, PerfMIPS.memory_plain,
      PerfMIPS.memory_jump, PerfMIPS.memory_mispredicted, PerfMIPS.checker_calls,
      PerfMIPS.retired_instrs, List.filter_append, List.filter_cons, List.filterMap_append,
      Call.is_checker_step, LogLine.retired?]

/-- What a retiring writeback does to the checker. -/
theorem retired_checker (s : PerfMIPS E) (c : Cycle) (instr instr' : E.Instr) :
    (s.retired c instr instr').checker = (E.step s.checker).1 ∧
    (s.retired c instr instr').checker_calls = s.checker_calls + 1 ∧
    (s.retired c instr instr').retired_instrs = s.retired_instrs ++ [instr'] := by
  simp [PerfMIPS.retired, PerfMIPS.checker_calls, PerfMIPS.retired_instrs,
    List.filter_append, List.filter_cons, List.filterMap_append, Call.is_checker_step,
    LogLine.retired?]

theorem clock_writeback_lockstep {chk : E.Chk} {s s' : PerfMIPS E} {c : Cycle}
    (h : Lockstep chk s) (hw : s.clock_writeback c = .ok s') : Lockstep chk s' := by
  rcases clock_writeback_cases hw with ⟨_, _, rfl⟩ | ⟨i, i', _, _, _, hd, rfl⟩
  · refine h.frame ?_ ?_ ?_
    · rfl
    · rfl
    · simp [PerfMIPS.log, PerfMIPS.retired_instrs, List.filterMap_append, LogLine.retired?]
  · obtain ⟨a, b, r⟩ := retired_checker s c i i'
    refine ⟨?_, ?_, ?_⟩
    · rw [a, r, List.length_append, List.length_singleton, h.checker]
      rfl
    · rw [r, List.length_append, List.length_singleton, List.map_append, h.dumps]
      show _ = List.map E.Dump (_ ++ _)
      rw [List.map_append, ← h.checker, List.map_singleton, List.map_singleton, hd]
    · rw [b, r, List.length_append, List.length_singleton, h.calls]

theorem iteration_lockstep {chk : E.Chk} {s s' : PerfMIPS E} {c c' : Cycle}
    (h : Lockstep chk s) (hi : s.iteration c = .ok (s', c')) : Lockstep chk s' := by
  obtain ⟨s1, s2, s3, s4, s5, h1, h2, h3, h4, h5, rfl, -⟩ := iteration_stages hi
  have l1 := clock_writeback_lockstep h h1
  obtain ⟨a2, b2, r2⟩ := clock_fetch_checker h2
  obtain ⟨a3, b3, r3⟩ := clock_decode_checker h3
  obtain ⟨a4, b4, r4⟩ := clock_execute_checker h4
  obtain ⟨a5, b5, r5⟩ := clock_memory_checker h5
  have l5 : Lockstep chk s5 :=
    l1.frame (a5.trans (a4.trans (a3.trans a2))) (b5.trans (b4.trans (b3.trans b2)))
      (r5.trans (r4.trans (r3.trans r2)))
  refine l5.frame ?_ ?_ ?_
  · rfl
  · rfl
  · simp [PerfMIPS.retired_instrs, List.filterMap_append, LogLine.retired?]

theorem cycles_lockstep {chk : E.Chk} {k : Nat} : ∀ {s s' : PerfMIPS E} {c : Cycle},
    Lockstep chk s → s.cycles c k = .ok s' → Lockstep chk s' := by
  induction k with
  | zero =>
    intro s s' c h hk
    cases hk
    exact h
  | succ k ih =>
    intro s s' c h hk
    rw [cycles_succ] at hk
    cases hi : s.iteration c with
    | error e => simp [hi] at hk
    | ok r =>
      obtain ⟨s1, c1⟩ := r
      simp only [hi] at hk
      exact ih (iteration_lockstep h hi) hk

theorem run_loop_lockstep {chk : E.Chk} {N : Nat} :
    ∀ (fuel : Nat) (s : PerfMIPS E) (c : Cycle) (s' : PerfMIPS E) (c' : Cycle),
      Lockstep chk s → PerfMIPS.run_loop N fuel s c = some (.ok (s', c')) →
      Lockstep chk s' := by
  intro fuel
  induction fuel with
  | zero =>
    intro s c s' c' hl h
    rw [run_loop_zero] at h
    split at h
    · cases h
    · cases h
      exact hl
  | succ fuel ih =>
    intro s c s' c' hl h
    rw [run_loop_succ] at h
    split at h
    · cases hi : s.iteration c with
      | error e => simp [hi] at h
      | ok r =>
        obtain ⟨s1, c1⟩ := r
        simp only [hi] at h
        exact ih s1 c1 s' c' (iteration_lockstep hl hi) h
    · cases h
      exact hl

theorem Lockstep.fresh (E : Env) (rf : E.RF) (bp : E.BP) (chk : E.Chk) (memory : E.Mem)
    (PC new_PC : Addr) (lwc : Cycle) :
    Lockstep chk (PerfMIPS.new E rf bp chk memory PC new_PC lwc) :=
  ⟨rfl, rfl, rfl⟩


theorem checker_steps_length (E : Env) (chk : E.Chk) (n : Nat) :
    (checker_steps E chk n).2.length = n := by
  induction n with
  | zero => rfl
  | succ n ih => simp [checker_steps, ih]

/-- C11, as the code has it. Lockstep checking. A writeback that reads an
instruction on which
`check_trap` reports no trap compares the dump of the next reference
instruction with the dump of the retiring one: if they are equal it returns
with the checker advanced by exactly one step, one more `checker.step()` call,
`executed_instrs` (a 64-bit counter) incremented and the instruction appended
to the retired ones; if they differ it ends with the fatal mismatch and nothing
is counted. If `check_trap` reports a trap, the writeback ends with that fatal
diagnostic before the checker is consulted. A writeback without input and the
other four stages leave the checker, the number of `checker.step()` calls and
the retired instructions unchanged. Hence in every state a fresh simulator reaches at a cycle boundary,
with `n` instructions retired the checker has made `n` steps and the dumps of
the retired instructions are, in order, the dumps of the checker's first `n`
steps; and at the normal end of `run(trace, N)` this holds with
`n = executed_instrs = N`. -/
theorem lockstep_checking (E : Env) :
    (∀ (s : PerfMIPS E) (c : Cycle) (instr instr' : E.Instr),
      s.rp_memory_2_writeback.is_ready c = true →
      s.rp_memory_2_writeback.front? = some instr →
      E.check_trap instr = some instr' →
      (E.Dump (E.step s.checker).2 = E.Dump instr' →
        ∃ s', s.clock_writeback c = .ok s' ∧ s'.checker = (E.step s.checker).1 ∧
          s'.checker_calls = s.checker_calls + 1 ∧
          s'.executed_instrs = (s.executed_instrs + 1) % 2 ^ 64 ∧
          s'.retired_instrs = s.retired_instrs ++ [instr']) ∧
      (E.Dump (E.step s.checker).2 ≠ E.Dump instr' →
        s.clock_writeback c = .error .mismatch)) ∧
    (∀ (s : PerfMIPS E) (c : Cycle) (instr : E.Instr),
      s.rp_memory_2_writeback.is_ready c = true →
      s.rp_memory_2_writeback.front? = some instr →
      E.check_trap instr = none → s.clock_writeback c = .error .trap) ∧
    (∀ (s s' : PerfMIPS E) (c : Cycle), s.rp_memory_2_writeback.is_ready c = false →
      s.clock_writeback c = .ok s' →
      s'.checker = s.checker ∧ s'.checker_calls = s.checker_calls ∧
        s'.retired_instrs = s.retired_instrs ∧ s'.executed_instrs = s.executed_instrs) ∧
    (∀ (s s' : PerfMIPS E) (c : Cycle), s.clock_fetch c = .ok s' →
      s'.checker = s.checker ∧ s'.checker_calls = s.checker_calls ∧
        s'.retired_instrs = s.retired_instrs) ∧
    (∀ (s s' : PerfMIPS E) (c : Cycle), s.clock_decode c = .ok s' →
      s'.checker = s.checker ∧ s'.checker_calls = s.checker_calls ∧
        s'.retired_instrs = s.retired_instrs) ∧
    (∀ (s s' : PerfMIPS E) (c : Cycle), s.clock_execute c = .ok s' →
      s'.checker = s.checker ∧ s'.checker_calls = s.checker_calls ∧
        s'.retired_instrs = s.retired_instrs) ∧
    (∀ (s s' : PerfMIPS E) (c : Cycle), s.clock_memory c = .ok s' →
      s'.checker = s.checker ∧ s'.checker_calls = s.checker_calls ∧
        s'.retired_instrs = s.retired_instrs) ∧
    (∀ (rf : E.RF) (bp : E.BP) (chk : E.Chk) (memory : E.Mem) (PC new_PC : Addr)
      (lwc : Cycle) (k : Nat) (s : PerfMIPS E),
      (PerfMIPS.new E rf bp chk memory PC new_PC lwc).cycles 0 k = .ok s →
      s.checker = (checker_steps E chk s.retired_instrs.length).1 ∧
        s.checker_calls = s.retired_instrs.length ∧
        s.retired_instrs.map E.Dump =
          (checker_steps E chk s.retired_instrs.length).2.map E.Dump) ∧
    (∀ (rf : E.RF) (bp : E.BP) (checker chk : E.Chk) (memory : E.Mem) (PC new_PC : Addr)
      (lwc : Cycle) (tr : String) (N fuel : Nat) (s' : PerfMIPS E) (c' : Cycle), N < 2 ^ 32 →
      E.checker_init checker tr = some chk →
      (PerfMIPS.new E rf bp checker memory PC new_PC lwc).run tr N fuel = some (.ok (s', c')) →
      s'.executed_instrs = N ∧ s'.retired_instrs.length = N ∧ s'.checker_calls = N ∧
        s'.checker = (checker_steps E chk N).1 ∧
        s'.retired_instrs.map E.Dump = (checker_steps E chk N).2.map E.Dump ∧
        (checker_steps E chk N).2.length = N) := by
  refine ⟨?_, ?_, ?_, ?_, ?_, ?_, ?_, ?_, ?_⟩
  · intro s c instr instr' hr hv ht
    refine ⟨fun hd => ⟨_, clock_writeback_retire hr hv ht hd, ?_⟩,
      fun hd => clock_writeback_mismatch hr hv ht hd⟩
    obtain ⟨a, b, r⟩ := retired_checker s c instr instr'
    exact ⟨a, b, rfl, r⟩
  · exact fun s c instr hr hv ht => clock_writeback_trap hr hv ht
  · intro s s' c hr h
    rcases clock_writeback_cases h with ⟨_, _, rfl⟩ | ⟨i, i', hr', _⟩
    · refine ⟨rfl, rfl, ?_, rfl⟩
      simp [PerfMIPS.log, PerfMIPS.retired_instrs, List.filterMap_append, LogLine.retired?]
    · rw [hr] at hr'
      cases hr'
  · exact fun s s' c h => clock_fetch_checker h
  · exact fun s s' c h => clock_decode_checker h
  · exact fun s s' c h => clock_execute_checker h
  · exact fun s s' c h => clock_memory_checker h
  · intro rf bp chk memory PC new_PC lwc k s h
    have l := cycles_lockstep (Lockstep.fresh E rf bp chk memory PC new_PC lwc) h
    exact ⟨l.checker, l.calls, l.dumps⟩
  · intro rf bp checker chk memory PC new_PC lwc tr N fuel s' c' hN hchk h
    rw [run_eq] at h
    split at h
    · split at h
      · cases h
      · rw [hchk] at h
        simp only [] at h
        rename_i m _
        have l := run_loop_lockstep fuel _ 0 s' c'
          (Lockstep.fresh E rf bp chk m PC (E.startPC m) lwc) h
        obtain ⟨e1, e2⟩ := run_loop_exact (by omega) fuel _ 0 s' c' (Nat.zero_le _) rfl h
        have hlen : s'.retired_instrs.length = N := by
          rw [← retirements_eq, ← e2, e1]
        refine ⟨e1, hlen, ?_, ?_, ?_, checker_steps_length E chk N⟩
        · rw [l.calls, hlen]
        · rw [l.checker, hlen]
        · rw [l.dumps, hlen]
    · cases h

/-- Witness for C11: the retirement of the jump at cycle 4 of the concrete
machine, which is the first step of its checker, and the normal end of its run
of three instructions. -/
theorem lockstep_checking_witness :
    (toy_at 4).rp_memory_2_writeback.is_ready 4 = true ∧
    (toy_at 4).rp_memory_2_writeback.front? = some toy_jump ∧
    toy.check_trap toy_jump = some toy_jump ∧
    toy.Dump (toy.step (toy_at 4).checker).2 = toy.Dump toy_jump ∧
    (∃ s', (toy_at 4).clock_writeback 4 = .ok s' ∧
      s'.checker = (toy.step (toy_at 4).checker).1 ∧
      s'.checker_calls = (toy_at 4).checker_calls + 1 ∧
      s'.executed_instrs = ((toy_at 4).executed_instrs + 1) % 2 ^ 64 ∧
      s'.retired_instrs = (toy_at 4).retired_instrs ++ [toy_jump]) ∧
    (match toy_new.run "t" 3 40 with
      | some (.ok r) => (r.1.retired_instrs.map toy.Dump, r.1.checker_calls)
      | _ => ([], 0)) = ((checker_steps toy (0 : Nat) 3).2.map toy.Dump, 3) :=
  ⟨by decide!, by decide!, by decide!, by decide!,
    ((lockstep_checking toy).1 (toy_at 4) 4 toy_jump toy_jump (by decide!) (by decide!)
      (by decide!)).1 (by decide!),
    by decide!⟩


/-- Counterexample to C11 as stated: on the trapping machine the run reaches
cycle 4 with the jump ready on memory→writeback and no `checker.step()` call
made so far; `check_trap` reports a trap on the jump, so writeback at cycle 4
reads it and ends with the fatal trap diagnostic: it does not return, the
checker is never consulted, and the run ends with the trap. -/
theorem lockstep_trap_counterexample :
    toy_trap_new.cycles 0 4 = .ok (toy_trap_at 4) ∧
    (toy_trap_at 4).rp_memory_2_writeback.is_ready 4 = true ∧
    (toy_trap_at 4).rp_memory_2_writeback.front? = some toy_jump ∧
    toy_trap.check_trap toy_jump = none ∧
    (toy_trap_at 4).checker_calls = 0 ∧ (toy_trap_at 4).checker = 0 ∧
    (toy_trap_at 4).clock_writeback 4 = .error .trap ∧
    (¬∃ s', (toy_trap_at 4).clock_writeback 4 = .ok s' ∧
      s'.checker = (toy_trap.step (toy_trap_at 4).checker).1) ∧
    (match toy_trap_new.run "t" 3 40 with
      | some (.error e) => e
      | _ => .assert_failed) = .trap :=
  ⟨okOr_eq toy_trap_new (by decide!), by decide!, by decide!, by decide!, by decide!,
    by decide!,
    @clock_writeback_trap toy_trap (toy_trap_at 4) 4 toy_jump (by decide!) (by decide!)
      (by decide!),
    fun h => h.elim fun s' hs =>
      Except.noConfusion
        ((@clock_writeback_trap toy_trap (toy_trap_at 4) 4 toy_jump (by decide!) (by decide!)
          (by decide!)).symm.trans hs.1),
    by decide!⟩

/-! ### The port topology -/


/-- C12. The port declarations of the constructor pass registration and
`init_ports`. They use exactly the eight port names; each name has exactly one
write port, of bandwidth 1, whose fanout (4 for `MEMORY_2_ALL_FLUSH`, 1
otherwise) equals the number of read ports declared under the name; every read
port has its writer's value type and latency 1; the four readers of
`MEMORY_2_ALL_FLUSH` are the flush ports of fetch, decode, execute and memory,
and one write on it is delivered to each of them. The constructed object has
these bandwidths, fanouts and latencies. -/
theorem port_topology_valid :
    PerfMIPS.build_ports PerfMIPS.port_decls = some PerfMIPS.port_decls ∧
    init_ports PerfMIPS.port_decls = true ∧
    port_names.Nodup ∧ port_names.length = 8 ∧
    (∀ d ∈ PerfMIPS.port_decls, d.name ∈ port_names) ∧
    (∀ n ∈ port_names,
      (writers PerfMIPS.port_decls n).length = 1 ∧
      ∀ w ∈ writers PerfMIPS.port_decls n,
        w.2.2.1 = 1 ∧ w.2.2.2 = (if n = "MEMORY_2_ALL_FLUSH" then 4 else 1) ∧
        (readers PerfMIPS.port_decls n).length = w.2.2.2 ∧
        ∀ r ∈ readers PerfMIPS.port_decls n, r.2.1 = w.2.1 ∧ r.2.2 = 1) ∧
    (readers PerfMIPS.port_decls "MEMORY_2_ALL_FLUSH").map (fun r => r.1) =
      ["rp_fetch_flush", "rp_decode_flush", "rp_execute_flush", "rp_memory_flush"] ∧
    (∀ (E : Env) (s s' : PerfMIPS E) (v : Bool) (c : Cycle),
      s.write_memory_2_all_flush v c = .ok s' →
      s'.rp_fetch_flush = s.rp_fetch_flush.pushData v c ∧
      s'.rp_decode_flush = s.rp_decode_flush.pushData v c ∧
      s'.rp_execute_flush = s.rp_execute_flush.pushData v c ∧
      s'.rp_memory_flush = s.rp_memory_flush.pushData v c) ∧
    (∀ (E : Env) (rf : E.RF) (bp : E.BP) (chk : E.Chk) (memory : E.Mem) (PC new_PC : Addr)
      (lwc : Cycle),
      [(PerfMIPS.new E rf bp chk memory PC new_PC lwc).wp_fetch_2_decode,
        (PerfMIPS.new E rf bp chk memory PC new_PC lwc).wp_decode_2_fetch_stall,
        (PerfMIPS.new E rf bp chk memory PC new_PC lwc).wp_decode_2_decode,
        (PerfMIPS.new E rf bp chk memory PC new_PC lwc).wp_decode_2_execute,
        (PerfMIPS.new E rf bp chk memory PC new_PC lwc).wp_execute_2_memory,
        (PerfMIPS.new E rf bp chk memory PC new_PC lwc).wp_memory_2_writeback,
        (PerfMIPS.new E rf bp chk memory PC new_PC lwc).wp_memory_2_all_flush,
        (PerfMIPS.new E rf bp chk memory PC new_PC lwc).wp_memory_2_fetch_target].map
          (fun w => (w.bandwidth, w.fanout)) =
        [(1, 1), (1, 1), (1, 1), (1, 1), (1, 1), (1, 1), (1, 4), (1, 1)] ∧
      [(PerfMIPS.new E rf bp chk memory PC new_PC lwc).rp_fetch_2_decode.latency,
        (PerfMIPS.new E rf bp chk memory PC new_PC lwc).rp_decode_2_fetch_stall.latency,
        (PerfMIPS.new E rf bp chk memory PC new_PC lwc).rp_decode_2_decode.latency,
        (PerfMIPS.new E rf bp chk memory PC new_PC lwc).rp_decode_2_execute.latency,
        (PerfMIPS.new E rf bp chk memory PC new_PC lwc).rp_execute_2_memory.latency,
        (PerfMIPS.new E rf bp chk memory PC new_PC lwc).rp_memory_2_writeback.latency,
        (PerfMIPS.new E rf bp chk memory PC new_PC lwc).rp_fetch_flush.latency,
        (PerfMIPS.new E rf bp chk memory PC new_PC lwc).rp_decode_flush.latency,
        (PerfMIPS.new E rf bp chk memory PC new_PC lwc).rp_execute_flush.latency,
        (PerfMIPS.new E rf bp chk memory PC new_PC lwc).rp_memory_flush.latency,
        (PerfMIPS.new E rf bp chk memory PC new_PC lwc).rp_memory_2_fetch_target.latency] =
        List.replicate 11 1) := by
  refine ⟨by decide, by decide, by decide, rfl, by decide, by decide, by decide, ?_, ?_⟩
  · intro E s s' v c h
    unfold PerfMIPS.write_memory_2_all_flush at h
    cases hw : s.wp_memory_2_all_flush.write c with
    | error e => simp [hw, bind, Except.bind] at h
    | ok w =>
      simp only [hw, bind, Except.bind, pure, Except.pure, Except.ok.injEq] at h
      subst h
      exact ⟨rfl, rfl, rfl, rfl⟩
  · intro E rf bp chk memory PC new_PC lwc
    exact ⟨rfl, rfl⟩

/-- Witness for C12: the flush port, whose four readers match its fanout, and
the flush write of the mispredicted jump at cycle 3 of the concrete machine. -/
theorem port_topology_valid_witness :
    "MEMORY_2_ALL_FLUSH" ∈ port_names ∧
    (writers PerfMIPS.port_decls "MEMORY_2_ALL_FLUSH").length = 1 ∧
    (toy_execute 3).write_memory_2_all_flush true 3 =
      .ok (okOr ((toy_execute 3).write_memory_2_all_flush true 3) toy_new) ∧
    (okOr ((toy_execute 3).write_memory_2_all_flush true 3) toy_new).rp_fetch_flush =
      (toy_execute 3).rp_fetch_flush.pushData true 3 :=
  ⟨by decide, (port_topology_valid.2.2.2.2.2.1 "MEMORY_2_ALL_FLUSH" (by decide)).1,
    okOr_eq toy_new (by decide!),
    (port_topology_valid.2.2.2.2.2.2.2.1 toy (toy_execute 3) _ true 3
      (okOr_eq toy_new (by decide!))).1⟩


/-! ### Fetch: the choice of `PC` and the value sent to decode -/

/-- A stage receives `true` on a boolean port exactly when the port is ready
and the value at its head is `true`. -/
theorem ReadPort.signal_iff (p : ReadPort Bool) (c : Cycle) :
    p.signal c = true ↔ (p.is_ready c = true ∧ p.front? = some true) := by
  unfold ReadPort.signal ReadPort.is_ready ReadPort.front?
  rcases p.dataQueue with _ | ⟨e, r⟩
  · simp
  · simp

/-- C13. Fetch `PC` selection without flush. Let fetch at cycle `c` not receive
a flush (its flush port is not ready, or holds `false`). If it does not
receive a stall either, `clock_fetch` sets `PC` to the previous `new_PC`; if
the stall port is ready and holds `true`, it leaves `PC` as its previous
invocation left it. In both cases the address it fetches and asks the
predictor about is that `PC`. In every state the driver loop can be in before
`clock_fetch`, `clock_fetch` returns. -/
theorem fetch_pc_selection {s : PerfMIPS E} {c : Cycle}
    (hf : ¬(s.rp_fetch_flush.is_ready c = true ∧ s.rp_fetch_flush.front? = some true)) :
    (∀ s', s.clock_fetch c = .ok s' →
      (¬(s.rp_decode_2_fetch_stall.is_ready c = true ∧
          s.rp_decode_2_fetch_stall.front? = some true) → s'.PC = s.new_PC) ∧
      (s.rp_decode_2_fetch_stall.is_ready c = true ∧
          s.rp_decode_2_fetch_stall.front? = some true → s'.PC = s.PC) ∧
      s'.calls = s.calls ++ [.mem_fetch s'.PC, .bp_is_taken s'.PC, .bp_get_target s'.PC]) ∧
    (Inv s c 1 → ∃ s', s.clock_fetch c = .ok s') := by
  rw [← ReadPort.signal_iff] at hf
  constructor
  · intro s' h
    rw [← ReadPort.signal_iff]
    obtain ⟨w, _, ⟨T, hf', _, _, _⟩ | ⟨_, hs, rfl⟩ | ⟨_, hs, rfl⟩⟩ := clock_fetch_cases h
    · exact absurd hf' hf
    · exact ⟨fun hn => absurd hs hn, fun _ => rfl, rfl⟩
    · refine ⟨fun _ => rfl, fun hn => ?_, rfl⟩
      rw [hs] at hn
      cases hn
  · intro h
    obtain ⟨s', hs', _⟩ := clock_fetch_inv h
    exact ⟨s', hs'⟩

/-- Witness for C13: the concrete machine at cycle 7 after writeback, where
decode has stalled fetch and `PC` stays at 40. -/
theorem fetch_pc_selection_witness :
    ¬((toy_wb 7).rp_fetch_flush.is_ready 7 = true ∧
      (toy_wb 7).rp_fetch_flush.front? = some true) ∧
    ((toy_wb 7).rp_decode_2_fetch_stall.is_ready 7 = true ∧
      (toy_wb 7).rp_decode_2_fetch_stall.front? = some true) ∧
    (toy_wb 7).PC = 40 ∧ (toy_wb 7).new_PC = 44 ∧ Inv (toy_wb 7) 7 1 ∧
    (toy_wb 7).clock_fetch 7 = .ok (toy_fetch 7) ∧ (toy_fetch 7).PC = (toy_wb 7).PC :=
  ⟨by decide!, by decide!, by decide!, by decide!, by decide!, okOr_eq toy_new (by decide!),
    ((@fetch_pc_selection toy (toy_wb 7) 7 (by decide!)).1 (toy_fetch 7)
      (okOr_eq toy_new (by decide!))).2.1 (by decide!)⟩

/-- C14. Fetch output. Every `clock_fetch` that returns, whichever way it chose
`PC`, has written exactly one value to fetch→decode: the `IfIdData` with the
`PC` chosen in this cycle, `raw = memory.fetch(PC)`,
`predicted_taken = bp.is_taken(PC)` and `predicted_target = bp.get_target(PC)`,
stamped with the cycle plus the port latency, by one write on the write port;
and `new_PC` afterwards is that `predicted_target`. Memory and predictor are
only consulted. In every state the driver loop can be in before `clock_fetch`,
`clock_fetch` returns and the value is observable in the next cycle. -/
theorem fetch_output (s : PerfMIPS E) (c : Cycle) :
    (∀ s', s.clock_fetch c = .ok s' →
      s'.rp_fetch_2_decode.dataQueue = s.rp_fetch_2_decode.dataQueue ++
        [(c + s.rp_fetch_2_decode.latency,
          IfIdData.mk (E.fetch s.memory s'.PC) s'.PC (E.is_taken s.bp s'.PC)
            (E.get_target s.bp s'.PC))] ∧
      s'.new_PC = E.get_target s.bp s'.PC ∧
      s.wp_fetch_2_decode.write c = .ok s'.wp_fetch_2_decode ∧
      s'.memory = s.memory ∧ s'.bp = s.bp ∧
      s'.calls = s.calls ++ [.mem_fetch s'.PC, .bp_is_taken s'.PC, .bp_get_target s'.PC] ∧
      ((s.rp_fetch_flush.is_ready c = true ∧ s.rp_fetch_flush.front? = some true ∧
          s.rp_memory_2_fetch_target.front? = some s'.PC) ∨
        (¬(s.rp_fetch_flush.is_ready c = true ∧ s.rp_fetch_flush.front? = some true) ∧
          (s'.PC = s.PC ∨ s'.PC = s.new_PC)))) ∧
    (Inv s c 1 → ∃ s', s.clock_fetch c = .ok s' ∧
      s'.rp_fetch_2_decode.dataQueue.getLast? =
        some (c + 1, IfIdData.mk (E.fetch s.memory s'.PC) s'.PC (E.is_taken s.bp s'.PC)
          (E.get_target s.bp s'.PC))) := by
  have key : ∀ s', s.clock_fetch c = .ok s' →
      s'.rp_fetch_2_decode.dataQueue = s.rp_fetch_2_decode.dataQueue ++
        [(c + s.rp_fetch_2_decode.latency,
          IfIdData.mk (E.fetch s.memory s'.PC) s'.PC (E.is_taken s.bp s'.PC)
            (E.get_target s.bp s'.PC))] ∧
      s'.new_PC = E.get_target s.bp s'.PC ∧
      s.wp_fetch_2_decode.write c = .ok s'.wp_fetch_2_decode ∧
      s'.memory = s.memory ∧ s'.bp = s.bp ∧
      s'.calls = s.calls ++ [.mem_fetch s'.PC, .bp_is_taken s'.PC, .bp_get_target s'.PC] ∧
      ((s.rp_fetch_flush.is_ready c = true ∧ s.rp_fetch_flush.front? = some true ∧
          s.rp_memory_2_fetch_target.front? = some s'.PC) ∨
        (¬(s.rp_fetch_flush.is_ready c = true ∧ s.rp_fetch_flush.front? = some true) ∧
          (s'.PC = s.PC ∨ s'.PC = s.new_PC))) := by
    intro s' h
    obtain ⟨w, hw, ⟨T, hf, _, hT, rfl⟩ | ⟨hf, _, rfl⟩ | ⟨hf, _, rfl⟩⟩ := clock_fetch_cases h
    · refine ⟨rfl, rfl, hw, rfl, rfl, rfl, Or.inl ?_⟩
      exact ⟨((ReadPort.signal_iff _ _).mp hf).1, ((ReadPort.signal_iff _ _).mp hf).2, hT⟩
    · refine ⟨rfl, rfl, hw, rfl, rfl, rfl, Or.inr ⟨?_, Or.inl rfl⟩⟩
      rw [← ReadPort.signal_iff, hf]
      exact Bool.false_ne_true
    · refine ⟨rfl, rfl, hw, rfl, rfl, rfl, Or.inr ⟨?_, Or.inr rfl⟩⟩
      rw [← ReadPort.signal_iff, hf]
      exact Bool.false_ne_true
  refine ⟨key, fun h => ?_⟩
  obtain ⟨s', hs', _⟩ := clock_fetch_inv h
  refine ⟨s', hs', ?_⟩
  rw [(key s' hs').1, ReadPort.latency_of_shape h.f2d]
  simp

/-- Witness for C14: the fetch at cycle 4 of the concrete machine, redirected
to address 32 by the flush. -/
theorem fetch_output_witness :
    Inv (toy_wb 4) 4 1 ∧ (toy_wb 4).clock_fetch 4 = .ok (toy_fetch 4) ∧
    (toy_fetch 4).PC = 32 ∧
    (toy_fetch 4).rp_fetch_2_decode.dataQueue =
      (toy_wb 4).rp_fetch_2_decode.dataQueue ++ [(4 + 1, IfIdData.mk 32 32 true 36)] ∧
    (toy_fetch 4).new_PC = 36 :=
  ⟨by decide!, okOr_eq toy_new (by decide!), by decide!,
    ((fetch_output (toy_wb 4) 4).1 (toy_fetch 4) (okOr_eq toy_new (by decide!))).1.trans
      (by decide!),
    ((fetch_output (toy_wb 4) 4).1 (toy_fetch 4) (okOr_eq toy_new (by decide!))).2.1.trans
      (by decide!)⟩


/-! ### The first fetch of a run -/

/-- C15. The first fetch of a run uses the start address. Let the trace load
(memory `m`, checker `chk`) and `N` pass the assertion. Then `run` enters its
loop at cycle 0 with the freshly constructed ports and `new_PC = m.startPC()`;
if `0 < N` the loop starts with the iteration of cycle 0. In that state no
flush and no stall value is ready, writeback at cycle 0 returns, and
`clock_fetch` at cycle 0 returns with `PC = m.startPC()`, having called
`memory.fetch` at that address, and the one value on fetch→decode is the
`IfIdData` fetched at `m.startPC()`. These two calls are the first two of the
five stage calls of the iteration of cycle 0, which returns: the state it
hands to the rest of the run has `PC = m.startPC()`, that one value on
fetch→decode, the three calls of this fetch as the only calls made so far, and
the log lines of writeback (bubble), this fetch, decode, execute and memory
(bubbles) of cycle 0; and with `0 < N`, `run` continues its loop from that
state at cycle 1. -/
theorem first_fetch_start_pc (E : Env) (rf : E.RF) (bp : E.BP) (checker chk : E.Chk)
    (memory m : E.Mem) (PC new_PC : Addr) (lwc : Cycle) (tr : String) (N : Nat)
    (hN : N < E.MAX_VAL32) (hm : E.MIPSMemory tr = some m)
    (hc : E.checker_init checker tr = some chk) :
    (∀ fuel, (PerfMIPS.new E rf bp checker memory PC new_PC lwc).run tr N fuel =
      PerfMIPS.run_loop N fuel (PerfMIPS.new E rf bp chk m PC (E.startPC m) lwc) 0) ∧
    (∀ fuel, 0 < N →
      PerfMIPS.run_loop N (fuel + 1) (PerfMIPS.new E rf bp chk m PC (E.startPC m) lwc) 0 =
        match (PerfMIPS.new E rf bp chk m PC (E.startPC m) lwc).iteration 0 with
        | .error e => some (.error e)
        | .ok (s, cycle) => PerfMIPS.run_loop N fuel s cycle) ∧
    (PerfMIPS.new E rf bp chk m PC (E.startPC m) lwc).rp_fetch_flush.is_ready 0 = false ∧
    (PerfMIPS.new E rf bp chk m PC (E.startPC m) lwc).rp_decode_2_fetch_stall.is_ready 0 =
      false ∧
    ∃ w f t1, (PerfMIPS.new E rf bp chk m PC (E.startPC m) lwc).clock_writeback 0 = .ok w ∧
      w.clock_fetch 0 = .ok f ∧ f.PC = E.startPC m ∧
      f.calls = [.mem_fetch (E.startPC m), .bp_is_taken (E.startPC m),
        .bp_get_target (E.startPC m)] ∧
      f.rp_fetch_2_decode.dataQueue =
        [(1, IfIdData.mk (E.fetch m (E.startPC m)) (E.startPC m) (E.is_taken bp (E.startPC m))
          (E.get_target bp (E.startPC m)))] ∧
      (PerfMIPS.new E rf bp chk m PC (E.startPC m) lwc).clock_stages 0 =
        (do
          let d ← f.clock_decode 0
          let e ← d.clock_execute 0
          e.clock_memory 0) ∧
      (PerfMIPS.new E rf bp chk m PC (E.startPC m) lwc).iteration 0 = .ok (t1, 1) ∧
      t1.PC = E.startPC m ∧
      t1.calls = [.mem_fetch (E.startPC m), .bp_is_taken (E.startPC m),
        .bp_get_target (E.startPC m)] ∧
      t1.rp_fetch_2_decode.dataQueue =
        [(1, IfIdData.mk (E.fetch m (E.startPC m)) (E.startPC m) (E.is_taken bp (E.startPC m))
          (E.get_target bp (E.startPC m)))] ∧
      t1.sout = [.stage .wb 0 .bubble,
        .stage .fetch 0 (.fetched (E.startPC m) (E.fetch m (E.startPC m))),
        .stage .decode 0 .bubble, .stage .execute 0 .bubble, .stage .memory 0 .bubble,
        .executed 0] ∧
      (∀ fuel, 0 < N →
        (PerfMIPS.new E rf bp checker memory PC new_PC lwc).run tr N (fuel + 1) =
          PerfMIPS.run_loop N fuel t1 1) := by
  have hrun : ∀ fuel, (PerfMIPS.new E rf bp checker memory PC new_PC lwc).run tr N fuel =
      PerfMIPS.run_loop N fuel (PerfMIPS.new E rf bp chk m PC (E.startPC m) lwc) 0 := by
    intro fuel
    rw [run_eq, if_pos hN, hm, hc]
  have hloop : ∀ fuel, 0 < N →
      PerfMIPS.run_loop N (fuel + 1) (PerfMIPS.new E rf bp chk m PC (E.startPC m) lwc) 0 =
        match (PerfMIPS.new E rf bp chk m PC (E.startPC m) lwc).iteration 0 with
        | .error e => some (.error e)
        | .ok (s, cycle) => PerfMIPS.run_loop N fuel s cycle := by
    intro fuel h0
    rw [run_loop_succ]
    exact if_pos h0
  refine ⟨hrun, hloop, rfl, rfl, ?_⟩
  have hwb : (PerfMIPS.new E rf bp chk m PC (E.startPC m) lwc).clock_writeback 0 =
      .ok ((PerfMIPS.new E rf bp chk m PC (E.startPC m) lwc).log .wb 0 .bubble) :=
    clock_writeback_bubble rfl (Nat.succ_le_of_lt (by
      show 0 < lwc + 10
      unfold Cycle at *
      omega))
  have hinv := Inv.new E rf bp chk m PC (E.startPC m) lwc
  have h1 := clock_writeback_inv hinv hwb
  have hf := @clock_fetch_next E
    ((PerfMIPS.new E rf bp chk m PC (E.startPC m) lwc).log .wb 0 .bubble) 0 _ rfl rfl
    (WritePort.write_of_shape h1.w_f2d)
  obtain ⟨s2, s3, s4, s5, q2, q3, q4, q5, qs, -, -, -, -, h5⟩ :=
    clock_stages_of_writeback hinv hwb
  rw [hf] at q2
  cases q2
  have e3 : s3 = PerfMIPS.decode_in (PerfMIPS.fetched
        (PerfMIPS.log (PerfMIPS.new E rf bp chk m PC (E.startPC m) lwc) .wb 0 .bubble)
        0 (E.startPC m) (WritePort.written (make_write_port PORT_BW PORT_FANOUT) 0))
      0 .bubble := by
    rcases clock_decode_cases q3 with ⟨hx, -⟩ | ⟨-, -, hx⟩ | ⟨i, x, -, hx, -⟩ |
      ⟨i, x, y, -, hx, -⟩
    · exact Bool.noConfusion (hx : false = true)
    · exact hx
    · exact Option.noConfusion (hx : none = some i)
    · exact Option.noConfusion (hx : none = some i)
  subst e3
  have e4 : s4 = PerfMIPS.execute_in (PerfMIPS.decode_in (PerfMIPS.fetched
        (PerfMIPS.log (PerfMIPS.new E rf bp chk m PC (E.startPC m) lwc) .wb 0 .bubble)
        0 (E.startPC m) (WritePort.written (make_write_port PORT_BW PORT_FANOUT) 0))
      0 .bubble)
      0 .bubble := by
    rcases clock_execute_cases q4 with ⟨i, hx, -⟩ | ⟨hx, -⟩ | ⟨-, -, hx⟩ | ⟨i, x, -, hx, -⟩
    · exact Bool.noConfusion (hx : false = true)
    · exact Bool.noConfusion (hx : false = true)
    · exact hx
    · exact Bool.noConfusion (hx : false = true)
  subst e4
  have e5 : s5 = PerfMIPS.memory_in (PerfMIPS.execute_in (PerfMIPS.decode_in (PerfMIPS.fetched
        (PerfMIPS.log (PerfMIPS.new E rf bp chk m PC (E.startPC m) lwc) .wb 0 .bubble)
        0 (E.startPC m) (WritePort.written (make_write_port PORT_BW PORT_FANOUT) 0))
      0 .bubble)
      0 .bubble)
      0 .bubble := by
    rcases clock_memory_cases q5 with ⟨i, hx, -⟩ | ⟨hx, -⟩ | ⟨-, -, hx⟩ | ⟨i, x, -, hx, -⟩ |
      ⟨i, x, -, hx, -⟩ | ⟨i, x, y, z, -, hx, -⟩
    · exact Bool.noConfusion (hx : false = true)
    · exact Bool.noConfusion (hx : false = true)
    · exact hx
    · exact Bool.noConfusion (hx : false = true)
    · exact Bool.noConfusion (hx : false = true)
    · exact Bool.noConfusion (hx : false = true)
  subst e5
  have hit := (iteration_of_stages h5 qs).1
  refine ⟨_, _, _, hwb, hf, rfl, rfl, rfl, ?_, hit, rfl, rfl, rfl, rfl, ?_⟩
  · simp only [PerfMIPS.clock_stages, bind, Except.bind, hwb, hf]
  · intro fuel h0
    rw [hrun, hloop fuel h0, hit]

/-- Witness for C15 on the concrete machine, whose start address is 0. -/
theorem first_fetch_start_pc_witness :
    3 < toy.MAX_VAL32 ∧ toy.MIPSMemory "t" = some () ∧
    toy.checker_init (0 : Nat) "t" = some (0 : Nat) ∧
    toy.startPC () = 0 ∧
    ∃ w f t1, toy_new.clock_writeback 0 = .ok w ∧ w.clock_fetch 0 = .ok f ∧ f.PC = 0 ∧
      f.rp_fetch_2_decode.dataQueue = [(1, IfIdData.mk 0 0 false 4)] ∧
      toy_new.iteration 0 = .ok (t1, 1) ∧ t1.PC = 0 ∧
      t1.rp_fetch_2_decode.dataQueue = [(1, IfIdData.mk 0 0 false 4)] ∧
      toy_new.run "t" 3 (39 + 1) = PerfMIPS.run_loop 3 39 t1 1 :=
  ⟨by decide, by decide, by decide, by decide,
    (first_fetch_start_pc toy (0 : Nat) () (0 : Nat) (0 : Nat) () () 0 0 0 "t" 3 (by decide)
      (by decide) (by decide)).2.2.2.2.elim
      fun w h => h.elim fun f h2 => h2.elim fun t1 hf =>
        ⟨w, f, t1, hf.1, hf.2.1, hf.2.2.1, hf.2.2.2.2.1, hf.2.2.2.2.2.2.1,
          hf.2.2.2.2.2.2.2.1, hf.2.2.2.2.2.2.2.2.2.1,
          hf.2.2.2.2.2.2.2.2.2.2.2 39 (by decide)⟩⟩

/-! ### Decode: the instruction it works on and what it does with it -/

/-- C16. Decode instruction selection. Let at least one of the two inputs of
`read_instr` be ready at cycle `c`. Then `read_instr` returns. If the self-loop
is ready, the result is the instruction at its head and a ready fetch→decode
value is dropped (`ignore`); otherwise the result is
`FuncInstr(raw, PC, predicted_taken, predicted_target)` built from the value at
the head of fetch→decode. Both heads are consumed, and in every state the
driver loop can be in before `clock_decode` neither latch holds a ready value
afterwards. -/
theorem read_instr_selection {s : PerfMIPS E} {c : Cycle}
    (hr : s.rp_fetch_2_decode.is_ready c = true ∨ s.rp_decode_2_decode.is_ready c = true) :
    ∃ instr s', s.read_instr c = .ok (instr, s') ∧
      (s.rp_decode_2_decode.is_ready c = true →
        s.rp_decode_2_decode.front? = some instr) ∧
      (s.rp_decode_2_decode.is_ready c = false →
        ∃ d, s.rp_fetch_2_decode.front? = some d ∧
          instr = E.FuncInstr d.raw d.PC d.predicted_taken d.predicted_target) ∧
      s' = { s with rp_fetch_2_decode := s.rp_fetch_2_decode.ignore c
                    rp_decode_2_decode := s.rp_decode_2_decode.ignore c } ∧
      (Inv s c 2 →
        s'.rp_fetch_2_decode.is_ready c = false ∧ s'.rp_decode_2_decode.is_ready c = false) := by
  cases hd : s.rp_decode_2_decode.is_ready c
  · have hf : s.rp_fetch_2_decode.is_ready c = true := by
      rcases hr with hr | hr
      · exact hr
      · rw [hd] at hr
        cases hr
    obtain ⟨d, hv⟩ := ReadPort.front_of_ready hf
    have hi : s.decode_input c =
        some (E.FuncInstr d.raw d.PC d.predicted_taken d.predicted_target) := by
      simp [PerfMIPS.decode_input, hd, hf, hv]
    refine ⟨_, _, read_instr_eq hi, fun h => absurd h (by simp), fun _ => ⟨d, hv, rfl⟩, rfl,
      fun h => ⟨ReadPort.not_ready_ignore h.f2d, ReadPort.not_ready_ignore h.d2d⟩⟩
  · obtain ⟨v, hv⟩ := ReadPort.front_of_ready hd
    have hi : s.decode_input c = some v := by
      simp [PerfMIPS.decode_input, hd, hv]
    refine ⟨_, _, read_instr_eq hi, fun _ => hv, fun h => absurd h (by simp), rfl,
      fun h => ⟨ReadPort.not_ready_ignore h.f2d, ReadPort.not_ready_ignore h.d2d⟩⟩

/-- Witness for C16: decode at cycle 7 of the concrete machine, where the
stalled instruction comes back on the self-loop and the value fetched in cycle
6 is dropped. -/
theorem read_instr_selection_witness :
    ((toy_fetch 7).rp_fetch_2_decode.is_ready 7 = true ∨
      (toy_fetch 7).rp_decode_2_decode.is_ready 7 = true) ∧
    (toy_fetch 7).rp_decode_2_decode.is_ready 7 = true ∧
    (toy_fetch 7).rp_fetch_2_decode.is_ready 7 = true ∧ Inv (toy_fetch 7) 7 2 ∧
    ∃ s', (toy_fetch 7).read_instr 7 = .ok (toy_stalled, s') ∧
      s'.rp_fetch_2_decode.is_ready 7 = false ∧ s'.rp_decode_2_decode.is_ready 7 = false :=
  ⟨by decide!, by decide!, by decide!, by decide!,
    (@read_instr_selection toy (toy_fetch 7) 7 (by decide!)).elim fun instr h =>
      h.elim fun s' hs =>
        have hi : instr = toy_stalled :=
          Option.some.inj ((hs.2.1 (by decide!)).symm.trans (by decide!))
        ⟨s', hi ▸ hs.1, (hs.2.2.2.2 (by decide!)).1, (hs.2.2.2.2 (by decide!)).2⟩⟩


/-- C17. Decode hazard dichotomy. Let decode at cycle `c` not receive a flush
and let `instr` be the instruction `read_instr` returns. Whenever `clock_decode`
returns, exactly one of two things has happened. If
`rf.check_sources(instr)` holds: `instr` after `rf.read_sources` was written,
by one write, to decode→execute, and the stall port and the self-loop were not
written (the self-loop only lost the value read). Otherwise: `true` was written
to the stall port and `instr`, unmodified, to the self-loop, by one write each,
and decode→execute and the register file are as before. In every state the
driver loop can be in before `clock_decode`, `clock_decode` returns. -/
theorem decode_hazard_dichotomy {s : PerfMIPS E} {c : Cycle} {instr : E.Instr}
    (hf : ¬(s.rp_decode_flush.is_ready c = true ∧ s.rp_decode_flush.front? = some true))
    (hi : s.decode_input c = some instr) :
    s.read_instr c = .ok (instr,
      { s with rp_fetch_2_decode := s.rp_fetch_2_decode.ignore c
               rp_decode_2_decode := s.rp_decode_2_decode.ignore c }) ∧
    (∀ s', s.clock_decode c = .ok s' →
      (E.check_sources s.rf instr = true →
        s'.rp_decode_2_execute =
          s.rp_decode_2_execute.pushData (E.read_sources s.rf instr).2 c ∧
        s.wp_decode_2_execute.write c = .ok s'.wp_decode_2_execute ∧
        s'.rp_decode_2_fetch_stall = s.rp_decode_2_fetch_stall ∧
        s'.wp_decode_2_fetch_stall = s.wp_decode_2_fetch_stall ∧
        s'.rp_decode_2_decode = s.rp_decode_2_decode.ignore c ∧
        s'.wp_decode_2_decode = s.wp_decode_2_decode ∧
        s'.rf = (E.read_sources s.rf instr).1 ∧
        s'.calls = s.calls ++ [.rf_check_sources instr, .rf_read_sources instr]) ∧
      (E.check_sources s.rf instr = false →
        s'.rp_decode_2_fetch_stall = s.rp_decode_2_fetch_stall.pushData true c ∧
        s.wp_decode_2_fetch_stall.write c = .ok s'.wp_decode_2_fetch_stall ∧
        s'.rp_decode_2_decode = (s.rp_decode_2_decode.ignore c).pushData instr c ∧
        s.wp_decode_2_decode.write c = .ok s'.wp_decode_2_decode ∧
        s'.rp_decode_2_execute = s.rp_decode_2_execute ∧
        s'.wp_decode_2_execute = s.wp_decode_2_execute ∧
        s'.rf = s.rf ∧
        s'.calls = s.calls ++ [.rf_check_sources instr])) ∧
    (Inv s c 2 → ∃ s', s.clock_decode c = .ok s') := by
  rw [← ReadPort.signal_iff] at hf
  refine ⟨read_instr_eq hi, fun s' h => ?_, fun h => ?_⟩
  · rcases clock_decode_cases h with ⟨hx, -⟩ | ⟨-, hx, -⟩ | ⟨i, w, -, hx, hc, hw, rfl⟩ |
      ⟨i, w1, w2, -, hx, hc, hw1, hw2, rfl⟩
    · exact absurd hx hf
    · rw [hi] at hx
      cases hx
    · rw [hi] at hx
      cases hx
      refine ⟨fun _ => ⟨rfl, hw, rfl, rfl, rfl, rfl, rfl, rfl⟩, fun hn => ?_⟩
      rw [hc] at hn
      cases hn
    · rw [hi] at hx
      cases hx
      refine ⟨fun hn => ?_, fun _ => ⟨rfl, hw1, rfl, hw2, rfl, rfl, rfl, rfl⟩⟩
      rw [hc] at hn
      cases hn
  · obtain ⟨s', hs', _⟩ := clock_decode_inv h
    exact ⟨s', hs'⟩

/-- Witness for C17: decode at cycle 8 of the concrete machine, where the
instruction at 36 gets its sources and goes on to execute. -/
theorem decode_hazard_dichotomy_witness :
    ¬((toy_fetch 8).rp_decode_flush.is_ready 8 = true ∧
      (toy_fetch 8).rp_decode_flush.front? = some true) ∧
    (toy_fetch 8).decode_input 8 = some toy_stalled ∧
    toy.check_sources (toy_fetch 8).rf toy_stalled = true ∧
    (toy_fetch 8).clock_decode 8 = .ok (toy_decode 8) ∧
    (toy_decode 8).rp_decode_2_execute =
      (toy_fetch 8).rp_decode_2_execute.pushData toy_stalled 8 ∧
    (toy_decode 8).rp_decode_2_fetch_stall = (toy_fetch 8).rp_decode_2_fetch_stall :=
  ⟨by decide!, by decide!, by decide!, okOr_eq toy_new (by decide!),
    (((@decode_hazard_dichotomy toy (toy_fetch 8) 8 toy_stalled (by decide!)
      (by decide!)).2.1 (toy_decode 8) (okOr_eq toy_new (by decide!))).1 (by decide!)).1,
    (((@decode_hazard_dichotomy toy (toy_fetch 8) 8 toy_stalled (by decide!)
      (by decide!)).2.1 (toy_decode 8) (okOr_eq toy_new (by decide!))).1
        (by decide!)).2.2.1⟩


/-! ### Execute and memory under flush, and the training of the predictor -/

/-- C18. Flush handling in execute and memory. When the stage receives a flush
at cycle `c` (its flush port is ready and holds `true`), the stage returns, and:
if its input latch is ready it has called `rf.cancel` exactly once, on the
instruction at the head of the latch, and made no other call; if the latch is
not ready it has made no call at all and left the register file alone. In both
cases its output ports are as before (execute: execute→memory; memory:
memory→writeback, the flush port and its four readers but for the consumed
flush value, and the fetch-target port), predictor and memory are as before,
the head of the input latch is consumed, and in every state the driver loop can
be in before the stage the input latch holds no ready value afterwards. -/
theorem flush_cancels_once (E : Env) :
    (∀ (s : PerfMIPS E) (c : Cycle),
      s.rp_execute_flush.is_ready c = true ∧ s.rp_execute_flush.front? = some true →
      (∃ s', s.clock_execute c = .ok s') ∧
      (∀ s', s.clock_execute c = .ok s' →
        (s.rp_decode_2_execute.is_ready c = true →
          ∃ instr, s.rp_decode_2_execute.front? = some instr ∧
            s'.calls = s.calls ++ [.rf_cancel instr] ∧ s'.rf = E.cancel s.rf instr) ∧
        (s.rp_decode_2_execute.is_ready c = false → s'.calls = s.calls ∧ s'.rf = s.rf) ∧
        s'.rp_decode_2_execute = s.rp_decode_2_execute.ignore c ∧
        s'.wp_execute_2_memory = s.wp_execute_2_memory ∧
        s'.rp_execute_2_memory = s.rp_execute_2_memory ∧
        s'.bp = s.bp ∧ s'.memory = s.memory ∧
        s'.sout = s.sout ++ [.stage .execute c .flush] ∧
        (Inv s c 3 → s'.rp_decode_2_execute.is_ready c = false))) ∧
    (∀ (s : PerfMIPS E) (c : Cycle),
      s.rp_memory_flush.is_ready c = true ∧ s.rp_memory_flush.front? = some true →
      (∃ s', s.clock_memory c = .ok s') ∧
      (∀ s', s.clock_memory c = .ok s' →
        (s.rp_execute_2_memory.is_ready c = true →
          ∃ instr, s.rp_execute_2_memory.front? = some instr ∧
            s'.calls = s.calls ++ [.rf_cancel instr] ∧ s'.rf = E.cancel s.rf instr) ∧
        (s.rp_execute_2_memory.is_ready c = false → s'.calls = s.calls ∧ s'.rf = s.rf) ∧
        s'.rp_execute_2_memory = s.rp_execute_2_memory.ignore c ∧
        s'.wp_memory_2_writeback = s.wp_memory_2_writeback ∧
        s'.rp_memory_2_writeback = s.rp_memory_2_writeback ∧
        s'.wp_memory_2_all_flush = s.wp_memory_2_all_flush ∧
        s'.rp_fetch_flush = s.rp_fetch_flush ∧ s'.rp_decode_flush = s.rp_decode_flush ∧
        s'.rp_execute_flush = s.rp_execute_flush ∧
        s'.rp_memory_flush = s.rp_memory_flush.ignore c ∧
        s'.wp_memory_2_fetch_target = s.wp_memory_2_fetch_target ∧
        s'.rp_memory_2_fetch_target = s.rp_memory_2_fetch_target ∧
        s'.bp = s.bp ∧ s'.memory = s.memory ∧
        s'.sout = s.sout ++ [.stage .memory c .flush] ∧
        (Inv s c 4 → s'.rp_execute_2_memory.is_ready c = false))) := by
  constructor
  · intro s c hf
    rw [← ReadPort.signal_iff] at hf
    constructor
    · cases hr : s.rp_decode_2_execute.is_ready c
      · exact ⟨_, clock_execute_flush_empty hf hr⟩
      · obtain ⟨instr, hv⟩ := ReadPort.front_of_ready hr
        exact ⟨_, clock_execute_flush_cancel hf hr hv⟩
    · intro s' h
      rcases clock_execute_cases h with ⟨i, -, hr, hv, rfl⟩ | ⟨-, hr, rfl⟩ | ⟨hx, -⟩ |
        ⟨i, w, hx, -⟩
      · refine ⟨fun _ => ⟨i, hv, rfl, rfl⟩, fun hn => ?_, rfl, rfl, rfl, rfl, rfl, rfl,
          fun hinv => ReadPort.not_ready_ignore hinv.d2e⟩
        rw [hr] at hn
        cases hn
      · refine ⟨fun hn => ?_, fun _ => ⟨rfl, rfl⟩, rfl, rfl, rfl, rfl, rfl, rfl,
          fun hinv => ReadPort.not_ready_ignore hinv.d2e⟩
        rw [hr] at hn
        cases hn
      · rw [hf] at hx
        cases hx
      · rw [hf] at hx
        cases hx
  · intro s c hf
    rw [← ReadPort.signal_iff] at hf
    constructor
    · cases hr : s.rp_execute_2_memory.is_ready c
      · exact ⟨_, clock_memory_flush_empty hf hr⟩
      · obtain ⟨instr, hv⟩ := ReadPort.front_of_ready hr
        exact ⟨_, clock_memory_flush_cancel hf hr hv⟩
    · intro s' h
      rcases clock_memory_cases h with ⟨i, -, hr, hv, rfl⟩ | ⟨-, hr, rfl⟩ | ⟨hx, -⟩ |
        ⟨i, w, hx, -⟩ | ⟨i, w, hx, -⟩ | ⟨i, wf, wt, w, hx, -⟩
      · refine ⟨fun _ => ⟨i, hv, rfl, rfl⟩, fun hn => ?_, rfl, rfl, rfl, rfl, rfl, rfl, rfl,
          rfl, rfl, rfl, rfl, rfl, rfl, fun hinv => ReadPort.not_ready_ignore hinv.e2m⟩
        rw [hr] at hn
        cases hn
      · refine ⟨fun hn => ?_, fun _ => ⟨rfl, rfl⟩, rfl, rfl, rfl, rfl, rfl, rfl, rfl,
          rfl, rfl, rfl, rfl, rfl, rfl, fun hinv => ReadPort.not_ready_ignore hinv.e2m⟩
        rw [hr] at hn
        cases hn
      · rw [hf] at hx
        cases hx
      · rw [hf] at hx
        cases hx
      · rw [hf] at hx
        cases hx
      · rw [hf] at hx
        cases hx

/-- Witness for C18: the flush at cycle 4 of the concrete machine. Memory
holds the wrong-path instruction fetched at 4 and cancels it. -/
theorem flush_cancels_once_witness :
    ((toy_execute 4).rp_memory_flush.is_ready 4 = true ∧
      (toy_execute 4).rp_memory_flush.front? = some true) ∧
    (toy_execute 4).rp_execute_2_memory.is_ready 4 = true ∧
    (toy_execute 4).rp_execute_2_memory.front? =
      some ((⟨4, 4, false, 8, 8⟩ : ToyInstr) : toy.Instr) ∧
    Inv (toy_execute 4) 4 4 ∧
    ∃ s', (toy_execute 4).clock_memory 4 = .ok s' ∧
      s'.rp_execute_2_memory.is_ready 4 = false ∧
      s'.rp_memory_2_writeback = (toy_execute 4).rp_memory_2_writeback :=
  ⟨by decide!, by decide!, by decide!, by decide!,
    (((flush_cancels_once toy).2 (toy_execute 4) 4 (by decide!)).1).elim fun s' hs =>
      ⟨s', hs,
        (((flush_cancels_once toy).2 (toy_execute 4) 4 (by decide!)).2 s'
          hs).2.2.2.2.2.2.2.2.2.2.2.2.2.2.2 (by decide!),
        (((flush_cancels_once toy).2 (toy_execute 4) 4 (by decide!)).2 s' hs).2.2.2.2.1⟩⟩


theorem memory_input_iff (s : PerfMIPS E) (c : Cycle) (i : E.Instr) :
    s.memory_input c = some i ↔
      (¬(s.rp_memory_flush.is_ready c = true ∧ s.rp_memory_flush.front? = some true) ∧
        s.rp_execute_2_memory.is_ready c = true ∧ s.rp_execute_2_memory.front? = some i) := by
  rw [← ReadPort.signal_iff]
  unfold PerfMIPS.memory_input
  cases s.rp_memory_flush.signal c <;> cases s.rp_execute_2_memory.is_ready c <;> simp

/-- C19. Predictor training. Whenever `clock_memory` returns: if it read an
instruction `i` in a non-flushed cycle and `i.is_jump()` holds, it has called
`bp.update(i.is_jump_taken(), i.get_PC(), i.get_new_PC())` exactly once and the
predictor is the updated one; in every other case (flush, bubble, not a jump)
it has made no `bp.update` call and the predictor is as before. Every
instruction read in a non-flushed cycle, mispredicted or not, was passed to
`memory.load_store` once and its result was written, by one write, to
memory→writeback; without such an instruction neither happened. In every state
the driver loop can be in before `clock_memory`, `clock_memory` returns. -/
theorem predictor_training (s : PerfMIPS E) (c : Cycle) :
    (∀ i, s.memory_input c = some i ↔
      (¬(s.rp_memory_flush.is_ready c = true ∧ s.rp_memory_flush.front? = some true) ∧
        s.rp_execute_2_memory.is_ready c = true ∧ s.rp_execute_2_memory.front? = some i)) ∧
    (∀ s', s.clock_memory c = .ok s' →
      (∀ i, s.memory_input c = some i → E.is_jump i = true →
        s'.bp_updates =
          s.bp_updates ++ [(E.is_jump_taken i, E.get_PC i, E.get_new_PC i)] ∧
        s'.bp = E.update s.bp (E.is_jump_taken i) (E.get_PC i) (E.get_new_PC i)) ∧
      (∀ i, s.memory_input c = some i → E.is_jump i = false →
        s'.bp_updates = s.bp_updates ∧ s'.bp = s.bp) ∧
      (s.memory_input c = none → s'.bp_updates = s.bp_updates ∧ s'.bp = s.bp) ∧
      (∀ i, s.memory_input c = some i →
        s'.load_stores = s.load_stores ++ [i] ∧
        s'.memory = (E.load_store s.memory i).1 ∧
        s'.rp_memory_2_writeback =
          s.rp_memory_2_writeback.pushData (E.load_store s.memory i).2 c ∧
        s.wp_memory_2_writeback.write c = .ok s'.wp_memory_2_writeback) ∧
      (s.memory_input c = none →
        s'.load_stores = s.load_stores ∧ s'.memory = s.memory ∧
        s'.rp_memory_2_writeback = s.rp_memory_2_writeback ∧
        s'.wp_memory_2_writeback = s.wp_memory_2_writeback)) ∧
    (Inv s c 4 → ∃ s', s.clock_memory c = .ok s') := by
  refine ⟨memory_input_iff s c, fun s' h => ?_, fun h => ?_⟩
  · rcases clock_memory_cases h with ⟨i, hf, hr, hv, rfl⟩ | ⟨hf, hr, rfl⟩ | ⟨hf, hr, rfl⟩ |
      ⟨i, w, hf, hr, hv, hj, hw, rfl⟩ | ⟨i, w, hf, hr, hv, hj, hm, hw, rfl⟩ |
      ⟨i, wf, wt, w, hf, hr, hv, hj, hm, hwf, hwt, hw, rfl⟩
    · have hn : s.memory_input c = none := by simp [PerfMIPS.memory_input, hf]
      simp [hn, PerfMIPS.memory_cancelled, PerfMIPS.memory_in, PerfMIPS.bp_updates,
        PerfMIPS.load_stores, List.filterMap_append, Call.bp_update?, Call.load_store?]
    · have hn : s.memory_input c = none := by simp [PerfMIPS.memory_input, hf]
      simp [hn, PerfMIPS.memory_in, PerfMIPS.bp_updates, PerfMIPS.load_stores]
    · have hn : s.memory_input c = none := by simp [PerfMIPS.memory_input, hf, hr]
      simp [hn, PerfMIPS.memory_in, PerfMIPS.bp_updates, PerfMIPS.load_stores]
    · have hn : s.memory_input c = some i := by simp [PerfMIPS.memory_input, hf, hr, hv]
      simp [hn, hj, hw, PerfMIPS.memory_plain, PerfMIPS.memory_in, PerfMIPS.bp_updates,
        PerfMIPS.load_stores, List.filterMap_append, Call.bp_update?, Call.load_store?]
    · have hn : s.memory_input c = some i := by simp [PerfMIPS.memory_input, hf, hr, hv]
      simp [hn, hj, hw, PerfMIPS.memory_jump, PerfMIPS.memory_plain, PerfMIPS.memory_in,
        PerfMIPS.bp_updates, PerfMIPS.load_stores, List.filterMap_append, Call.bp_update?,
        Call.load_store?]
    · have hn : s.memory_input c = some i := by simp [PerfMIPS.memory_input, hf, hr, hv]
      simp [hn, hj, hw, PerfMIPS.memory_mispredicted, PerfMIPS.memory_jump,
        PerfMIPS.memory_plain, PerfMIPS.memory_in, PerfMIPS.bp_updates, PerfMIPS.load_stores,
        List.filterMap_append, Call.bp_update?, Call.load_store?]
  · obtain ⟨s', hs', _⟩ := clock_memory_inv h
    exact ⟨s', hs'⟩

/-- Witness for C19: memory at cycle 3 of the concrete machine, which reads the
mispredicted jump, trains the predictor once and sends the jump on to
writeback. -/
theorem predictor_training_witness :
    (toy_execute 3).memory_input 3 = some toy_jump ∧ toy.is_jump toy_jump = true ∧
    Inv (toy_execute 3) 3 4 ∧
    ∃ s', (toy_execute 3).clock_memory 3 = .ok s' ∧
      s'.bp_updates = (toy_execute 3).bp_updates ++ [(true, 0, 32)] ∧
      s'.load_stores = (toy_execute 3).load_stores ++ [toy_jump] ∧
      s'.rp_memory_2_writeback = (toy_execute 3).rp_memory_2_writeback.pushData toy_jump 3 :=
  ⟨by decide!, by decide!, by decide!,
    ((predictor_training (toy_execute 3) 3).2.2 (by decide!)).elim fun s' hs =>
      ⟨s', hs,
        (((predictor_training (toy_execute 3) 3).2.1 s' hs).1 toy_jump (by decide!)
          (by decide!)).1,
        (((predictor_training (toy_execute 3) 3).2.1 s' hs).2.2.2.1 toy_jump (by decide!)).1,
        (((predictor_training (toy_execute 3) 3).2.1 s' hs).2.2.2.1 toy_jump
          (by decide!)).2.2.1⟩⟩


/-! ### Reads and their precondition -/

/-- C20. Every `ReadPort::read` the pipeline performs is on a ready port (a
read of a port that is not ready is the fatal `port_not_ready` of the model).
A run of a fresh simulator never ends with it, and in every cycle such a
simulator reaches, an iteration that ends fatally ends with the deadlock, trap
or mismatch diagnostic of writeback. (a) In every such cycle, when fetch
receives a flush, the fetch-target port is ready and the read returns: the
fetch-target port holds values for exactly the cycles for which the flush port
of fetch holds one, because memory writes them together and fetch consumes them
together. (b) In any state in which at least one of the two inputs of decode is
ready, `read_instr` returns; its read of fetch→decode is made only when the
self-loop is not ready, and then fetch→decode is ready. -/
theorem reads_are_ready (E : Env) (rf : E.RF) (bp : E.BP) (checker : E.Chk)
    (memory : E.Mem) (PC new_PC : Addr) (lwc : Cycle) :
    (∀ tr N fuel, (PerfMIPS.new E rf bp checker memory PC new_PC lwc).run tr N fuel ≠
        some (.error .port_not_ready)) ∧
    (∀ k t e, (PerfMIPS.new E rf bp checker memory PC new_PC lwc).cycles 0 k = .ok t →
      t.iteration k = .error e → e = .deadlock ∨ e = .trap ∨ e = .mismatch) ∧
    (∀ k t w, (PerfMIPS.new E rf bp checker memory PC new_PC lwc).cycles 0 k = .ok t →
      t.clock_writeback k = .ok w →
      w.rp_memory_2_fetch_target.dataQueue.map (fun e => e.1) =
        w.rp_fetch_flush.dataQueue.map (fun e => e.1) ∧
      (w.rp_fetch_flush.is_ready k = true ∧ w.rp_fetch_flush.front? = some true →
        w.rp_memory_2_fetch_target.is_ready k = true ∧
        ∃ T, w.rp_memory_2_fetch_target.read k =
          .ok (T, w.rp_memory_2_fetch_target.ignore k)) ∧
      ∃ f, w.clock_fetch k = .ok f) ∧
    (∀ (s s' : PerfMIPS E) (c : Cycle), s.clock_memory c = .ok s' →
      (s'.rp_fetch_flush = s.rp_fetch_flush ∧
        s'.rp_memory_2_fetch_target = s.rp_memory_2_fetch_target) ∨
      (∃ T, s'.rp_fetch_flush = s.rp_fetch_flush.pushData true c ∧
        s'.rp_memory_2_fetch_target = s.rp_memory_2_fetch_target.pushData T c)) ∧
    (∀ (s s' : PerfMIPS E) (c : Cycle), s.clock_fetch c = .ok s' →
      s'.rp_fetch_flush = s.rp_fetch_flush.ignore c ∧
      ((s.rp_fetch_flush.is_ready c = true ∧ s.rp_fetch_flush.front? = some true) →
        s'.rp_memory_2_fetch_target = s.rp_memory_2_fetch_target.ignore c)) ∧
    (∀ (s : PerfMIPS E) (c : Cycle),
      s.rp_fetch_2_decode.is_ready c = true ∨ s.rp_decode_2_decode.is_ready c = true →
      (∃ r, s.read_instr c = .ok r) ∧
      (s.rp_decode_2_decode.is_ready c = false →
        s.rp_fetch_2_decode.is_ready c = true ∧
        ∃ d, s.rp_fetch_2_decode.read c = .ok (d, s.rp_fetch_2_decode.ignore c))) := by
  refine ⟨?_, ?_, ?_, ?_, ?_, ?_⟩
  · intro tr N fuel h
    have := run_error E rf bp checker memory PC new_PC lwc tr N fuel _ h
    simp at this
  · intro k t e hk hi
    have hinv : Inv t k 0 := by
      have := cycles_inv (Inv.new E rf bp checker memory PC new_PC lwc) hk
      rwa [Nat.zero_add] at this
    exact clock_writeback_error (iteration_error hinv hi)
  · intro k t w hk hw
    have hinv : Inv t k 0 := by
      have := cycles_inv (Inv.new E rf bp checker memory PC new_PC lwc) hk
      rwa [Nat.zero_add] at this
    have h1 := clock_writeback_inv hinv hw
    obtain ⟨f, hf, _⟩ := clock_fetch_inv h1
    refine ⟨h1.target_flush, fun hfl => ?_, f, hf⟩
    rw [← ReadPort.signal_iff] at hfl
    have hr : w.rp_memory_2_fetch_target.is_ready k = true := by
      rw [ReadPort.stamps_ready h1.target_flush, ← ReadPort.signal_of_all h1.fflush_true, hfl]
    obtain ⟨T, hT⟩ := ReadPort.front_of_ready hr
    exact ⟨hr, T, ReadPort.read_eq hr hT⟩
  · intro s s' c h
    rcases clock_memory_cases h with ⟨i, _, _, _, rfl⟩ | ⟨_, _, rfl⟩ | ⟨_, _, rfl⟩ |
      ⟨i, w, _, _, _, _, _, rfl⟩ | ⟨i, w, _, _, _, _, _, _, rfl⟩ |
      ⟨i, wf, wt, w, _, _, _, _, _, _, _, _, rfl⟩
    · exact Or.inl ⟨rfl, rfl⟩
    · exact Or.inl ⟨rfl, rfl⟩
    · exact Or.inl ⟨rfl, rfl⟩
    · exact Or.inl ⟨rfl, rfl⟩
    · exact Or.inl ⟨rfl, rfl⟩
    · exact Or.inr ⟨_, rfl, rfl⟩
  · intro s s' c h
    obtain ⟨w, _, ⟨T, _, _, _, rfl⟩ | ⟨hf, _, rfl⟩ | ⟨hf, _, rfl⟩⟩ := clock_fetch_cases h
    · exact ⟨rfl, fun _ => rfl⟩
    · refine ⟨rfl, fun hn => ?_⟩
      rw [← ReadPort.signal_iff, hf] at hn
      cases hn
    · refine ⟨rfl, fun hn => ?_⟩
      rw [← ReadPort.signal_iff, hf] at hn
      cases hn
  · intro s c hr
    cases hd : s.rp_decode_2_decode.is_ready c
    · have hf : s.rp_fetch_2_decode.is_ready c = true := by
        rcases hr with hr | hr
        · exact hr
        · rw [hd] at hr
          cases hr
      obtain ⟨d, hv⟩ := ReadPort.front_of_ready hf
      have hi : s.decode_input c =
          some (E.FuncInstr d.raw d.PC d.predicted_taken d.predicted_target) := by
        simp [PerfMIPS.decode_input, hd, hf, hv]
      exact ⟨⟨_, read_instr_eq hi⟩, fun _ => ⟨hf, d, ReadPort.read_eq hf hv⟩⟩
    · obtain ⟨v, hv⟩ := ReadPort.front_of_ready hd
      have hi : s.decode_input c = some v := by
        simp [PerfMIPS.decode_input, hd, hv]
      exact ⟨⟨_, read_instr_eq hi⟩, fun h => absurd h (by simp)⟩

/-- Witness for C20: cycle 4 of the concrete machine, in which fetch receives
the flush and reads the target 32. -/
theorem reads_are_ready_witness :
    toy_new.cycles 0 4 = .ok (toy_at 4) ∧ (toy_at 4).clock_writeback 4 = .ok (toy_wb 4) ∧
    ((toy_wb 4).rp_fetch_flush.is_ready 4 = true ∧
      (toy_wb 4).rp_fetch_flush.front? = some true) ∧
    (toy_wb 4).rp_memory_2_fetch_target.is_ready 4 = true ∧
    (toy_wb 4).rp_memory_2_fetch_target.front? = some 32 ∧
    toy_new.run "t" 3 40 ≠ some (.error .port_not_ready) :=
  ⟨okOr_eq toy_new (by decide!), okOr_eq toy_new (by decide!), by decide!,
    (((reads_are_ready toy (0 : Nat) () (0 : Nat) () 0 0 0).2.2.1 4 (toy_at 4) (toy_wb 4)
      (okOr_eq toy_new (by decide!)) (okOr_eq toy_new (by decide!))).2.1 (by decide!)).1,
    by decide!, (reads_are_ready toy (0 : Nat) () (0 : Nat) () 0 0 0).1 "t" 3 40⟩

end PerfSim
